import Mathlib

/-!
Verification of LA_avdecc: the controller facade (avdeccControllerImplOverrides.cpp), the
logger (logger.cpp), the dynamic linking of pcap (pcapDynamicLinking.cpp), the interface
version (avdecc.cpp) and the errors of the JSON serializer (jsonSerialization.hpp).

Shallow embedding of the controller facade.  A facade call is a
pure function from the controller state to a new state and the list of
effects it produced, in order: commands handed to the underlying controller
entity (with the continuation that was passed along), observer notifications
and calls of `invokeProtectedHandler`.  Every lambda of the source is a
separate function (`...Result`) that is run when the underlying controller
entity delivers the response.
-/

namespace Avdecc

/-! ## Entity model types -/

/-- UniqueIdentifier: a 64-bit EUI-64 value; the all-zeros value is the null identifier. -/
abbrev UniqueIdentifier := Nat

/-- The null identifier, `UniqueIdentifier::getNullUniqueIdentifier()` and `UniqueIdentifier{}`. -/
def getNullUniqueIdentifier : UniqueIdentifier := 0

/-- AvdeccFixedString: the fixed-width string used for names. -/
abbrev AvdeccFixedString := String

/-- Modelled from the spec: the enumeration entity::ControllerEntity::AemCommandStatus is declared
in a header that is not among the sources; the values are the AEM command statuses listed in the
error taxonomy of the specification. -/
inductive AemCommandStatus
  | Success | NotImplemented | NoSuchDescriptor | LockedByOther | AcquiredByOther
  | NotAuthenticated | AuthenticationDisabled | BadArguments | NoResources | InProgress
  | EntityMisbehaving | NotSupported | StreamIsRunning | NetworkError | ProtocolError
  | TimedOut | UnknownEntity | InternalError
  deriving DecidableEq, Repr

/-- Modelled from the spec: the enumeration entity::ControllerEntity::ControlStatus is declared
in a header that is not among the sources; the values are the ACMP control statuses listed in the
error taxonomy of the specification. -/
inductive ControlStatus
  | Success | ListenerUnknownID | TalkerUnknownID | TalkerDestMacFail | TalkerNoStreamIndex
  | TalkerNoBandwidth | TalkerExclusive | ListenerTalkerTimeout | ListenerExclusive
  | StateUnavailable | NotConnected | NoSuchConnection | CouldNotSendMessage
  | TalkerMisbehaving | ListenerMisbehaving | ControllerNotAuthorized | IncompatibleRequest
  | NotSupported | NetworkError | ProtocolError | TimedOut | UnknownEntity | InternalError
  deriving DecidableEq, Repr

/-- Modelled from the spec: `operator!` on an AemCommandStatus is declared in a header that is
not among the sources.  The facade writes `if (!!status)` with the comment "only change ... in
case of success", so `!status` holds exactly when the status is not Success. -/
def AemCommandStatus.operatorNot (status : AemCommandStatus) : Bool :=
  decide (status ≠ AemCommandStatus.Success)

/-- Modelled from the spec: `operator!` on a ControlStatus is declared in a header that is not
among the sources.  The facade writes `if (!!status)` with the comment "no error, update the
connection state", so `!status` holds exactly when the status is not Success. -/
def ControlStatus.operatorNot (status : ControlStatus) : Bool :=
  decide (status ≠ ControlStatus.Success)

/-- The acquire state of a controlled entity (model::AcquireState). -/
inductive AcquireState
  | Undefined | NotAcquired | TryAcquire | Acquired | AcquiredByOther
  deriving DecidableEq, Repr

/-- The descriptor types of the entity model (entity::model::DescriptorType). -/
inductive DescriptorType
  | Entity | Configuration | AudioUnit | StreamInput | StreamOutput | JackInput | JackOutput
  | AvbInterface | ClockSource | MemoryObject | Locale | Strings | StreamPortInput
  | StreamPortOutput | AudioCluster | AudioMap | ClockDomain
  deriving DecidableEq, Repr

abbrev DescriptorIndex := Nat
abbrev ConfigurationIndex := Nat
abbrev StreamIndex := Nat
abbrev StreamPortIndex := Nat
abbrev AudioUnitIndex := Nat
abbrev AvbInterfaceIndex := Nat
abbrev ClockSourceIndex := Nat
abbrev ClockDomainIndex := Nat
abbrev MemoryObjectIndex := Nat
abbrev ClusterIndex := Nat
abbrev StreamFormat := Nat
abbrev SamplingRate := Nat
abbrev ConnectionFlags := Nat

/-- The stream of an entity (entity::model::StreamIdentification). -/
structure StreamIdentification where
  entityID : UniqueIdentifier
  streamIndex : StreamIndex
  deriving DecidableEq, Repr

/-- One audio mapping of a stream port (entity::model::AudioMapping). -/
structure AudioMapping where
  streamIndex : StreamIndex
  streamChannel : Nat
  clusterOffset : Nat
  clusterChannel : Nat
  deriving DecidableEq, Repr

abbrev AudioMappings := List AudioMapping

/-- The connection record of a listener stream: the talker it is connected to (null when it is
not connected), whether it is connected, and the connection flags. -/
structure ConnectionRecord where
  talkerStream : StreamIdentification
  isConnected : Bool
  flags : ConnectionFlags
  deriving DecidableEq, Repr

/-- The key of a name of the dynamic model: descriptor type, configuration, descriptor index. -/
abbrev NameKey := DescriptorType × ConfigurationIndex × DescriptorIndex

/-- Modelled from the spec: ControlledEntityImpl is declared in a header that is not among the
sources.  The record holds what the specification lists for a ControlledEntity: the identity,
the wasAdvertised flag, the AcquireState with the owning controller, and the dynamic model
(current configuration, names, stream formats, running status, audio mappings, sampling rates,
clock sources, memory object lengths, connection records of the listener streams). -/
structure ControlledEntity where
  entityID : UniqueIdentifier
  advertised : Bool
  acquireState : AcquireState
  owningController : UniqueIdentifier
  currentConfiguration : ConfigurationIndex
  entityName : AvdeccFixedString
  entityGroupName : AvdeccFixedString
  names : List (NameKey × AvdeccFixedString)
  streamInputFormats : List (StreamIndex × StreamFormat)
  streamOutputFormats : List (StreamIndex × StreamFormat)
  streamInputRunning : List (StreamIndex × Bool)
  streamOutputRunning : List (StreamIndex × Bool)
  streamPortInputMappings : List (StreamPortIndex × AudioMappings)
  streamPortOutputMappings : List (StreamPortIndex × AudioMappings)
  samplingRates : List (AudioUnitIndex × SamplingRate)
  clockSources : List (ClockDomainIndex × ClockSourceIndex)
  memoryObjectLengths : List ((ConfigurationIndex × MemoryObjectIndex) × Nat)
  connections : List (StreamIndex × ConnectionRecord)
  deriving DecidableEq, Repr

/-- The getter `wasAdvertised()` of a controlled entity. -/
def ControlledEntity.wasAdvertised (entity : ControlledEntity) : Bool := entity.advertised

/-- The getter `isAcquired()`: the entity is acquired by this controller. -/
def ControlledEntity.isAcquired (entity : ControlledEntity) : Bool :=
  decide (entity.acquireState = AcquireState.Acquired)

/-- The getter `isAcquiring()`: an ACQUIRE command of this controller is in flight. -/
def ControlledEntity.isAcquiring (entity : ControlledEntity) : Bool :=
  decide (entity.acquireState = AcquireState.TryAcquire)

/-- The setter `setAcquireState(state)`. -/
def ControlledEntity.setAcquireState (entity : ControlledEntity) (state : AcquireState) :
    ControlledEntity :=
  { entity with acquireState := state }

/-- The setter `setOwningController(owner)`. -/
def ControlledEntity.setOwningController (entity : ControlledEntity) (owner : UniqueIdentifier) :
    ControlledEntity :=
  { entity with owningController := owner }

/-- Write `v` under key `k` in an association list: the first entry with that key is replaced,
and a new entry is appended when there is none. -/
def assocSet {κ : Type} {ν : Type} [DecidableEq κ] (k : κ) (v : ν) : List (κ × ν) → List (κ × ν)
  | [] => [(k, v)]
  | (k0, v0) :: rest => if k0 = k then (k, v) :: rest else (k0, v0) :: assocSet k v rest

/-- Read the value under key `k` in an association list. -/
def assocGet {κ : Type} {ν : Type} [DecidableEq κ] (k : κ) : List (κ × ν) → Option ν
  | [] => none
  | (k0, v0) :: rest => if k0 = k then some v0 else assocGet k rest

/-! ## Effects of the facade -/

/-- The arguments a user completion handler is called with.  An entity pointer is `none` for
`nullptr` and otherwise the entity it points to, as it is when the handler is called. -/
inductive HandlerCall
  | acquireEntity (entity : Option ControlledEntity) (status : AemCommandStatus)
      (owningEntity : UniqueIdentifier)
  | releaseEntity (entity : Option ControlledEntity) (status : AemCommandStatus)
      (owningEntity : UniqueIdentifier)
  | aem (entity : Option ControlledEntity) (status : AemCommandStatus)
  | connectStream (talker : Option ControlledEntity) (listener : Option ControlledEntity)
      (talkerIndex : StreamIndex) (listenerIndex : StreamIndex) (status : ControlStatus)
  | disconnectStream (listener : Option ControlledEntity) (listenerIndex : StreamIndex)
      (status : ControlStatus)
  | disconnectTalkerStream (status : ControlStatus)
  | getListenerStreamState (talker : Option ControlledEntity)
      (listener : Option ControlledEntity) (talkerIndex : StreamIndex)
      (listenerIndex : StreamIndex) (connectionCount : Nat) (flags : ConnectionFlags)
      (status : ControlStatus)
  deriving DecidableEq, Repr

/-- A command handed to the underlying controller entity (`_controller->...`), with the
arguments of the call. -/
inductive Command
  | acquireEntity (target : UniqueIdentifier) (isPersistent : Bool)
      (descriptorType : DescriptorType) (descriptorIndex : DescriptorIndex)
  | releaseEntity (target : UniqueIdentifier) (descriptorType : DescriptorType)
      (descriptorIndex : DescriptorIndex)
  | setConfiguration (target : UniqueIdentifier) (configurationIndex : ConfigurationIndex)
  | setStreamInputFormat (target : UniqueIdentifier) (streamIndex : StreamIndex)
      (streamFormat : StreamFormat)
  | setStreamOutputFormat (target : UniqueIdentifier) (streamIndex : StreamIndex)
      (streamFormat : StreamFormat)
  | setEntityName (target : UniqueIdentifier) (name : AvdeccFixedString)
  | setEntityGroupName (target : UniqueIdentifier) (name : AvdeccFixedString)
  | setConfigurationName (target : UniqueIdentifier) (configurationIndex : ConfigurationIndex)
      (name : AvdeccFixedString)
  | setAudioUnitName (target : UniqueIdentifier) (configurationIndex : ConfigurationIndex)
      (audioUnitIndex : AudioUnitIndex) (name : AvdeccFixedString)
  | setStreamInputName (target : UniqueIdentifier) (configurationIndex : ConfigurationIndex)
      (streamIndex : StreamIndex) (name : AvdeccFixedString)
  | setStreamOutputName (target : UniqueIdentifier) (configurationIndex : ConfigurationIndex)
      (streamIndex : StreamIndex) (name : AvdeccFixedString)
  | setAvbInterfaceName (target : UniqueIdentifier) (configurationIndex : ConfigurationIndex)
      (avbInterfaceIndex : AvbInterfaceIndex) (name : AvdeccFixedString)
  | setClockSourceName (target : UniqueIdentifier) (configurationIndex : ConfigurationIndex)
      (clockSourceIndex : ClockSourceIndex) (name : AvdeccFixedString)
  | setMemoryObjectName (target : UniqueIdentifier) (configurationIndex : ConfigurationIndex)
      (memoryObjectIndex : MemoryObjectIndex) (name : AvdeccFixedString)
  | setAudioClusterName (target : UniqueIdentifier) (configurationIndex : ConfigurationIndex)
      (audioClusterIndex : ClusterIndex) (name : AvdeccFixedString)
  | setClockDomainName (target : UniqueIdentifier) (configurationIndex : ConfigurationIndex)
      (clockDomainIndex : ClockDomainIndex) (name : AvdeccFixedString)
  | setAudioUnitSamplingRate (target : UniqueIdentifier) (audioUnitIndex : AudioUnitIndex)
      (samplingRate : SamplingRate)
  | setClockSource (target : UniqueIdentifier) (clockDomainIndex : ClockDomainIndex)
      (clockSourceIndex : ClockSourceIndex)
  | startStreamInput (target : UniqueIdentifier) (streamIndex : StreamIndex)
  | stopStreamInput (target : UniqueIdentifier) (streamIndex : StreamIndex)
  | startStreamOutput (target : UniqueIdentifier) (streamIndex : StreamIndex)
  | stopStreamOutput (target : UniqueIdentifier) (streamIndex : StreamIndex)
  | addStreamPortInputAudioMappings (target : UniqueIdentifier)
      (streamPortIndex : StreamPortIndex) (mappings : AudioMappings)
  | addStreamPortOutputAudioMappings (target : UniqueIdentifier)
      (streamPortIndex : StreamPortIndex) (mappings : AudioMappings)
  | removeStreamPortInputAudioMappings (target : UniqueIdentifier)
      (streamPortIndex : StreamPortIndex) (mappings : AudioMappings)
  | removeStreamPortOutputAudioMappings (target : UniqueIdentifier)
      (streamPortIndex : StreamPortIndex) (mappings : AudioMappings)
  | setMemoryObjectLength (target : UniqueIdentifier) (configurationIndex : ConfigurationIndex)
      (memoryObjectIndex : MemoryObjectIndex) (length : Nat)
  | connectStream (talkerStream : StreamIdentification) (listenerStream : StreamIdentification)
  | disconnectStream (talkerStream : StreamIdentification)
      (listenerStream : StreamIdentification)
  | disconnectTalkerStream (talkerStream : StreamIdentification)
      (listenerStream : StreamIdentification)
  | getListenerStreamState (listenerStream : StreamIdentification)
  deriving DecidableEq, Repr

/-- The lambda passed along with a command, with the values it captured besides `this` and the
user handler: the set-name lambdas capture `name`, the lambda of the GET_RX_STATE query issued
by disconnectStream captures the status of the disconnect response. -/
inductive Continuation
  | acquireEntity | releaseEntity | setConfiguration | setStreamInputFormat
  | setStreamOutputFormat
  | setEntityName (name : AvdeccFixedString)
  | setEntityGroupName (name : AvdeccFixedString)
  | setConfigurationName (name : AvdeccFixedString)
  | setAudioUnitName (name : AvdeccFixedString)
  | setStreamInputName (name : AvdeccFixedString)
  | setStreamOutputName (name : AvdeccFixedString)
  | setAvbInterfaceName (name : AvdeccFixedString)
  | setClockSourceName (name : AvdeccFixedString)
  | setMemoryObjectName (name : AvdeccFixedString)
  | setAudioClusterName (name : AvdeccFixedString)
  | setClockDomainName (name : AvdeccFixedString)
  | setAudioUnitSamplingRate | setClockSource
  | startStreamInput | stopStreamInput | startStreamOutput | stopStreamOutput
  | addStreamPortInputAudioMappings | addStreamPortOutputAudioMappings
  | removeStreamPortInputAudioMappings | removeStreamPortOutputAudioMappings
  | setMemoryObjectLength
  | connectStream | disconnectStream
  | disconnectStreamGetListenerStreamState (disconnectStatus : ControlStatus)
  | disconnectTalkerStream | getListenerStreamState
  deriving DecidableEq, Repr

/-- What changed in the dynamic model of an entity, as told to the observers. -/
inductive Change
  | acquireState (state : AcquireState) (owningController : UniqueIdentifier)
  | configuration (configurationIndex : ConfigurationIndex)
  | streamInputFormat (streamIndex : StreamIndex) (streamFormat : StreamFormat)
  | streamOutputFormat (streamIndex : StreamIndex) (streamFormat : StreamFormat)
  | entityName (name : AvdeccFixedString)
  | entityGroupName (name : AvdeccFixedString)
  | name (key : NameKey) (name : AvdeccFixedString)
  | samplingRate (audioUnitIndex : AudioUnitIndex) (samplingRate : SamplingRate)
  | clockSource (clockDomainIndex : ClockDomainIndex) (clockSourceIndex : ClockSourceIndex)
  | streamInputRunning (streamIndex : StreamIndex) (isRunning : Bool)
  | streamOutputRunning (streamIndex : StreamIndex) (isRunning : Bool)
  | streamPortInputAudioMappings (streamPortIndex : StreamPortIndex)
  | streamPortOutputAudioMappings (streamPortIndex : StreamPortIndex)
  | memoryObjectLength (configurationIndex : ConfigurationIndex)
      (memoryObjectIndex : MemoryObjectIndex) (length : Nat)
  | streamConnection (listenerIndex : StreamIndex) (record : ConnectionRecord)
  deriving DecidableEq, Repr

/-- One observable step of the facade: a call `_controller->op(args, lambda)` on the underlying
controller entity, a notification of the observers, or a call
`invokeProtectedHandler(handler, args)`, which calls the user handler with these arguments. -/
inductive Effect
  | command (cmd : Command) (k : Continuation)
  | notifyObservers (entityID : UniqueIdentifier) (change : Change)
  | invokeProtectedHandler (call : HandlerCall)
  deriving DecidableEq, Repr

/-! ## The controller and its cache -/

/-- The state of ControllerImpl the facade works on: the entity ID of the underlying controller
entity (`_controller->getEntityID()`) and the cache `_controlledEntities`, each entity stored
under its own entityID. -/
structure ControllerImpl where
  controllerEID : UniqueIdentifier
  controlledEntities : List ControlledEntity
  deriving DecidableEq, Repr

/-- The first entity of a list with the given identifier. -/
def findEntity (entityID : UniqueIdentifier) : List ControlledEntity → Option ControlledEntity
  | [] => none
  | e :: rest => if e.entityID = entityID then some e else findEntity entityID rest

/-- Replace the first entity that has the identifier of `entity` by `entity`, which is how a
mutation through the shared pointer returned by getControlledEntityImpl shows in the cache. -/
def storeEntity (entity : ControlledEntity) : List ControlledEntity → List ControlledEntity
  | [] => []
  | e :: rest =>
    if e.entityID = entity.entityID then entity :: rest else e :: storeEntity entity rest

/-- Modelled from the spec: getControlledEntityImpl is defined in a file that is not among the
sources.  The cache is a "mapping from entityID to ControlledEntity"; the lookup returns the
entity stored under the identifier, or nothing. -/
def getControlledEntityImpl (c : ControllerImpl) (entityID : UniqueIdentifier) :
    Option ControlledEntity :=
  findEntity entityID c.controlledEntities

/-- The outcome of a step that may mutate a cached entity: the controller afterwards, the
entity as it is afterwards, and the effects of the step. -/
structure Updated where
  controller : ControllerImpl
  entity : ControlledEntity
  effects : List Effect
  deriving DecidableEq, Repr

/-- A step that leaves the entity alone. -/
def ControllerImpl.unchanged (c : ControllerImpl) (entity : ControlledEntity) : Updated :=
  { controller := c, entity := entity, effects := [] }

/-- The cached entity now reads `entity`, and the observers are told `change`. -/
def ControllerImpl.mutated (c : ControllerImpl) (entity : ControlledEntity) (change : Change) :
    Updated :=
  { controller := { c with controlledEntities := storeEntity entity c.controlledEntities },
    entity := entity,
    effects := [Effect.notifyObservers entity.entityID change] }

/-- The entity argument of a handler: `entity->wasAdvertised() ? entity : nullptr`. -/
def advertisedOrNull (entity : ControlledEntity) : Option ControlledEntity :=
  if entity.wasAdvertised then some entity else none

/-! ## Update helpers

The `update...` and `handle...StreamStateNotification` members of ControllerImpl are defined in
avdeccControllerImpl.cpp, which is not among the sources. -/

/-- Modelled from the spec: updateAcquiredState is defined in a file that is not among the
sources.  The facade calls it with the owning entity and, on an unexpected failure, with the
`undefined` flag; the status of the response is not passed.  From the acquire state machine of
the specification: with the flag the state is Undefined and the owner is cleared ("any other
failure"); without it a null owner gives NotAcquired (the NotImplemented / NotSupported row,
where the facade passes the null identifier); an owner that is this controller gives Acquired
(the Success row) and any other owner gives AcquiredByOther (the AcquiredByOther row, whose
call has the same shape as the one of the Success row).  The observers are told the new
state. -/
def updateAcquiredState (c : ControllerImpl) (entity : ControlledEntity)
    (owningEntity : UniqueIdentifier) (_descriptorType : DescriptorType)
    (_descriptorIndex : DescriptorIndex) (undefined : Bool) : Updated :=
  let owningController := if undefined then getNullUniqueIdentifier else owningEntity
  let acquireState :=
    if undefined then AcquireState.Undefined
    else if owningEntity = getNullUniqueIdentifier then AcquireState.NotAcquired
    else if owningEntity = c.controllerEID then AcquireState.Acquired
    else AcquireState.AcquiredByOther
  c.mutated ((entity.setAcquireState acquireState).setOwningController owningController)
    (Change.acquireState acquireState owningController)

/-- Modelled from the spec: updateConfiguration is defined in a file that is not among the
sources; "on success apply the mutation to the cached EntityTree": the current configuration
of the dynamic model becomes `configurationIndex`. -/
def updateConfiguration (c : ControllerImpl) (entity : ControlledEntity)
    (configurationIndex : ConfigurationIndex) : Updated :=
  c.mutated { entity with currentConfiguration := configurationIndex }
    (Change.configuration configurationIndex)

/-- Modelled from the spec: updateStreamInputFormat is defined in a file that is not among the
sources; the per-stream format of the dynamic model is set. -/
def updateStreamInputFormat (c : ControllerImpl) (entity : ControlledEntity)
    (streamIndex : StreamIndex) (streamFormat : StreamFormat) : Updated :=
  c.mutated
    { entity with streamInputFormats := assocSet streamIndex streamFormat entity.streamInputFormats }
    (Change.streamInputFormat streamIndex streamFormat)

/-- Modelled from the spec: updateStreamOutputFormat is defined in a file that is not among the
sources; the per-stream format of the dynamic model is set. -/
def updateStreamOutputFormat (c : ControllerImpl) (entity : ControlledEntity)
    (streamIndex : StreamIndex) (streamFormat : StreamFormat) : Updated :=
  c.mutated
    { entity with
      streamOutputFormats := assocSet streamIndex streamFormat entity.streamOutputFormats }
    (Change.streamOutputFormat streamIndex streamFormat)

/-- Modelled from the spec: updateEntityName is defined in a file that is not among the sources;
"for all successful set-name commands, the subsequent cache read returns the new name": the
entity name of the dynamic model is set. -/
def updateEntityName (c : ControllerImpl) (entity : ControlledEntity)
    (entityName : AvdeccFixedString) : Updated :=
  c.mutated { entity with entityName := entityName } (Change.entityName entityName)

/-- Modelled from the spec: updateEntityGroupName is defined in a file that is not among the
sources; the group name of the dynamic model is set. -/
def updateEntityGroupName (c : ControllerImpl) (entity : ControlledEntity)
    (entityGroupName : AvdeccFixedString) : Updated :=
  c.mutated { entity with entityGroupName := entityGroupName }
    (Change.entityGroupName entityGroupName)

/-- Modelled from the spec: the update helpers of the descriptor names (updateConfigurationName,
updateAudioUnitName, updateStreamInputName, updateStreamOutputName, updateAvbInterfaceName,
updateClockSourceName, updateMemoryObjectName, updateAudioClusterName, updateClockDomainName)
are defined in a file that is not among the sources; each sets the name of the descriptor
`(descriptorType, configurationIndex, descriptorIndex)` in the dynamic model. -/
def updateDescriptorName (c : ControllerImpl) (entity : ControlledEntity)
    (descriptorType : DescriptorType) (configurationIndex : ConfigurationIndex)
    (descriptorIndex : DescriptorIndex) (name : AvdeccFixedString) : Updated :=
  c.mutated
    { entity with
      names := assocSet (descriptorType, configurationIndex, descriptorIndex) name entity.names }
    (Change.name (descriptorType, configurationIndex, descriptorIndex) name)

/-- The helper updateConfigurationName: the name of a configuration descriptor. -/
def updateConfigurationName (c : ControllerImpl) (entity : ControlledEntity)
    (configurationIndex : ConfigurationIndex) (name : AvdeccFixedString) : Updated :=
  updateDescriptorName c entity DescriptorType.Configuration configurationIndex 0 name

/-- The helper updateAudioUnitName. -/
def updateAudioUnitName (c : ControllerImpl) (entity : ControlledEntity)
    (configurationIndex : ConfigurationIndex) (audioUnitIndex : AudioUnitIndex)
    (name : AvdeccFixedString) : Updated :=
  updateDescriptorName c entity DescriptorType.AudioUnit configurationIndex audioUnitIndex name

/-- The helper updateStreamInputName. -/
def updateStreamInputName (c : ControllerImpl) (entity : ControlledEntity)
    (configurationIndex : ConfigurationIndex) (streamIndex : StreamIndex)
    (name : AvdeccFixedString) : Updated :=
  updateDescriptorName c entity DescriptorType.StreamInput configurationIndex streamIndex name

/-- The helper updateStreamOutputName. -/
def updateStreamOutputName (c : ControllerImpl) (entity : ControlledEntity)
    (configurationIndex : ConfigurationIndex) (streamIndex : StreamIndex)
    (name : AvdeccFixedString) : Updated :=
  updateDescriptorName c entity DescriptorType.StreamOutput configurationIndex streamIndex name

/-- The helper updateAvbInterfaceName. -/
def updateAvbInterfaceName (c : ControllerImpl) (entity : ControlledEntity)
    (configurationIndex : ConfigurationIndex) (avbInterfaceIndex : AvbInterfaceIndex)
    (name : AvdeccFixedString) : Updated :=
  updateDescriptorName c entity DescriptorType.AvbInterface configurationIndex avbInterfaceIndex
    name

/-- The helper updateClockSourceName. -/
def updateClockSourceName (c : ControllerImpl) (entity : ControlledEntity)
    (configurationIndex : ConfigurationIndex) (clockSourceIndex : ClockSourceIndex)
    (name : AvdeccFixedString) : Updated :=
  updateDescriptorName c entity DescriptorType.ClockSource configurationIndex clockSourceIndex
    name

/-- The helper updateMemoryObjectName. -/
def updateMemoryObjectName (c : ControllerImpl) (entity : ControlledEntity)
    (configurationIndex : ConfigurationIndex) (memoryObjectIndex : MemoryObjectIndex)
    (name : AvdeccFixedString) : Updated :=
  updateDescriptorName c entity DescriptorType.MemoryObject configurationIndex memoryObjectIndex
    name

/-- The helper updateAudioClusterName. -/
def updateAudioClusterName (c : ControllerImpl) (entity : ControlledEntity)
    (configurationIndex : ConfigurationIndex) (audioClusterIndex : ClusterIndex)
    (name : AvdeccFixedString) : Updated :=
  updateDescriptorName c entity DescriptorType.AudioCluster configurationIndex audioClusterIndex
    name

/-- The helper updateClockDomainName. -/
def updateClockDomainName (c : ControllerImpl) (entity : ControlledEntity)
    (configurationIndex : ConfigurationIndex) (clockDomainIndex : ClockDomainIndex)
    (name : AvdeccFixedString) : Updated :=
  updateDescriptorName c entity DescriptorType.ClockDomain configurationIndex clockDomainIndex
    name

/-- Modelled from the spec: updateAudioUnitSamplingRate is defined in a file that is not among
the sources; the sampling rate of the audio unit is set. -/
def updateAudioUnitSamplingRate (c : ControllerImpl) (entity : ControlledEntity)
    (audioUnitIndex : AudioUnitIndex) (samplingRate : SamplingRate) : Updated :=
  c.mutated { entity with samplingRates := assocSet audioUnitIndex samplingRate entity.samplingRates }
    (Change.samplingRate audioUnitIndex samplingRate)

/-- Modelled from the spec: updateClockSource is defined in a file that is not among the
sources; the source selection of the clock domain is set. -/
def updateClockSource (c : ControllerImpl) (entity : ControlledEntity)
    (clockDomainIndex : ClockDomainIndex) (clockSourceIndex : ClockSourceIndex) : Updated :=
  c.mutated
    { entity with clockSources := assocSet clockDomainIndex clockSourceIndex entity.clockSources }
    (Change.clockSource clockDomainIndex clockSourceIndex)

/-- Modelled from the spec: updateStreamInputRunningStatus is defined in a file that is not
among the sources; the running status of the stream is set. -/
def updateStreamInputRunningStatus (c : ControllerImpl) (entity : ControlledEntity)
    (streamIndex : StreamIndex) (isRunning : Bool) : Updated :=
  c.mutated
    { entity with streamInputRunning := assocSet streamIndex isRunning entity.streamInputRunning }
    (Change.streamInputRunning streamIndex isRunning)

/-- Modelled from the spec: updateStreamOutputRunningStatus is defined in a file that is not
among the sources; the running status of the stream is set. -/
def updateStreamOutputRunningStatus (c : ControllerImpl) (entity : ControlledEntity)
    (streamIndex : StreamIndex) (isRunning : Bool) : Updated :=
  c.mutated
    { entity with
      streamOutputRunning := assocSet streamIndex isRunning entity.streamOutputRunning }
    (Change.streamOutputRunning streamIndex isRunning)

/-- The mappings of a stream port, empty when none are recorded. -/
def mappingsOf (streamPortIndex : StreamPortIndex) (l : List (StreamPortIndex × AudioMappings)) :
    AudioMappings :=
  (assocGet streamPortIndex l).getD []

/-- Add mappings to a set of mappings: those already present are not added again. -/
def addMappings (current : AudioMappings) (mappings : AudioMappings) : AudioMappings :=
  current ++ (mappings.filter (fun m => decide (m ∉ current))).dedup

/-- Remove mappings from a set of mappings. -/
def removeMappings (current : AudioMappings) (mappings : AudioMappings) : AudioMappings :=
  current.filter (fun m => decide (m ∉ mappings))

/-- Modelled from the spec: updateStreamPortInputAudioMappingsAdded is defined in a file that is
not among the sources; the mappings are added to the set of mappings of the stream port. -/
def updateStreamPortInputAudioMappingsAdded (c : ControllerImpl) (entity : ControlledEntity)
    (streamPortIndex : StreamPortIndex) (mappings : AudioMappings) : Updated :=
  c.mutated
    { entity with
      streamPortInputMappings :=
        assocSet streamPortIndex
          (addMappings (mappingsOf streamPortIndex entity.streamPortInputMappings) mappings)
          entity.streamPortInputMappings }
    (Change.streamPortInputAudioMappings streamPortIndex)

/-- Modelled from the spec: updateStreamPortOutputAudioMappingsAdded is defined in a file that
is not among the sources; the mappings are added to the set of mappings of the stream port. -/
def updateStreamPortOutputAudioMappingsAdded (c : ControllerImpl) (entity : ControlledEntity)
    (streamPortIndex : StreamPortIndex) (mappings : AudioMappings) : Updated :=
  c.mutated
    { entity with
      streamPortOutputMappings :=
        assocSet streamPortIndex
          (addMappings (mappingsOf streamPortIndex entity.streamPortOutputMappings) mappings)
          entity.streamPortOutputMappings }
    (Change.streamPortOutputAudioMappings streamPortIndex)

/-- Modelled from the spec: updateStreamPortInputAudioMappingsRemoved is defined in a file that
is not among the sources; the mappings are removed from the set of mappings of the stream
port. -/
def updateStreamPortInputAudioMappingsRemoved (c : ControllerImpl) (entity : ControlledEntity)
    (streamPortIndex : StreamPortIndex) (mappings : AudioMappings) : Updated :=
  c.mutated
    { entity with
      streamPortInputMappings :=
        assocSet streamPortIndex
          (removeMappings (mappingsOf streamPortIndex entity.streamPortInputMappings) mappings)
          entity.streamPortInputMappings }
    (Change.streamPortInputAudioMappings streamPortIndex)

/-- Modelled from the spec: updateStreamPortOutputAudioMappingsRemoved is defined in a file that
is not among the sources; the mappings are removed from the set of mappings of the stream
port. -/
def updateStreamPortOutputAudioMappingsRemoved (c : ControllerImpl) (entity : ControlledEntity)
    (streamPortIndex : StreamPortIndex) (mappings : AudioMappings) : Updated :=
  c.mutated
    { entity with
      streamPortOutputMappings :=
        assocSet streamPortIndex
          (removeMappings (mappingsOf streamPortIndex entity.streamPortOutputMappings) mappings)
          entity.streamPortOutputMappings }
    (Change.streamPortOutputAudioMappings streamPortIndex)

/-- Modelled from the spec: updateMemoryObjectLength is defined in a file that is not among the
sources; the length of the memory object is set. -/
def updateMemoryObjectLength (c : ControllerImpl) (entity : ControlledEntity)
    (configurationIndex : ConfigurationIndex) (memoryObjectIndex : MemoryObjectIndex)
    (length : Nat) : Updated :=
  c.mutated
    { entity with
      memoryObjectLengths :=
        assocSet (configurationIndex, memoryObjectIndex) length entity.memoryObjectLengths }
    (Change.memoryObjectLength configurationIndex memoryObjectIndex length)

/-- The connection record written for a listener stream: the talker when connected, the null
talker when not. -/
def connectionRecord (talkerStream : StreamIdentification) (isConnected : Bool)
    (flags : ConnectionFlags) : ConnectionRecord :=
  { talkerStream :=
      if isConnected then talkerStream
      else { entityID := getNullUniqueIdentifier, streamIndex := 0 },
    isConnected := isConnected,
    flags := flags }

/-- Modelled from the spec: handleListenerStreamStateNotification is defined in a file that is
not among the sources.  The connection record is "keyed by (entityID, streamIndex)" of the
listener stream and holds "the talker identification (which may be null)"; "the listener's
connection record is updated with the talker; observers see onStreamConnectionChanged".  A
listener that is not in the cache has no record to update. -/
def handleListenerStreamStateNotification (c : ControllerImpl)
    (talkerStream : StreamIdentification) (listenerStream : StreamIdentification)
    (isConnected : Bool) (flags : ConnectionFlags) (_isSniffed : Bool) :
    ControllerImpl × List Effect :=
  match getControlledEntityImpl c listenerStream.entityID with
  | some listener =>
    let record := connectionRecord talkerStream isConnected flags
    let u := c.mutated
      { listener with
        connections := assocSet listenerStream.streamIndex record listener.connections }
      (Change.streamConnection listenerStream.streamIndex record)
    (u.controller, u.effects)
  | none => (c, [])

/-- Modelled from the spec: handleTalkerStreamStateNotification is defined in a file that is not
among the sources.  Updates of the connection record of a listener stream "flow only from
confirmed GET_RX_STATE / CONNECT_RX_RESPONSE / DISCONNECT_RX_RESPONSE / TX-side
notifications": the TX-side notification updates the record of the listener stream in the
same way. -/
def handleTalkerStreamStateNotification (c : ControllerImpl)
    (talkerStream : StreamIdentification) (listenerStream : StreamIdentification)
    (isConnected : Bool) (flags : ConnectionFlags) (isSniffed : Bool) :
    ControllerImpl × List Effect :=
  handleListenerStreamStateNotification c talkerStream listenerStream isConnected flags isSniffed

/-! ## The facade: Enumeration and Control Protocol (AECP) -/

/-- ControllerImpl::acquireEntity, up to the point where the ACQUIRE command is handed to the
underlying controller entity. -/
def acquireEntity (c : ControllerImpl) (targetEntityID : UniqueIdentifier) (isPersistent : Bool) :
    ControllerImpl × List Effect :=
  let descriptorType := DescriptorType.Entity
  let descriptorIndex : DescriptorIndex := 0
  match getControlledEntityImpl c targetEntityID with
  | some controlledEntity =>
    if controlledEntity.isAcquired || controlledEntity.isAcquiring then
      (c, [])
    else
      ({ c with
         controlledEntities :=
           storeEntity (controlledEntity.setAcquireState AcquireState.TryAcquire)
             c.controlledEntities },
       [Effect.command
          (Command.acquireEntity targetEntityID isPersistent descriptorType descriptorIndex)
          Continuation.acquireEntity])
  | none =>
    (c, [Effect.invokeProtectedHandler
           (HandlerCall.acquireEntity none AemCommandStatus.UnknownEntity
              getNullUniqueIdentifier)])

/-- The lambda of ControllerImpl::acquireEntity, run on the ACQUIRE response. -/
def acquireEntityResult (c : ControllerImpl) (entityID : UniqueIdentifier)
    (status : AemCommandStatus) (owningEntity : UniqueIdentifier)
    (descriptorType : DescriptorType) (descriptorIndex : DescriptorIndex) :
    ControllerImpl × List Effect :=
  match getControlledEntityImpl c entityID with
  | some entity =>
    let u :=
      match status with
      | AemCommandStatus.Success =>
        updateAcquiredState c entity owningEntity descriptorType descriptorIndex false
      | AemCommandStatus.AcquiredByOther =>
        updateAcquiredState c entity owningEntity descriptorType descriptorIndex false
      | AemCommandStatus.NotImplemented =>
        updateAcquiredState c entity getNullUniqueIdentifier descriptorType descriptorIndex false
      | AemCommandStatus.NotSupported =>
        updateAcquiredState c entity getNullUniqueIdentifier descriptorType descriptorIndex false
      | _ =>
        updateAcquiredState c entity getNullUniqueIdentifier descriptorType descriptorIndex true
    (u.controller,
     u.effects ++
       [Effect.invokeProtectedHandler
          (HandlerCall.acquireEntity (advertisedOrNull u.entity) status owningEntity)])
  | none =>
    (c, [Effect.invokeProtectedHandler (HandlerCall.acquireEntity none status owningEntity)])

/-- ControllerImpl::releaseEntity, up to the point where the RELEASE command is handed to the
underlying controller entity. -/
def releaseEntity (c : ControllerImpl) (targetEntityID : UniqueIdentifier) :
    ControllerImpl × List Effect :=
  let descriptorType := DescriptorType.Entity
  let descriptorIndex : DescriptorIndex := 0
  match getControlledEntityImpl c targetEntityID with
  | some _ =>
    (c, [Effect.command (Command.releaseEntity targetEntityID descriptorType descriptorIndex)
           Continuation.releaseEntity])
  | none =>
    (c, [Effect.invokeProtectedHandler
           (HandlerCall.releaseEntity none AemCommandStatus.UnknownEntity
              getNullUniqueIdentifier)])

/-- The lambda of ControllerImpl::releaseEntity, run on the RELEASE response. -/
def releaseEntityResult (c : ControllerImpl) (entityID : UniqueIdentifier)
    (status : AemCommandStatus) (owningEntity : UniqueIdentifier)
    (descriptorType : DescriptorType) (descriptorIndex : DescriptorIndex) :
    ControllerImpl × List Effect :=
  match getControlledEntityImpl c entityID with
  | some entity =>
    let u :=
      if !status.operatorNot then
        updateAcquiredState c entity owningEntity descriptorType descriptorIndex false
      else c.unchanged entity
    (u.controller,
     u.effects ++
       [Effect.invokeProtectedHandler
          (HandlerCall.releaseEntity (advertisedOrNull u.entity) status owningEntity)])
  | none =>
    (c, [Effect.invokeProtectedHandler (HandlerCall.releaseEntity none status owningEntity)])

/-- ControllerImpl::setConfiguration, up to the point where the command is handed to
the underlying controller entity. -/
def setConfiguration (c : ControllerImpl) (targetEntityID : UniqueIdentifier)
    (configurationIndex : ConfigurationIndex) :
    ControllerImpl × List Effect :=
  match getControlledEntityImpl c targetEntityID with
  | some _ =>
    (c, [Effect.command (Command.setConfiguration targetEntityID configurationIndex)
           Continuation.setConfiguration])
  | none =>
    (c, [Effect.invokeProtectedHandler (HandlerCall.aem none AemCommandStatus.UnknownEntity)])

/-- The lambda of ControllerImpl::setConfiguration, run on the response. -/
def setConfigurationResult (c : ControllerImpl)
    (entityID : UniqueIdentifier) (status : AemCommandStatus)
    (configurationIndex : ConfigurationIndex) :
    ControllerImpl × List Effect :=
  match getControlledEntityImpl c entityID with
  | some entity =>
    let u :=
      if !status.operatorNot then updateConfiguration c entity configurationIndex
      else c.unchanged entity
    (u.controller,
     u.effects ++
       [Effect.invokeProtectedHandler (HandlerCall.aem (advertisedOrNull u.entity) status)])
  | none => (c, [Effect.invokeProtectedHandler (HandlerCall.aem none status)])

/-- ControllerImpl::setStreamInputFormat, up to the point where the command is handed to
the underlying controller entity. -/
def setStreamInputFormat (c : ControllerImpl) (targetEntityID : UniqueIdentifier)
    (streamIndex : StreamIndex) (streamFormat : StreamFormat) :
    ControllerImpl × List Effect :=
  match getControlledEntityImpl c targetEntityID with
  | some _ =>
    (c, [Effect.command (Command.setStreamInputFormat targetEntityID streamIndex streamFormat)
           Continuation.setStreamInputFormat])
  | none =>
    (c, [Effect.invokeProtectedHandler (HandlerCall.aem none AemCommandStatus.UnknownEntity)])

/-- The lambda of ControllerImpl::setStreamInputFormat, run on the response. -/
def setStreamInputFormatResult (c : ControllerImpl)
    (entityID : UniqueIdentifier) (status : AemCommandStatus)
    (streamIndex : StreamIndex) (streamFormat : StreamFormat) :
    ControllerImpl × List Effect :=
  match getControlledEntityImpl c entityID with
  | some entity =>
    let u :=
      if !status.operatorNot then updateStreamInputFormat c entity streamIndex streamFormat
      else c.unchanged entity
    (u.controller,
     u.effects ++
       [Effect.invokeProtectedHandler (HandlerCall.aem (advertisedOrNull u.entity) status)])
  | none => (c, [Effect.invokeProtectedHandler (HandlerCall.aem none status)])

/-- ControllerImpl::setStreamOutputFormat, up to the point where the command is handed to
the underlying controller entity. -/
def setStreamOutputFormat (c : ControllerImpl) (targetEntityID : UniqueIdentifier)
    (streamIndex : StreamIndex) (streamFormat : StreamFormat) :
    ControllerImpl × List Effect :=
  match getControlledEntityImpl c targetEntityID with
  | some _ =>
    (c, [Effect.command (Command.setStreamOutputFormat targetEntityID streamIndex streamFormat)
           Continuation.setStreamOutputFormat])
  | none =>
    (c, [Effect.invokeProtectedHandler (HandlerCall.aem none AemCommandStatus.UnknownEntity)])

/-- The lambda of ControllerImpl::setStreamOutputFormat, run on the response. -/
def setStreamOutputFormatResult (c : ControllerImpl)
    (entityID : UniqueIdentifier) (status : AemCommandStatus)
    (streamIndex : StreamIndex) (streamFormat : StreamFormat) :
    ControllerImpl × List Effect :=
  match getControlledEntityImpl c entityID with
  | some entity =>
    let u :=
      if !status.operatorNot then updateStreamOutputFormat c entity streamIndex streamFormat
      else c.unchanged entity
    (u.controller,
     u.effects ++
       [Effect.invokeProtectedHandler (HandlerCall.aem (advertisedOrNull u.entity) status)])
  | none => (c, [Effect.invokeProtectedHandler (HandlerCall.aem none status)])

/-- ControllerImpl::setEntityName, up to the point where the command is handed to
the underlying controller entity. -/
def setEntityName (c : ControllerImpl) (targetEntityID : UniqueIdentifier)
    (name : AvdeccFixedString) :
    ControllerImpl × List Effect :=
  match getControlledEntityImpl c targetEntityID with
  | some _ =>
    (c, [Effect.command (Command.setEntityName targetEntityID name)
           (Continuation.setEntityName name)])
  | none =>
    (c, [Effect.invokeProtectedHandler (HandlerCall.aem none AemCommandStatus.UnknownEntity)])

/-- The lambda of ControllerImpl::setEntityName, run on the response. -/
def setEntityNameResult (c : ControllerImpl) (name : AvdeccFixedString)
    (entityID : UniqueIdentifier) (status : AemCommandStatus) :
    ControllerImpl × List Effect :=
  match getControlledEntityImpl c entityID with
  | some entity =>
    let u :=
      if !status.operatorNot then updateEntityName c entity name
      else c.unchanged entity
    (u.controller,
     u.effects ++
       [Effect.invokeProtectedHandler (HandlerCall.aem (advertisedOrNull u.entity) status)])
  | none => (c, [Effect.invokeProtectedHandler (HandlerCall.aem none status)])

/-- ControllerImpl::setEntityGroupName, up to the point where the command is handed to
the underlying controller entity. -/
def setEntityGroupName (c : ControllerImpl) (targetEntityID : UniqueIdentifier)
    (name : AvdeccFixedString) :
    ControllerImpl × List Effect :=
  match getControlledEntityImpl c targetEntityID with
  | some _ =>
    (c, [Effect.command (Command.setEntityGroupName targetEntityID name)
           (Continuation.setEntityGroupName name)])
  | none =>
    (c, [Effect.invokeProtectedHandler (HandlerCall.aem none AemCommandStatus.UnknownEntity)])

/-- The lambda of ControllerImpl::setEntityGroupName, run on the response. -/
def setEntityGroupNameResult (c : ControllerImpl) (name : AvdeccFixedString)
    (entityID : UniqueIdentifier) (status : AemCommandStatus) :
    ControllerImpl × List Effect :=
  match getControlledEntityImpl c entityID with
  | some entity =>
    let u :=
      if !status.operatorNot then updateEntityGroupName c entity name
      else c.unchanged entity
    (u.controller,
     u.effects ++
       [Effect.invokeProtectedHandler (HandlerCall.aem (advertisedOrNull u.entity) status)])
  | none => (c, [Effect.invokeProtectedHandler (HandlerCall.aem none status)])

/-- ControllerImpl::setConfigurationName, up to the point where the command is handed to
the underlying controller entity. -/
def setConfigurationName (c : ControllerImpl) (targetEntityID : UniqueIdentifier)
    (configurationIndex : ConfigurationIndex) (name : AvdeccFixedString) :
    ControllerImpl × List Effect :=
  match getControlledEntityImpl c targetEntityID with
  | some _ =>
    (c, [Effect.command (Command.setConfigurationName targetEntityID configurationIndex name)
           (Continuation.setConfigurationName name)])
  | none =>
    (c, [Effect.invokeProtectedHandler (HandlerCall.aem none AemCommandStatus.UnknownEntity)])

/-- The lambda of ControllerImpl::setConfigurationName, run on the response. -/
def setConfigurationNameResult (c : ControllerImpl) (name : AvdeccFixedString)
    (entityID : UniqueIdentifier) (status : AemCommandStatus)
    (configurationIndex : ConfigurationIndex) :
    ControllerImpl × List Effect :=
  match getControlledEntityImpl c entityID with
  | some entity =>
    let u :=
      if !status.operatorNot then updateConfigurationName c entity configurationIndex name
      else c.unchanged entity
    (u.controller,
     u.effects ++
       [Effect.invokeProtectedHandler (HandlerCall.aem (advertisedOrNull u.entity) status)])
  | none => (c, [Effect.invokeProtectedHandler (HandlerCall.aem none status)])

/-- ControllerImpl::setAudioUnitName, up to the point where the command is handed to
the underlying controller entity. -/
def setAudioUnitName (c : ControllerImpl) (targetEntityID : UniqueIdentifier)
    (configurationIndex : ConfigurationIndex) (audioUnitIndex : AudioUnitIndex) (name : AvdeccFixedString) :
    ControllerImpl × List Effect :=
  match getControlledEntityImpl c targetEntityID with
  | some _ =>
    (c, [Effect.command (Command.setAudioUnitName targetEntityID configurationIndex audioUnitIndex name)
           (Continuation.setAudioUnitName name)])
  | none =>
    (c, [Effect.invokeProtectedHandler (HandlerCall.aem none AemCommandStatus.UnknownEntity)])

/-- The lambda of ControllerImpl::setAudioUnitName, run on the response. -/
def setAudioUnitNameResult (c : ControllerImpl) (name : AvdeccFixedString)
    (entityID : UniqueIdentifier) (status : AemCommandStatus)
    (configurationIndex : ConfigurationIndex) (audioUnitIndex : AudioUnitIndex) :
    ControllerImpl × List Effect :=
  match getControlledEntityImpl c entityID with
  | some entity =>
    let u :=
      if !status.operatorNot then updateAudioUnitName c entity configurationIndex audioUnitIndex name
      else c.unchanged entity
    (u.controller,
     u.effects ++
       [Effect.invokeProtectedHandler (HandlerCall.aem (advertisedOrNull u.entity) status)])
  | none => (c, [Effect.invokeProtectedHandler (HandlerCall.aem none status)])

/-- ControllerImpl::setStreamInputName, up to the point where the command is handed to
the underlying controller entity. -/
def setStreamInputName (c : ControllerImpl) (targetEntityID : UniqueIdentifier)
    (configurationIndex : ConfigurationIndex) (streamIndex : StreamIndex) (name : AvdeccFixedString) :
    ControllerImpl × List Effect :=
  match getControlledEntityImpl c targetEntityID with
  | some _ =>
    (c, [Effect.command (Command.setStreamInputName targetEntityID configurationIndex streamIndex name)
           (Continuation.setStreamInputName name)])
  | none =>
    (c, [Effect.invokeProtectedHandler (HandlerCall.aem none AemCommandStatus.UnknownEntity)])

/-- The lambda of ControllerImpl::setStreamInputName, run on the response. -/
def setStreamInputNameResult (c : ControllerImpl) (name : AvdeccFixedString)
    (entityID : UniqueIdentifier) (status : AemCommandStatus)
    (configurationIndex : ConfigurationIndex) (streamIndex : StreamIndex) :
    ControllerImpl × List Effect :=
  match getControlledEntityImpl c entityID with
  | some entity =>
    let u :=
      if !status.operatorNot then updateStreamInputName c entity configurationIndex streamIndex name
      else c.unchanged entity
    (u.controller,
     u.effects ++
       [Effect.invokeProtectedHandler (HandlerCall.aem (advertisedOrNull u.entity) status)])
  | none => (c, [Effect.invokeProtectedHandler (HandlerCall.aem none status)])

/-- ControllerImpl::setStreamOutputName, up to the point where the command is handed to
the underlying controller entity. -/
def setStreamOutputName (c : ControllerImpl) (targetEntityID : UniqueIdentifier)
    (configurationIndex : ConfigurationIndex) (streamIndex : StreamIndex) (name : AvdeccFixedString) :
    ControllerImpl × List Effect :=
  match getControlledEntityImpl c targetEntityID with
  | some _ =>
    (c, [Effect.command (Command.setStreamOutputName targetEntityID configurationIndex streamIndex name)
           (Continuation.setStreamOutputName name)])
  | none =>
    (c, [Effect.invokeProtectedHandler (HandlerCall.aem none AemCommandStatus.UnknownEntity)])

/-- The lambda of ControllerImpl::setStreamOutputName, run on the response. -/
def setStreamOutputNameResult (c : ControllerImpl) (name : AvdeccFixedString)
    (entityID : UniqueIdentifier) (status : AemCommandStatus)
    (configurationIndex : ConfigurationIndex) (streamIndex : StreamIndex) :
    ControllerImpl × List Effect :=
  match getControlledEntityImpl c entityID with
  | some entity =>
    let u :=
      if !status.operatorNot then updateStreamOutputName c entity configurationIndex streamIndex name
      else c.unchanged entity
    (u.controller,
     u.effects ++
       [Effect.invokeProtectedHandler (HandlerCall.aem (advertisedOrNull u.entity) status)])
  | none => (c, [Effect.invokeProtectedHandler (HandlerCall.aem none status)])

/-- ControllerImpl::setAvbInterfaceName, up to the point where the command is handed to
the underlying controller entity. -/
def setAvbInterfaceName (c : ControllerImpl) (targetEntityID : UniqueIdentifier)
    (configurationIndex : ConfigurationIndex) (avbInterfaceIndex : AvbInterfaceIndex) (name : AvdeccFixedString) :
    ControllerImpl × List Effect :=
  match getControlledEntityImpl c targetEntityID with
  | some _ =>
    (c, [Effect.command (Command.setAvbInterfaceName targetEntityID configurationIndex avbInterfaceIndex name)
           (Continuation.setAvbInterfaceName name)])
  | none =>
    (c, [Effect.invokeProtectedHandler (HandlerCall.aem none AemCommandStatus.UnknownEntity)])

/-- The lambda of ControllerImpl::setAvbInterfaceName, run on the response. -/
def setAvbInterfaceNameResult (c : ControllerImpl) (name : AvdeccFixedString)
    (entityID : UniqueIdentifier) (status : AemCommandStatus)
    (configurationIndex : ConfigurationIndex) (avbInterfaceIndex : AvbInterfaceIndex) :
    ControllerImpl × List Effect :=
  match getControlledEntityImpl c entityID with
  | some entity =>
    let u :=
      if !status.operatorNot then updateAvbInterfaceName c entity configurationIndex avbInterfaceIndex name
      else c.unchanged entity
    (u.controller,
     u.effects ++
       [Effect.invokeProtectedHandler (HandlerCall.aem (advertisedOrNull u.entity) status)])
  | none => (c, [Effect.invokeProtectedHandler (HandlerCall.aem none status)])

/-- ControllerImpl::setClockSourceName, up to the point where the command is handed to
the underlying controller entity. -/
def setClockSourceName (c : ControllerImpl) (targetEntityID : UniqueIdentifier)
    (configurationIndex : ConfigurationIndex) (clockSourceIndex : ClockSourceIndex) (name : AvdeccFixedString) :
    ControllerImpl × List Effect :=
  match getControlledEntityImpl c targetEntityID with
  | some _ =>
    (c, [Effect.command (Command.setClockSourceName targetEntityID configurationIndex clockSourceIndex name)
           (Continuation.setClockSourceName name)])
  | none =>
    (c, [Effect.invokeProtectedHandler (HandlerCall.aem none AemCommandStatus.UnknownEntity)])

/-- The lambda of ControllerImpl::setClockSourceName, run on the response. -/
def setClockSourceNameResult (c : ControllerImpl) (name : AvdeccFixedString)
    (entityID : UniqueIdentifier) (status : AemCommandStatus)
    (configurationIndex : ConfigurationIndex) (clockSourceIndex : ClockSourceIndex) :
    ControllerImpl × List Effect :=
  match getControlledEntityImpl c entityID with
  | some entity =>
    let u :=
      if !status.operatorNot then updateClockSourceName c entity configurationIndex clockSourceIndex name
      else c.unchanged entity
    (u.controller,
     u.effects ++
       [Effect.invokeProtectedHandler (HandlerCall.aem (advertisedOrNull u.entity) status)])
  | none => (c, [Effect.invokeProtectedHandler (HandlerCall.aem none status)])

/-- ControllerImpl::setMemoryObjectName, up to the point where the command is handed to
the underlying controller entity. -/
def setMemoryObjectName (c : ControllerImpl) (targetEntityID : UniqueIdentifier)
    (configurationIndex : ConfigurationIndex) (memoryObjectIndex : MemoryObjectIndex) (name : AvdeccFixedString) :
    ControllerImpl × List Effect :=
  match getControlledEntityImpl c targetEntityID with
  | some _ =>
    (c, [Effect.command (Command.setMemoryObjectName targetEntityID configurationIndex memoryObjectIndex name)
           (Continuation.setMemoryObjectName name)])
  | none =>
    (c, [Effect.invokeProtectedHandler (HandlerCall.aem none AemCommandStatus.UnknownEntity)])

/-- The lambda of ControllerImpl::setMemoryObjectName, run on the response. -/
def setMemoryObjectNameResult (c : ControllerImpl) (name : AvdeccFixedString)
    (entityID : UniqueIdentifier) (status : AemCommandStatus)
    (configurationIndex : ConfigurationIndex) (memoryObjectIndex : MemoryObjectIndex) :
    ControllerImpl × List Effect :=
  match getControlledEntityImpl c entityID with
  | some entity =>
    let u :=
      if !status.operatorNot then updateMemoryObjectName c entity configurationIndex memoryObjectIndex name
      else c.unchanged entity
    (u.controller,
     u.effects ++
       [Effect.invokeProtectedHandler (HandlerCall.aem (advertisedOrNull u.entity) status)])
  | none => (c, [Effect.invokeProtectedHandler (HandlerCall.aem none status)])

/-- ControllerImpl::setAudioClusterName, up to the point where the command is handed to
the underlying controller entity. -/
def setAudioClusterName (c : ControllerImpl) (targetEntityID : UniqueIdentifier)
    (configurationIndex : ConfigurationIndex) (audioClusterIndex : ClusterIndex) (name : AvdeccFixedString) :
    ControllerImpl × List Effect :=
  match getControlledEntityImpl c targetEntityID with
  | some _ =>
    (c, [Effect.command (Command.setAudioClusterName targetEntityID configurationIndex audioClusterIndex name)
           (Continuation.setAudioClusterName name)])
  | none =>
    (c, [Effect.invokeProtectedHandler (HandlerCall.aem none AemCommandStatus.UnknownEntity)])

/-- The lambda of ControllerImpl::setAudioClusterName, run on the response. -/
def setAudioClusterNameResult (c : ControllerImpl) (name : AvdeccFixedString)
    (entityID : UniqueIdentifier) (status : AemCommandStatus)
    (configurationIndex : ConfigurationIndex) (audioClusterIndex : ClusterIndex) :
    ControllerImpl × List Effect :=
  match getControlledEntityImpl c entityID with
  | some entity =>
    let u :=
      if !status.operatorNot then updateAudioClusterName c entity configurationIndex audioClusterIndex name
      else c.unchanged entity
    (u.controller,
     u.effects ++
       [Effect.invokeProtectedHandler (HandlerCall.aem (advertisedOrNull u.entity) status)])
  | none => (c, [Effect.invokeProtectedHandler (HandlerCall.aem none status)])

/-- ControllerImpl::setClockDomainName, up to the point where the command is handed to
the underlying controller entity. -/
def setClockDomainName (c : ControllerImpl) (targetEntityID : UniqueIdentifier)
    (configurationIndex : ConfigurationIndex) (clockDomainIndex : ClockDomainIndex) (name : AvdeccFixedString) :
    ControllerImpl × List Effect :=
  match getControlledEntityImpl c targetEntityID with
  | some _ =>
    (c, [Effect.command (Command.setClockDomainName targetEntityID configurationIndex clockDomainIndex name)
           (Continuation.setClockDomainName name)])
  | none =>
    (c, [Effect.invokeProtectedHandler (HandlerCall.aem none AemCommandStatus.UnknownEntity)])

/-- The lambda of ControllerImpl::setClockDomainName, run on the response. -/
def setClockDomainNameResult (c : ControllerImpl) (name : AvdeccFixedString)
    (entityID : UniqueIdentifier) (status : AemCommandStatus)
    (configurationIndex : ConfigurationIndex) (clockDomainIndex : ClockDomainIndex) :
    ControllerImpl × List Effect :=
  match getControlledEntityImpl c entityID with
  | some entity =>
    let u :=
      if !status.operatorNot then updateClockDomainName c entity configurationIndex clockDomainIndex name
      else c.unchanged entity
    (u.controller,
     u.effects ++
       [Effect.invokeProtectedHandler (HandlerCall.aem (advertisedOrNull u.entity) status)])
  | none => (c, [Effect.invokeProtectedHandler (HandlerCall.aem none status)])

/-- ControllerImpl::setAudioUnitSamplingRate, up to the point where the command is handed to
the underlying controller entity. -/
def setAudioUnitSamplingRate (c : ControllerImpl) (targetEntityID : UniqueIdentifier)
    (audioUnitIndex : AudioUnitIndex) (samplingRate : SamplingRate) :
    ControllerImpl × List Effect :=
  match getControlledEntityImpl c targetEntityID with
  | some _ =>
    (c, [Effect.command (Command.setAudioUnitSamplingRate targetEntityID audioUnitIndex samplingRate)
           Continuation.setAudioUnitSamplingRate])
  | none =>
    (c, [Effect.invokeProtectedHandler (HandlerCall.aem none AemCommandStatus.UnknownEntity)])

/-- The lambda of ControllerImpl::setAudioUnitSamplingRate, run on the response. -/
def setAudioUnitSamplingRateResult (c : ControllerImpl)
    (entityID : UniqueIdentifier) (status : AemCommandStatus)
    (audioUnitIndex : AudioUnitIndex) (samplingRate : SamplingRate) :
    ControllerImpl × List Effect :=
  match getControlledEntityImpl c entityID with
  | some entity =>
    let u :=
      if !status.operatorNot then updateAudioUnitSamplingRate c entity audioUnitIndex samplingRate
      else c.unchanged entity
    (u.controller,
     u.effects ++
       [Effect.invokeProtectedHandler (HandlerCall.aem (advertisedOrNull u.entity) status)])
  | none => (c, [Effect.invokeProtectedHandler (HandlerCall.aem none status)])

/-- ControllerImpl::setClockSource, up to the point where the command is handed to
the underlying controller entity. -/
def setClockSource (c : ControllerImpl) (targetEntityID : UniqueIdentifier)
    (clockDomainIndex : ClockDomainIndex) (clockSourceIndex : ClockSourceIndex) :
    ControllerImpl × List Effect :=
  match getControlledEntityImpl c targetEntityID with
  | some _ =>
    (c, [Effect.command (Command.setClockSource targetEntityID clockDomainIndex clockSourceIndex)
           Continuation.setClockSource])
  | none =>
    (c, [Effect.invokeProtectedHandler (HandlerCall.aem none AemCommandStatus.UnknownEntity)])

/-- The lambda of ControllerImpl::setClockSource, run on the response. -/
def setClockSourceResult (c : ControllerImpl)
    (entityID : UniqueIdentifier) (status : AemCommandStatus)
    (clockDomainIndex : ClockDomainIndex) (clockSourceIndex : ClockSourceIndex) :
    ControllerImpl × List Effect :=
  match getControlledEntityImpl c entityID with
  | some entity =>
    let u :=
      if !status.operatorNot then updateClockSource c entity clockDomainIndex clockSourceIndex
      else c.unchanged entity
    (u.controller,
     u.effects ++
       [Effect.invokeProtectedHandler (HandlerCall.aem (advertisedOrNull u.entity) status)])
  | none => (c, [Effect.invokeProtectedHandler (HandlerCall.aem none status)])

/-- ControllerImpl::startStreamInput, up to the point where the command is handed to
the underlying controller entity. -/
def startStreamInput (c : ControllerImpl) (targetEntityID : UniqueIdentifier)
    (streamIndex : StreamIndex) :
    ControllerImpl × List Effect :=
  match getControlledEntityImpl c targetEntityID with
  | some _ =>
    (c, [Effect.command (Command.startStreamInput targetEntityID streamIndex)
           Continuation.startStreamInput])
  | none =>
    (c, [Effect.invokeProtectedHandler (HandlerCall.aem none AemCommandStatus.UnknownEntity)])

/-- The lambda of ControllerImpl::startStreamInput, run on the response. -/
def startStreamInputResult (c : ControllerImpl)
    (entityID : UniqueIdentifier) (status : AemCommandStatus)
    (streamIndex : StreamIndex) :
    ControllerImpl × List Effect :=
  match getControlledEntityImpl c entityID with
  | some entity =>
    let u :=
      if !status.operatorNot then updateStreamInputRunningStatus c entity streamIndex true
      else c.unchanged entity
    (u.controller,
     u.effects ++
       [Effect.invokeProtectedHandler (HandlerCall.aem (advertisedOrNull u.entity) status)])
  | none => (c, [Effect.invokeProtectedHandler (HandlerCall.aem none status)])

/-- ControllerImpl::stopStreamInput, up to the point where the command is handed to
the underlying controller entity. -/
def stopStreamInput (c : ControllerImpl) (targetEntityID : UniqueIdentifier)
    (streamIndex : StreamIndex) :
    ControllerImpl × List Effect :=
  match getControlledEntityImpl c targetEntityID with
  | some _ =>
    (c, [Effect.command (Command.stopStreamInput targetEntityID streamIndex)
           Continuation.stopStreamInput])
  | none =>
    (c, [Effect.invokeProtectedHandler (HandlerCall.aem none AemCommandStatus.UnknownEntity)])

/-- The lambda of ControllerImpl::stopStreamInput, run on the response. -/
def stopStreamInputResult (c : ControllerImpl)
    (entityID : UniqueIdentifier) (status : AemCommandStatus)
    (streamIndex : StreamIndex) :
    ControllerImpl × List Effect :=
  match getControlledEntityImpl c entityID with
  | some entity =>
    let u :=
      if !status.operatorNot then updateStreamInputRunningStatus c entity streamIndex false
      else c.unchanged entity
    (u.controller,
     u.effects ++
       [Effect.invokeProtectedHandler (HandlerCall.aem (advertisedOrNull u.entity) status)])
  | none => (c, [Effect.invokeProtectedHandler (HandlerCall.aem none status)])

/-- ControllerImpl::startStreamOutput, up to the point where the command is handed to
the underlying controller entity. -/
def startStreamOutput (c : ControllerImpl) (targetEntityID : UniqueIdentifier)
    (streamIndex : StreamIndex) :
    ControllerImpl × List Effect :=
  match getControlledEntityImpl c targetEntityID with
  | some _ =>
    (c, [Effect.command (Command.startStreamOutput targetEntityID streamIndex)
           Continuation.startStreamOutput])
  | none =>
    (c, [Effect.invokeProtectedHandler (HandlerCall.aem none AemCommandStatus.UnknownEntity)])

/-- The lambda of ControllerImpl::startStreamOutput, run on the response. -/
def startStreamOutputResult (c : ControllerImpl)
    (entityID : UniqueIdentifier) (status : AemCommandStatus)
    (streamIndex : StreamIndex) :
    ControllerImpl × List Effect :=
  match getControlledEntityImpl c entityID with
  | some entity =>
    let u :=
      if !status.operatorNot then updateStreamOutputRunningStatus c entity streamIndex true
      else c.unchanged entity
    (u.controller,
     u.effects ++
       [Effect.invokeProtectedHandler (HandlerCall.aem (advertisedOrNull u.entity) status)])
  | none => (c, [Effect.invokeProtectedHandler (HandlerCall.aem none status)])

/-- ControllerImpl::stopStreamOutput, up to the point where the command is handed to
the underlying controller entity. -/
def stopStreamOutput (c : ControllerImpl) (targetEntityID : UniqueIdentifier)
    (streamIndex : StreamIndex) :
    ControllerImpl × List Effect :=
  match getControlledEntityImpl c targetEntityID with
  | some _ =>
    (c, [Effect.command (Command.stopStreamOutput targetEntityID streamIndex)
           Continuation.stopStreamOutput])
  | none =>
    (c, [Effect.invokeProtectedHandler (HandlerCall.aem none AemCommandStatus.UnknownEntity)])

/-- The lambda of ControllerImpl::stopStreamOutput, run on the response. -/
def stopStreamOutputResult (c : ControllerImpl)
    (entityID : UniqueIdentifier) (status : AemCommandStatus)
    (streamIndex : StreamIndex) :
    ControllerImpl × List Effect :=
  match getControlledEntityImpl c entityID with
  | some entity =>
    let u :=
      if !status.operatorNot then updateStreamOutputRunningStatus c entity streamIndex false
      else c.unchanged entity
    (u.controller,
     u.effects ++
       [Effect.invokeProtectedHandler (HandlerCall.aem (advertisedOrNull u.entity) status)])
  | none => (c, [Effect.invokeProtectedHandler (HandlerCall.aem none status)])

/-- ControllerImpl::addStreamPortInputAudioMappings, up to the point where the command is handed to
the underlying controller entity. -/
def addStreamPortInputAudioMappings (c : ControllerImpl) (targetEntityID : UniqueIdentifier)
    (streamPortIndex : StreamPortIndex) (mappings : AudioMappings) :
    ControllerImpl × List Effect :=
  match getControlledEntityImpl c targetEntityID with
  | some _ =>
    (c, [Effect.command (Command.addStreamPortInputAudioMappings targetEntityID streamPortIndex mappings)
           Continuation.addStreamPortInputAudioMappings])
  | none =>
    (c, [Effect.invokeProtectedHandler (HandlerCall.aem none AemCommandStatus.UnknownEntity)])

/-- The lambda of ControllerImpl::addStreamPortInputAudioMappings, run on the response. -/
def addStreamPortInputAudioMappingsResult (c : ControllerImpl)
    (entityID : UniqueIdentifier) (status : AemCommandStatus)
    (streamPortIndex : StreamPortIndex) (mappings : AudioMappings) :
    ControllerImpl × List Effect :=
  match getControlledEntityImpl c entityID with
  | some entity =>
    let u :=
      if !status.operatorNot then updateStreamPortInputAudioMappingsAdded c entity streamPortIndex mappings
      else c.unchanged entity
    (u.controller,
     u.effects ++
       [Effect.invokeProtectedHandler (HandlerCall.aem (advertisedOrNull u.entity) status)])
  | none => (c, [Effect.invokeProtectedHandler (HandlerCall.aem none status)])

/-- ControllerImpl::addStreamPortOutputAudioMappings, up to the point where the command is handed to
the underlying controller entity. -/
def addStreamPortOutputAudioMappings (c : ControllerImpl) (targetEntityID : UniqueIdentifier)
    (streamPortIndex : StreamPortIndex) (mappings : AudioMappings) :
    ControllerImpl × List Effect :=
  match getControlledEntityImpl c targetEntityID with
  | some _ =>
    (c, [Effect.command (Command.addStreamPortOutputAudioMappings targetEntityID streamPortIndex mappings)
           Continuation.addStreamPortOutputAudioMappings])
  | none =>
    (c, [Effect.invokeProtectedHandler (HandlerCall.aem none AemCommandStatus.UnknownEntity)])

/-- The lambda of ControllerImpl::addStreamPortOutputAudioMappings, run on the response. -/
def addStreamPortOutputAudioMappingsResult (c : ControllerImpl)
    (entityID : UniqueIdentifier) (status : AemCommandStatus)
    (streamPortIndex : StreamPortIndex) (mappings : AudioMappings) :
    ControllerImpl × List Effect :=
  match getControlledEntityImpl c entityID with
  | some entity =>
    let u :=
      if !status.operatorNot then updateStreamPortOutputAudioMappingsAdded c entity streamPortIndex mappings
      else c.unchanged entity
    (u.controller,
     u.effects ++
       [Effect.invokeProtectedHandler (HandlerCall.aem (advertisedOrNull u.entity) status)])
  | none => (c, [Effect.invokeProtectedHandler (HandlerCall.aem none status)])

/-- ControllerImpl::removeStreamPortInputAudioMappings, up to the point where the command is handed to
the underlying controller entity. -/
def removeStreamPortInputAudioMappings (c : ControllerImpl) (targetEntityID : UniqueIdentifier)
    (streamPortIndex : StreamPortIndex) (mappings : AudioMappings) :
    ControllerImpl × List Effect :=
  match getControlledEntityImpl c targetEntityID with
  | some _ =>
    (c, [Effect.command (Command.removeStreamPortInputAudioMappings targetEntityID streamPortIndex mappings)
           Continuation.removeStreamPortInputAudioMappings])
  | none =>
    (c, [Effect.invokeProtectedHandler (HandlerCall.aem none AemCommandStatus.UnknownEntity)])

/-- The lambda of ControllerImpl::removeStreamPortInputAudioMappings, run on the response. -/
def removeStreamPortInputAudioMappingsResult (c : ControllerImpl)
    (entityID : UniqueIdentifier) (status : AemCommandStatus)
    (streamPortIndex : StreamPortIndex) (mappings : AudioMappings) :
    ControllerImpl × List Effect :=
  match getControlledEntityImpl c entityID with
  | some entity =>
    let u :=
      if !status.operatorNot then updateStreamPortInputAudioMappingsRemoved c entity streamPortIndex mappings
      else c.unchanged entity
    (u.controller,
     u.effects ++
       [Effect.invokeProtectedHandler (HandlerCall.aem (advertisedOrNull u.entity) status)])
  | none => (c, [Effect.invokeProtectedHandler (HandlerCall.aem none status)])

/-- ControllerImpl::removeStreamPortOutputAudioMappings, up to the point where the command is handed to
the underlying controller entity. -/
def removeStreamPortOutputAudioMappings (c : ControllerImpl) (targetEntityID : UniqueIdentifier)
    (streamPortIndex : StreamPortIndex) (mappings : AudioMappings) :
    ControllerImpl × List Effect :=
  match getControlledEntityImpl c targetEntityID with
  | some _ =>
    (c, [Effect.command (Command.removeStreamPortOutputAudioMappings targetEntityID streamPortIndex mappings)
           Continuation.removeStreamPortOutputAudioMappings])
  | none =>
    (c, [Effect.invokeProtectedHandler (HandlerCall.aem none AemCommandStatus.UnknownEntity)])

/-- The lambda of ControllerImpl::removeStreamPortOutputAudioMappings, run on the response. -/
def removeStreamPortOutputAudioMappingsResult (c : ControllerImpl)
    (entityID : UniqueIdentifier) (status : AemCommandStatus)
    (streamPortIndex : StreamPortIndex) (mappings : AudioMappings) :
    ControllerImpl × List Effect :=
  match getControlledEntityImpl c entityID with
  | some entity =>
    let u :=
      if !status.operatorNot then updateStreamPortOutputAudioMappingsRemoved c entity streamPortIndex mappings
      else c.unchanged entity
    (u.controller,
     u.effects ++
       [Effect.invokeProtectedHandler (HandlerCall.aem (advertisedOrNull u.entity) status)])
  | none => (c, [Effect.invokeProtectedHandler (HandlerCall.aem none status)])

/-- ControllerImpl::setMemoryObjectLength, up to the point where the command is handed to
the underlying controller entity. -/
def setMemoryObjectLength (c : ControllerImpl) (targetEntityID : UniqueIdentifier)
    (configurationIndex : ConfigurationIndex) (memoryObjectIndex : MemoryObjectIndex) (length : Nat) :
    ControllerImpl × List Effect :=
  match getControlledEntityImpl c targetEntityID with
  | some _ =>
    (c, [Effect.command (Command.setMemoryObjectLength targetEntityID configurationIndex memoryObjectIndex length)
           Continuation.setMemoryObjectLength])
  | none =>
    (c, [Effect.invokeProtectedHandler (HandlerCall.aem none AemCommandStatus.UnknownEntity)])

/-- The lambda of ControllerImpl::setMemoryObjectLength, run on the response. -/
def setMemoryObjectLengthResult (c : ControllerImpl)
    (entityID : UniqueIdentifier) (status : AemCommandStatus)
    (configurationIndex : ConfigurationIndex) (memoryObjectIndex : MemoryObjectIndex) (length : Nat) :
    ControllerImpl × List Effect :=
  match getControlledEntityImpl c entityID with
  | some entity =>
    let u :=
      if !status.operatorNot then updateMemoryObjectLength c entity configurationIndex memoryObjectIndex length
      else c.unchanged entity
    (u.controller,
     u.effects ++
       [Effect.invokeProtectedHandler (HandlerCall.aem (advertisedOrNull u.entity) status)])
  | none => (c, [Effect.invokeProtectedHandler (HandlerCall.aem none status)])

/-! ## The facade: Connection Management Protocol (ACMP) -/

/-- ControllerImpl::connectStream, up to the point where the CONNECT_RX command is handed to the
underlying controller entity. -/
def connectStream (c : ControllerImpl) (talkerStream : StreamIdentification)
    (listenerStream : StreamIdentification) : ControllerImpl × List Effect :=
  match getControlledEntityImpl c listenerStream.entityID with
  | some _ =>
    (c, [Effect.command (Command.connectStream talkerStream listenerStream)
           Continuation.connectStream])
  | none =>
    (c, [Effect.invokeProtectedHandler
           (HandlerCall.connectStream none none 0 0 ControlStatus.UnknownEntity)])

/-- The lambda of ControllerImpl::connectStream, run on the CONNECT_RX response. -/
def connectStreamResult (c : ControllerImpl) (talkerStream : StreamIdentification)
    (listenerStream : StreamIdentification) (_connectionCount : Nat) (flags : ConnectionFlags)
    (status : ControlStatus) : ControllerImpl × List Effect :=
  let n :=
    if !status.operatorNot then
      handleListenerStreamStateNotification c talkerStream listenerStream true flags false
    else (c, [])
  let listener := getControlledEntityImpl n.1 listenerStream.entityID
  let talker := getControlledEntityImpl n.1 talkerStream.entityID
  (n.1,
   n.2 ++
     [Effect.invokeProtectedHandler
        (HandlerCall.connectStream talker listener talkerStream.streamIndex
           listenerStream.streamIndex status)])

/-- ControllerImpl::disconnectStream, up to the point where the DISCONNECT_RX command is handed
to the underlying controller entity. -/
def disconnectStream (c : ControllerImpl) (talkerStream : StreamIdentification)
    (listenerStream : StreamIdentification) : ControllerImpl × List Effect :=
  match getControlledEntityImpl c listenerStream.entityID with
  | some _ =>
    (c, [Effect.command (Command.disconnectStream talkerStream listenerStream)
           Continuation.disconnectStream])
  | none =>
    (c, [Effect.invokeProtectedHandler
           (HandlerCall.disconnectStream none 0 ControlStatus.UnknownEntity)])

/-- The outer lambda of ControllerImpl::disconnectStream, run on the DISCONNECT_RX response.
The first step computes the state, the effects so far and `shouldNotifyHandler`. -/
def disconnectStreamResult (c : ControllerImpl) (talkerStream : StreamIdentification)
    (listenerStream : StreamIdentification) (_connectionCount : Nat) (flags : ConnectionFlags)
    (status : ControlStatus) : ControllerImpl × List Effect :=
  let r : ControllerImpl × List Effect × Bool :=
    if !status.operatorNot then
      let n := handleListenerStreamStateNotification c talkerStream listenerStream false flags false
      (n.1, n.2, true)
    else if status ≠ ControlStatus.NotConnected then
      (c,
       [Effect.command (Command.getListenerStreamState listenerStream)
          (Continuation.disconnectStreamGetListenerStreamState status)],
       false)
    else (c, [], true)
  let shouldNotifyHandler := r.2.2
  if shouldNotifyHandler then
    let listener := getControlledEntityImpl r.1 listenerStream.entityID
    (r.1,
     r.2.1 ++
       [Effect.invokeProtectedHandler
          (HandlerCall.disconnectStream listener listenerStream.streamIndex status)])
  else (r.1, r.2.1)

/-- The inner lambda of ControllerImpl::disconnectStream, run on the response of the
GET_RX_STATE query; `disconnectStatus` is the captured status of the disconnect response.  The
first step computes the state, the effects so far and `controlStatus`. -/
def disconnectStreamGetListenerStreamStateResult (c : ControllerImpl)
    (disconnectStatus : ControlStatus) (talkerStream : StreamIdentification)
    (listenerStream : StreamIdentification) (connectionCount : Nat) (flags : ConnectionFlags)
    (status : ControlStatus) : ControllerImpl × List Effect :=
  let r : ControllerImpl × List Effect × ControlStatus :=
    if !status.operatorNot then
      let isStillConnected := decide (connectionCount ≠ 0)
      let n :=
        handleListenerStreamStateNotification c talkerStream listenerStream isStillConnected
          flags false
      (n.1, n.2, if isStillConnected then disconnectStatus else ControlStatus.Success)
    else (c, [], disconnectStatus)
  let controlStatus := r.2.2
  let listener := getControlledEntityImpl r.1 listenerStream.entityID
  (r.1,
   r.2.1 ++
     [Effect.invokeProtectedHandler
        (HandlerCall.disconnectStream listener listenerStream.streamIndex controlStatus)])

/-- ControllerImpl::disconnectTalkerStream, up to the point where the DISCONNECT_TX command is
handed to the underlying controller entity. -/
def disconnectTalkerStream (c : ControllerImpl) (talkerStream : StreamIdentification)
    (listenerStream : StreamIdentification) : ControllerImpl × List Effect :=
  match getControlledEntityImpl c talkerStream.entityID with
  | some _ =>
    (c, [Effect.command (Command.disconnectTalkerStream talkerStream listenerStream)
           Continuation.disconnectTalkerStream])
  | none =>
    (c, [Effect.invokeProtectedHandler
           (HandlerCall.disconnectTalkerStream ControlStatus.UnknownEntity)])

/-- The lambda of ControllerImpl::disconnectTalkerStream, run on the DISCONNECT_TX response. -/
def disconnectTalkerStreamResult (c : ControllerImpl) (talkerStream : StreamIdentification)
    (listenerStream : StreamIdentification) (_connectionCount : Nat) (flags : ConnectionFlags)
    (status : ControlStatus) : ControllerImpl × List Effect :=
  let st := if status = ControlStatus.NotConnected then ControlStatus.Success else status
  let n :=
    if !status.operatorNot then
      handleTalkerStreamStateNotification c talkerStream listenerStream false flags true
    else (c, [])
  (n.1, n.2 ++ [Effect.invokeProtectedHandler (HandlerCall.disconnectTalkerStream st)])

/-- ControllerImpl::getListenerStreamState, up to the point where the GET_RX_STATE command is
handed to the underlying controller entity. -/
def getListenerStreamState (c : ControllerImpl) (listenerStream : StreamIdentification) :
    ControllerImpl × List Effect :=
  match getControlledEntityImpl c listenerStream.entityID with
  | some _ =>
    (c, [Effect.command (Command.getListenerStreamState listenerStream)
           Continuation.getListenerStreamState])
  | none =>
    (c, [Effect.invokeProtectedHandler
           (HandlerCall.getListenerStreamState none none 0 0 0 0 ControlStatus.UnknownEntity)])

/-- The lambda of ControllerImpl::getListenerStreamState, run on the GET_RX_STATE response.
The source takes the two shared pointers before the notification and the handler reads through
them after it: the entities handed over are the ones cached under the two identifiers when the
handler is called. -/
def getListenerStreamStateResult (c : ControllerImpl) (talkerStream : StreamIdentification)
    (listenerStream : StreamIdentification) (connectionCount : Nat) (flags : ConnectionFlags)
    (status : ControlStatus) : ControllerImpl × List Effect :=
  let n :=
    if !status.operatorNot then
      handleListenerStreamStateNotification c talkerStream listenerStream
        (decide (connectionCount ≠ 0)) flags false
    else (c, [])
  let listener := getControlledEntityImpl n.1 listenerStream.entityID
  let talker := getControlledEntityImpl n.1 talkerStream.entityID
  (n.1,
   n.2 ++
     [Effect.invokeProtectedHandler
        (HandlerCall.getListenerStreamState talker listener talkerStream.streamIndex
           listenerStream.streamIndex connectionCount flags status)])

/-- ControllerImpl::getControlledEntity: the guard handed to the user, empty unless the entity
is cached and was advertised. -/
def getControlledEntity (c : ControllerImpl) (entityID : UniqueIdentifier) :
    Option ControlledEntity :=
  match getControlledEntityImpl c entityID with
  | some entity => if entity.wasAdvertised then some entity else none
  | none => none

/-! ## Calls and responses as data -/

/-- A call of a control operation of the facade, with its arguments (the user handler apart). -/
inductive ControlOp
  | acquireEntity (targetEntityID : UniqueIdentifier) (isPersistent : Bool)
  | releaseEntity (targetEntityID : UniqueIdentifier)
  | setConfiguration (targetEntityID : UniqueIdentifier) (configurationIndex : ConfigurationIndex)
  | setStreamInputFormat (targetEntityID : UniqueIdentifier) (streamIndex : StreamIndex) (streamFormat : StreamFormat)
  | setStreamOutputFormat (targetEntityID : UniqueIdentifier) (streamIndex : StreamIndex) (streamFormat : StreamFormat)
  | setEntityName (targetEntityID : UniqueIdentifier) (name : AvdeccFixedString)
  | setEntityGroupName (targetEntityID : UniqueIdentifier) (name : AvdeccFixedString)
  | setConfigurationName (targetEntityID : UniqueIdentifier) (configurationIndex : ConfigurationIndex) (name : AvdeccFixedString)
  | setAudioUnitName (targetEntityID : UniqueIdentifier) (configurationIndex : ConfigurationIndex) (audioUnitIndex : AudioUnitIndex) (name : AvdeccFixedString)
  | setStreamInputName (targetEntityID : UniqueIdentifier) (configurationIndex : ConfigurationIndex) (streamIndex : StreamIndex) (name : AvdeccFixedString)
  | setStreamOutputName (targetEntityID : UniqueIdentifier) (configurationIndex : ConfigurationIndex) (streamIndex : StreamIndex) (name : AvdeccFixedString)
  | setAvbInterfaceName (targetEntityID : UniqueIdentifier) (configurationIndex : ConfigurationIndex) (avbInterfaceIndex : AvbInterfaceIndex) (name : AvdeccFixedString)
  | setClockSourceName (targetEntityID : UniqueIdentifier) (configurationIndex : ConfigurationIndex) (clockSourceIndex : ClockSourceIndex) (name : AvdeccFixedString)
  | setMemoryObjectName (targetEntityID : UniqueIdentifier) (configurationIndex : ConfigurationIndex) (memoryObjectIndex : MemoryObjectIndex) (name : AvdeccFixedString)
  | setAudioClusterName (targetEntityID : UniqueIdentifier) (configurationIndex : ConfigurationIndex) (audioClusterIndex : ClusterIndex) (name : AvdeccFixedString)
  | setClockDomainName (targetEntityID : UniqueIdentifier) (configurationIndex : ConfigurationIndex) (clockDomainIndex : ClockDomainIndex) (name : AvdeccFixedString)
  | setAudioUnitSamplingRate (targetEntityID : UniqueIdentifier) (audioUnitIndex : AudioUnitIndex) (samplingRate : SamplingRate)
  | setClockSource (targetEntityID : UniqueIdentifier) (clockDomainIndex : ClockDomainIndex) (clockSourceIndex : ClockSourceIndex)
  | startStreamInput (targetEntityID : UniqueIdentifier) (streamIndex : StreamIndex)
  | stopStreamInput (targetEntityID : UniqueIdentifier) (streamIndex : StreamIndex)
  | startStreamOutput (targetEntityID : UniqueIdentifier) (streamIndex : StreamIndex)
  | stopStreamOutput (targetEntityID : UniqueIdentifier) (streamIndex : StreamIndex)
  | addStreamPortInputAudioMappings (targetEntityID : UniqueIdentifier) (streamPortIndex : StreamPortIndex) (mappings : AudioMappings)
  | addStreamPortOutputAudioMappings (targetEntityID : UniqueIdentifier) (streamPortIndex : StreamPortIndex) (mappings : AudioMappings)
  | removeStreamPortInputAudioMappings (targetEntityID : UniqueIdentifier) (streamPortIndex : StreamPortIndex) (mappings : AudioMappings)
  | removeStreamPortOutputAudioMappings (targetEntityID : UniqueIdentifier) (streamPortIndex : StreamPortIndex) (mappings : AudioMappings)
  | setMemoryObjectLength (targetEntityID : UniqueIdentifier) (configurationIndex : ConfigurationIndex) (memoryObjectIndex : MemoryObjectIndex) (length : Nat)
  | connectStream (talkerStream : StreamIdentification) (listenerStream : StreamIdentification)
  | disconnectStream (talkerStream : StreamIdentification) (listenerStream : StreamIdentification)
  | disconnectTalkerStream (talkerStream : StreamIdentification) (listenerStream : StreamIdentification)
  | getListenerStreamState (listenerStream : StreamIdentification)
  deriving DecidableEq, Repr

/-- The entity a control operation looks up in the cache before anything else. -/
def ControlOp.target : ControlOp → UniqueIdentifier
  | ControlOp.acquireEntity targetEntityID _ => targetEntityID
  | ControlOp.releaseEntity targetEntityID => targetEntityID
  | ControlOp.setConfiguration targetEntityID _ => targetEntityID
  | ControlOp.setStreamInputFormat targetEntityID _ _ => targetEntityID
  | ControlOp.setStreamOutputFormat targetEntityID _ _ => targetEntityID
  | ControlOp.setEntityName targetEntityID _ => targetEntityID
  | ControlOp.setEntityGroupName targetEntityID _ => targetEntityID
  | ControlOp.setConfigurationName targetEntityID _ _ => targetEntityID
  | ControlOp.setAudioUnitName targetEntityID _ _ _ => targetEntityID
  | ControlOp.setStreamInputName targetEntityID _ _ _ => targetEntityID
  | ControlOp.setStreamOutputName targetEntityID _ _ _ => targetEntityID
  | ControlOp.setAvbInterfaceName targetEntityID _ _ _ => targetEntityID
  | ControlOp.setClockSourceName targetEntityID _ _ _ => targetEntityID
  | ControlOp.setMemoryObjectName targetEntityID _ _ _ => targetEntityID
  | ControlOp.setAudioClusterName targetEntityID _ _ _ => targetEntityID
  | ControlOp.setClockDomainName targetEntityID _ _ _ => targetEntityID
  | ControlOp.setAudioUnitSamplingRate targetEntityID _ _ => targetEntityID
  | ControlOp.setClockSource targetEntityID _ _ => targetEntityID
  | ControlOp.startStreamInput targetEntityID _ => targetEntityID
  | ControlOp.stopStreamInput targetEntityID _ => targetEntityID
  | ControlOp.startStreamOutput targetEntityID _ => targetEntityID
  | ControlOp.stopStreamOutput targetEntityID _ => targetEntityID
  | ControlOp.addStreamPortInputAudioMappings targetEntityID _ _ => targetEntityID
  | ControlOp.addStreamPortOutputAudioMappings targetEntityID _ _ => targetEntityID
  | ControlOp.removeStreamPortInputAudioMappings targetEntityID _ _ => targetEntityID
  | ControlOp.removeStreamPortOutputAudioMappings targetEntityID _ _ => targetEntityID
  | ControlOp.setMemoryObjectLength targetEntityID _ _ _ => targetEntityID
  | ControlOp.connectStream _ listenerStream => listenerStream.entityID
  | ControlOp.disconnectStream _ listenerStream => listenerStream.entityID
  | ControlOp.disconnectTalkerStream talkerStream _ => talkerStream.entityID
  | ControlOp.getListenerStreamState listenerStream => listenerStream.entityID

/-- Run a control operation: the facade function of the same name. -/
def ControlOp.run (c : ControllerImpl) : ControlOp → ControllerImpl × List Effect
  | ControlOp.acquireEntity targetEntityID isPersistent =>
    Avdecc.acquireEntity c targetEntityID isPersistent
  | ControlOp.releaseEntity targetEntityID => Avdecc.releaseEntity c targetEntityID
  | ControlOp.setConfiguration targetEntityID configurationIndex =>
    Avdecc.setConfiguration c targetEntityID configurationIndex
  | ControlOp.setStreamInputFormat targetEntityID streamIndex streamFormat =>
    Avdecc.setStreamInputFormat c targetEntityID streamIndex streamFormat
  | ControlOp.setStreamOutputFormat targetEntityID streamIndex streamFormat =>
    Avdecc.setStreamOutputFormat c targetEntityID streamIndex streamFormat
  | ControlOp.setEntityName targetEntityID name =>
    Avdecc.setEntityName c targetEntityID name
  | ControlOp.setEntityGroupName targetEntityID name =>
    Avdecc.setEntityGroupName c targetEntityID name
  | ControlOp.setConfigurationName targetEntityID configurationIndex name =>
    Avdecc.setConfigurationName c targetEntityID configurationIndex name
  | ControlOp.setAudioUnitName targetEntityID configurationIndex audioUnitIndex name =>
    Avdecc.setAudioUnitName c targetEntityID configurationIndex audioUnitIndex name
  | ControlOp.setStreamInputName targetEntityID configurationIndex streamIndex name =>
    Avdecc.setStreamInputName c targetEntityID configurationIndex streamIndex name
  | ControlOp.setStreamOutputName targetEntityID configurationIndex streamIndex name =>
    Avdecc.setStreamOutputName c targetEntityID configurationIndex streamIndex name
  | ControlOp.setAvbInterfaceName targetEntityID configurationIndex avbInterfaceIndex name =>
    Avdecc.setAvbInterfaceName c targetEntityID configurationIndex avbInterfaceIndex name
  | ControlOp.setClockSourceName targetEntityID configurationIndex clockSourceIndex name =>
    Avdecc.setClockSourceName c targetEntityID configurationIndex clockSourceIndex name
  | ControlOp.setMemoryObjectName targetEntityID configurationIndex memoryObjectIndex name =>
    Avdecc.setMemoryObjectName c targetEntityID configurationIndex memoryObjectIndex name
  | ControlOp.setAudioClusterName targetEntityID configurationIndex audioClusterIndex name =>
    Avdecc.setAudioClusterName c targetEntityID configurationIndex audioClusterIndex name
  | ControlOp.setClockDomainName targetEntityID configurationIndex clockDomainIndex name =>
    Avdecc.setClockDomainName c targetEntityID configurationIndex clockDomainIndex name
  | ControlOp.setAudioUnitSamplingRate targetEntityID audioUnitIndex samplingRate =>
    Avdecc.setAudioUnitSamplingRate c targetEntityID audioUnitIndex samplingRate
  | ControlOp.setClockSource targetEntityID clockDomainIndex clockSourceIndex =>
    Avdecc.setClockSource c targetEntityID clockDomainIndex clockSourceIndex
  | ControlOp.startStreamInput targetEntityID streamIndex =>
    Avdecc.startStreamInput c targetEntityID streamIndex
  | ControlOp.stopStreamInput targetEntityID streamIndex =>
    Avdecc.stopStreamInput c targetEntityID streamIndex
  | ControlOp.startStreamOutput targetEntityID streamIndex =>
    Avdecc.startStreamOutput c targetEntityID streamIndex
  | ControlOp.stopStreamOutput targetEntityID streamIndex =>
    Avdecc.stopStreamOutput c targetEntityID streamIndex
  | ControlOp.addStreamPortInputAudioMappings targetEntityID streamPortIndex mappings =>
    Avdecc.addStreamPortInputAudioMappings c targetEntityID streamPortIndex mappings
  | ControlOp.addStreamPortOutputAudioMappings targetEntityID streamPortIndex mappings =>
    Avdecc.addStreamPortOutputAudioMappings c targetEntityID streamPortIndex mappings
  | ControlOp.removeStreamPortInputAudioMappings targetEntityID streamPortIndex mappings =>
    Avdecc.removeStreamPortInputAudioMappings c targetEntityID streamPortIndex mappings
  | ControlOp.removeStreamPortOutputAudioMappings targetEntityID streamPortIndex mappings =>
    Avdecc.removeStreamPortOutputAudioMappings c targetEntityID streamPortIndex mappings
  | ControlOp.setMemoryObjectLength targetEntityID configurationIndex memoryObjectIndex length =>
    Avdecc.setMemoryObjectLength c targetEntityID configurationIndex memoryObjectIndex length
  | ControlOp.connectStream talkerStream listenerStream =>
    Avdecc.connectStream c talkerStream listenerStream
  | ControlOp.disconnectStream talkerStream listenerStream =>
    Avdecc.disconnectStream c talkerStream listenerStream
  | ControlOp.disconnectTalkerStream talkerStream listenerStream =>
    Avdecc.disconnectTalkerStream c talkerStream listenerStream
  | ControlOp.getListenerStreamState listenerStream =>
    Avdecc.getListenerStreamState c listenerStream

/-- A response delivered to one of the AECP lambdas of the facade: the values the lambda
captured, then the arguments the underlying controller entity calls it with. -/
inductive AemDelivery
  | acquireEntity (entityID : UniqueIdentifier) (status : AemCommandStatus) (owningEntity : UniqueIdentifier) (descriptorType : DescriptorType) (descriptorIndex : DescriptorIndex)
  | releaseEntity (entityID : UniqueIdentifier) (status : AemCommandStatus) (owningEntity : UniqueIdentifier) (descriptorType : DescriptorType) (descriptorIndex : DescriptorIndex)
  | setConfiguration (entityID : UniqueIdentifier) (status : AemCommandStatus) (configurationIndex : ConfigurationIndex)
  | setStreamInputFormat (entityID : UniqueIdentifier) (status : AemCommandStatus) (streamIndex : StreamIndex) (streamFormat : StreamFormat)
  | setStreamOutputFormat (entityID : UniqueIdentifier) (status : AemCommandStatus) (streamIndex : StreamIndex) (streamFormat : StreamFormat)
  | setEntityName (name : AvdeccFixedString) (entityID : UniqueIdentifier) (status : AemCommandStatus)
  | setEntityGroupName (name : AvdeccFixedString) (entityID : UniqueIdentifier) (status : AemCommandStatus)
  | setConfigurationName (name : AvdeccFixedString) (entityID : UniqueIdentifier) (status : AemCommandStatus) (configurationIndex : ConfigurationIndex)
  | setAudioUnitName (name : AvdeccFixedString) (entityID : UniqueIdentifier) (status : AemCommandStatus) (configurationIndex : ConfigurationIndex) (audioUnitIndex : AudioUnitIndex)
  | setStreamInputName (name : AvdeccFixedString) (entityID : UniqueIdentifier) (status : AemCommandStatus) (configurationIndex : ConfigurationIndex) (streamIndex : StreamIndex)
  | setStreamOutputName (name : AvdeccFixedString) (entityID : UniqueIdentifier) (status : AemCommandStatus) (configurationIndex : ConfigurationIndex) (streamIndex : StreamIndex)
  | setAvbInterfaceName (name : AvdeccFixedString) (entityID : UniqueIdentifier) (status : AemCommandStatus) (configurationIndex : ConfigurationIndex) (avbInterfaceIndex : AvbInterfaceIndex)
  | setClockSourceName (name : AvdeccFixedString) (entityID : UniqueIdentifier) (status : AemCommandStatus) (configurationIndex : ConfigurationIndex) (clockSourceIndex : ClockSourceIndex)
  | setMemoryObjectName (name : AvdeccFixedString) (entityID : UniqueIdentifier) (status : AemCommandStatus) (configurationIndex : ConfigurationIndex) (memoryObjectIndex : MemoryObjectIndex)
  | setAudioClusterName (name : AvdeccFixedString) (entityID : UniqueIdentifier) (status : AemCommandStatus) (configurationIndex : ConfigurationIndex) (audioClusterIndex : ClusterIndex)
  | setClockDomainName (name : AvdeccFixedString) (entityID : UniqueIdentifier) (status : AemCommandStatus) (configurationIndex : ConfigurationIndex) (clockDomainIndex : ClockDomainIndex)
  | setAudioUnitSamplingRate (entityID : UniqueIdentifier) (status : AemCommandStatus) (audioUnitIndex : AudioUnitIndex) (samplingRate : SamplingRate)
  | setClockSource (entityID : UniqueIdentifier) (status : AemCommandStatus) (clockDomainIndex : ClockDomainIndex) (clockSourceIndex : ClockSourceIndex)
  | startStreamInput (entityID : UniqueIdentifier) (status : AemCommandStatus) (streamIndex : StreamIndex)
  | stopStreamInput (entityID : UniqueIdentifier) (status : AemCommandStatus) (streamIndex : StreamIndex)
  | startStreamOutput (entityID : UniqueIdentifier) (status : AemCommandStatus) (streamIndex : StreamIndex)
  | stopStreamOutput (entityID : UniqueIdentifier) (status : AemCommandStatus) (streamIndex : StreamIndex)
  | addStreamPortInputAudioMappings (entityID : UniqueIdentifier) (status : AemCommandStatus) (streamPortIndex : StreamPortIndex) (mappings : AudioMappings)
  | addStreamPortOutputAudioMappings (entityID : UniqueIdentifier) (status : AemCommandStatus) (streamPortIndex : StreamPortIndex) (mappings : AudioMappings)
  | removeStreamPortInputAudioMappings (entityID : UniqueIdentifier) (status : AemCommandStatus) (streamPortIndex : StreamPortIndex) (mappings : AudioMappings)
  | removeStreamPortOutputAudioMappings (entityID : UniqueIdentifier) (status : AemCommandStatus) (streamPortIndex : StreamPortIndex) (mappings : AudioMappings)
  | setMemoryObjectLength (entityID : UniqueIdentifier) (status : AemCommandStatus) (configurationIndex : ConfigurationIndex) (memoryObjectIndex : MemoryObjectIndex) (length : Nat)
  deriving DecidableEq, Repr

/-- The lambda a response is delivered to. -/
def AemDelivery.continuation : AemDelivery → Continuation
  | AemDelivery.acquireEntity _ _ _ _ _ => Continuation.acquireEntity
  | AemDelivery.releaseEntity _ _ _ _ _ => Continuation.releaseEntity
  | AemDelivery.setConfiguration _ _ _ => Continuation.setConfiguration
  | AemDelivery.setStreamInputFormat _ _ _ _ => Continuation.setStreamInputFormat
  | AemDelivery.setStreamOutputFormat _ _ _ _ => Continuation.setStreamOutputFormat
  | AemDelivery.setEntityName name _ _ => Continuation.setEntityName name
  | AemDelivery.setEntityGroupName name _ _ => Continuation.setEntityGroupName name
  | AemDelivery.setConfigurationName name _ _ _ => Continuation.setConfigurationName name
  | AemDelivery.setAudioUnitName name _ _ _ _ => Continuation.setAudioUnitName name
  | AemDelivery.setStreamInputName name _ _ _ _ => Continuation.setStreamInputName name
  | AemDelivery.setStreamOutputName name _ _ _ _ => Continuation.setStreamOutputName name
  | AemDelivery.setAvbInterfaceName name _ _ _ _ => Continuation.setAvbInterfaceName name
  | AemDelivery.setClockSourceName name _ _ _ _ => Continuation.setClockSourceName name
  | AemDelivery.setMemoryObjectName name _ _ _ _ => Continuation.setMemoryObjectName name
  | AemDelivery.setAudioClusterName name _ _ _ _ => Continuation.setAudioClusterName name
  | AemDelivery.setClockDomainName name _ _ _ _ => Continuation.setClockDomainName name
  | AemDelivery.setAudioUnitSamplingRate _ _ _ _ => Continuation.setAudioUnitSamplingRate
  | AemDelivery.setClockSource _ _ _ _ => Continuation.setClockSource
  | AemDelivery.startStreamInput _ _ _ => Continuation.startStreamInput
  | AemDelivery.stopStreamInput _ _ _ => Continuation.stopStreamInput
  | AemDelivery.startStreamOutput _ _ _ => Continuation.startStreamOutput
  | AemDelivery.stopStreamOutput _ _ _ => Continuation.stopStreamOutput
  | AemDelivery.addStreamPortInputAudioMappings _ _ _ _ => Continuation.addStreamPortInputAudioMappings
  | AemDelivery.addStreamPortOutputAudioMappings _ _ _ _ => Continuation.addStreamPortOutputAudioMappings
  | AemDelivery.removeStreamPortInputAudioMappings _ _ _ _ => Continuation.removeStreamPortInputAudioMappings
  | AemDelivery.removeStreamPortOutputAudioMappings _ _ _ _ => Continuation.removeStreamPortOutputAudioMappings
  | AemDelivery.setMemoryObjectLength _ _ _ _ _ => Continuation.setMemoryObjectLength

/-- The status of the response. -/
def AemDelivery.status : AemDelivery → AemCommandStatus
  | AemDelivery.acquireEntity _ status _ _ _ => status
  | AemDelivery.releaseEntity _ status _ _ _ => status
  | AemDelivery.setConfiguration _ status _ => status
  | AemDelivery.setStreamInputFormat _ status _ _ => status
  | AemDelivery.setStreamOutputFormat _ status _ _ => status
  | AemDelivery.setEntityName _ _ status => status
  | AemDelivery.setEntityGroupName _ _ status => status
  | AemDelivery.setConfigurationName _ _ status _ => status
  | AemDelivery.setAudioUnitName _ _ status _ _ => status
  | AemDelivery.setStreamInputName _ _ status _ _ => status
  | AemDelivery.setStreamOutputName _ _ status _ _ => status
  | AemDelivery.setAvbInterfaceName _ _ status _ _ => status
  | AemDelivery.setClockSourceName _ _ status _ _ => status
  | AemDelivery.setMemoryObjectName _ _ status _ _ => status
  | AemDelivery.setAudioClusterName _ _ status _ _ => status
  | AemDelivery.setClockDomainName _ _ status _ _ => status
  | AemDelivery.setAudioUnitSamplingRate _ status _ _ => status
  | AemDelivery.setClockSource _ status _ _ => status
  | AemDelivery.startStreamInput _ status _ => status
  | AemDelivery.stopStreamInput _ status _ => status
  | AemDelivery.startStreamOutput _ status _ => status
  | AemDelivery.stopStreamOutput _ status _ => status
  | AemDelivery.addStreamPortInputAudioMappings _ status _ _ => status
  | AemDelivery.addStreamPortOutputAudioMappings _ status _ _ => status
  | AemDelivery.removeStreamPortInputAudioMappings _ status _ _ => status
  | AemDelivery.removeStreamPortOutputAudioMappings _ status _ _ => status
  | AemDelivery.setMemoryObjectLength _ status _ _ _ => status

/-- The entity the response is about. -/
def AemDelivery.entityID : AemDelivery → UniqueIdentifier
  | AemDelivery.acquireEntity entityID _ _ _ _ => entityID
  | AemDelivery.releaseEntity entityID _ _ _ _ => entityID
  | AemDelivery.setConfiguration entityID _ _ => entityID
  | AemDelivery.setStreamInputFormat entityID _ _ _ => entityID
  | AemDelivery.setStreamOutputFormat entityID _ _ _ => entityID
  | AemDelivery.setEntityName _ entityID _ => entityID
  | AemDelivery.setEntityGroupName _ entityID _ => entityID
  | AemDelivery.setConfigurationName _ entityID _ _ => entityID
  | AemDelivery.setAudioUnitName _ entityID _ _ _ => entityID
  | AemDelivery.setStreamInputName _ entityID _ _ _ => entityID
  | AemDelivery.setStreamOutputName _ entityID _ _ _ => entityID
  | AemDelivery.setAvbInterfaceName _ entityID _ _ _ => entityID
  | AemDelivery.setClockSourceName _ entityID _ _ _ => entityID
  | AemDelivery.setMemoryObjectName _ entityID _ _ _ => entityID
  | AemDelivery.setAudioClusterName _ entityID _ _ _ => entityID
  | AemDelivery.setClockDomainName _ entityID _ _ _ => entityID
  | AemDelivery.setAudioUnitSamplingRate entityID _ _ _ => entityID
  | AemDelivery.setClockSource entityID _ _ _ => entityID
  | AemDelivery.startStreamInput entityID _ _ => entityID
  | AemDelivery.stopStreamInput entityID _ _ => entityID
  | AemDelivery.startStreamOutput entityID _ _ => entityID
  | AemDelivery.stopStreamOutput entityID _ _ => entityID
  | AemDelivery.addStreamPortInputAudioMappings entityID _ _ _ => entityID
  | AemDelivery.addStreamPortOutputAudioMappings entityID _ _ _ => entityID
  | AemDelivery.removeStreamPortInputAudioMappings entityID _ _ _ => entityID
  | AemDelivery.removeStreamPortOutputAudioMappings entityID _ _ _ => entityID
  | AemDelivery.setMemoryObjectLength entityID _ _ _ _ => entityID

/-- Run the lambda on the response. -/
def AemDelivery.run (c : ControllerImpl) : AemDelivery → ControllerImpl × List Effect
  | AemDelivery.acquireEntity entityID status owningEntity descriptorType descriptorIndex =>
    acquireEntityResult c entityID status owningEntity descriptorType descriptorIndex
  | AemDelivery.releaseEntity entityID status owningEntity descriptorType descriptorIndex =>
    releaseEntityResult c entityID status owningEntity descriptorType descriptorIndex
  | AemDelivery.setConfiguration entityID status configurationIndex =>
    setConfigurationResult c entityID status configurationIndex
  | AemDelivery.setStreamInputFormat entityID status streamIndex streamFormat =>
    setStreamInputFormatResult c entityID status streamIndex streamFormat
  | AemDelivery.setStreamOutputFormat entityID status streamIndex streamFormat =>
    setStreamOutputFormatResult c entityID status streamIndex streamFormat
  | AemDelivery.setEntityName name entityID status =>
    setEntityNameResult c name entityID status
  | AemDelivery.setEntityGroupName name entityID status =>
    setEntityGroupNameResult c name entityID status
  | AemDelivery.setConfigurationName name entityID status configurationIndex =>
    setConfigurationNameResult c name entityID status configurationIndex
  | AemDelivery.setAudioUnitName name entityID status configurationIndex audioUnitIndex =>
    setAudioUnitNameResult c name entityID status configurationIndex audioUnitIndex
  | AemDelivery.setStreamInputName name entityID status configurationIndex streamIndex =>
    setStreamInputNameResult c name entityID status configurationIndex streamIndex
  | AemDelivery.setStreamOutputName name entityID status configurationIndex streamIndex =>
    setStreamOutputNameResult c name entityID status configurationIndex streamIndex
  | AemDelivery.setAvbInterfaceName name entityID status configurationIndex avbInterfaceIndex =>
    setAvbInterfaceNameResult c name entityID status configurationIndex avbInterfaceIndex
  | AemDelivery.setClockSourceName name entityID status configurationIndex clockSourceIndex =>
    setClockSourceNameResult c name entityID status configurationIndex clockSourceIndex
  | AemDelivery.setMemoryObjectName name entityID status configurationIndex memoryObjectIndex =>
    setMemoryObjectNameResult c name entityID status configurationIndex memoryObjectIndex
  | AemDelivery.setAudioClusterName name entityID status configurationIndex audioClusterIndex =>
    setAudioClusterNameResult c name entityID status configurationIndex audioClusterIndex
  | AemDelivery.setClockDomainName name entityID status configurationIndex clockDomainIndex =>
    setClockDomainNameResult c name entityID status configurationIndex clockDomainIndex
  | AemDelivery.setAudioUnitSamplingRate entityID status audioUnitIndex samplingRate =>
    setAudioUnitSamplingRateResult c entityID status audioUnitIndex samplingRate
  | AemDelivery.setClockSource entityID status clockDomainIndex clockSourceIndex =>
    setClockSourceResult c entityID status clockDomainIndex clockSourceIndex
  | AemDelivery.startStreamInput entityID status streamIndex =>
    startStreamInputResult c entityID status streamIndex
  | AemDelivery.stopStreamInput entityID status streamIndex =>
    stopStreamInputResult c entityID status streamIndex
  | AemDelivery.startStreamOutput entityID status streamIndex =>
    startStreamOutputResult c entityID status streamIndex
  | AemDelivery.stopStreamOutput entityID status streamIndex =>
    stopStreamOutputResult c entityID status streamIndex
  | AemDelivery.addStreamPortInputAudioMappings entityID status streamPortIndex mappings =>
    addStreamPortInputAudioMappingsResult c entityID status streamPortIndex mappings
  | AemDelivery.addStreamPortOutputAudioMappings entityID status streamPortIndex mappings =>
    addStreamPortOutputAudioMappingsResult c entityID status streamPortIndex mappings
  | AemDelivery.removeStreamPortInputAudioMappings entityID status streamPortIndex mappings =>
    removeStreamPortInputAudioMappingsResult c entityID status streamPortIndex mappings
  | AemDelivery.removeStreamPortOutputAudioMappings entityID status streamPortIndex mappings =>
    removeStreamPortOutputAudioMappingsResult c entityID status streamPortIndex mappings
  | AemDelivery.setMemoryObjectLength entityID status configurationIndex memoryObjectIndex length =>
    setMemoryObjectLengthResult c entityID status configurationIndex memoryObjectIndex length

/-- A response delivered to one of the ACMP lambdas of the facade: the values the lambda
captured, then the arguments the underlying controller entity calls it with. -/
inductive AcmpDelivery
  | connectStream (talkerStream : StreamIdentification) (listenerStream : StreamIdentification) (connectionCount : Nat) (flags : ConnectionFlags) (status : ControlStatus)
  | disconnectStream (talkerStream : StreamIdentification) (listenerStream : StreamIdentification) (connectionCount : Nat) (flags : ConnectionFlags) (status : ControlStatus)
  | disconnectStreamGetListenerStreamState (disconnectStatus : ControlStatus) (talkerStream : StreamIdentification) (listenerStream : StreamIdentification) (connectionCount : Nat) (flags : ConnectionFlags) (status : ControlStatus)
  | disconnectTalkerStream (talkerStream : StreamIdentification) (listenerStream : StreamIdentification) (connectionCount : Nat) (flags : ConnectionFlags) (status : ControlStatus)
  | getListenerStreamState (talkerStream : StreamIdentification) (listenerStream : StreamIdentification) (connectionCount : Nat) (flags : ConnectionFlags) (status : ControlStatus)
  deriving DecidableEq, Repr

/-- The lambda a response is delivered to. -/
def AcmpDelivery.continuation : AcmpDelivery → Continuation
  | AcmpDelivery.connectStream _ _ _ _ _ => Continuation.connectStream
  | AcmpDelivery.disconnectStream _ _ _ _ _ => Continuation.disconnectStream
  | AcmpDelivery.disconnectStreamGetListenerStreamState disconnectStatus _ _ _ _ _ => Continuation.disconnectStreamGetListenerStreamState disconnectStatus
  | AcmpDelivery.disconnectTalkerStream _ _ _ _ _ => Continuation.disconnectTalkerStream
  | AcmpDelivery.getListenerStreamState _ _ _ _ _ => Continuation.getListenerStreamState

/-- The status of the response. -/
def AcmpDelivery.status : AcmpDelivery → ControlStatus
  | AcmpDelivery.connectStream _ _ _ _ status => status
  | AcmpDelivery.disconnectStream _ _ _ _ status => status
  | AcmpDelivery.disconnectStreamGetListenerStreamState _ _ _ _ _ status => status
  | AcmpDelivery.disconnectTalkerStream _ _ _ _ status => status
  | AcmpDelivery.getListenerStreamState _ _ _ _ status => status

/-- Run the lambda on the response. -/
def AcmpDelivery.run (c : ControllerImpl) : AcmpDelivery → ControllerImpl × List Effect
  | AcmpDelivery.connectStream talkerStream listenerStream connectionCount flags status =>
    connectStreamResult c talkerStream listenerStream connectionCount flags status
  | AcmpDelivery.disconnectStream talkerStream listenerStream connectionCount flags status =>
    disconnectStreamResult c talkerStream listenerStream connectionCount flags status
  | AcmpDelivery.disconnectStreamGetListenerStreamState disconnectStatus talkerStream listenerStream connectionCount flags status =>
    disconnectStreamGetListenerStreamStateResult c disconnectStatus talkerStream listenerStream connectionCount flags status
  | AcmpDelivery.disconnectTalkerStream talkerStream listenerStream connectionCount flags status =>
    disconnectTalkerStreamResult c talkerStream listenerStream connectionCount flags status
  | AcmpDelivery.getListenerStreamState talkerStream listenerStream connectionCount flags status =>
    getListenerStreamStateResult c talkerStream listenerStream connectionCount flags status

/-! ## Reading the effects -/

/-- The calls of the user handler among the effects, in order. -/
def handlerCalls : List Effect → List HandlerCall
  | [] => []
  | Effect.invokeProtectedHandler call :: rest => call :: handlerCalls rest
  | _ :: rest => handlerCalls rest

/-- The commands handed to the underlying controller entity among the effects, in order. -/
def commandsIssued : List Effect → List (Command × Continuation)
  | [] => []
  | Effect.command cmd k :: rest => (cmd, k) :: commandsIssued rest
  | _ :: rest => commandsIssued rest

/-- The entity pointers a handler is called with. -/
def HandlerCall.entities : HandlerCall → List (Option ControlledEntity)
  | HandlerCall.acquireEntity entity _ _ => [entity]
  | HandlerCall.releaseEntity entity _ _ => [entity]
  | HandlerCall.aem entity _ => [entity]
  | HandlerCall.connectStream talker listener _ _ _ => [talker, listener]
  | HandlerCall.disconnectStream listener _ _ => [listener]
  | HandlerCall.disconnectTalkerStream _ => []
  | HandlerCall.getListenerStreamState talker listener _ _ _ _ _ => [talker, listener]

/-- The AEM command status a handler is called with, for the handlers of the AECP operations. -/
def HandlerCall.aemStatus : HandlerCall → Option AemCommandStatus
  | HandlerCall.acquireEntity _ status _ => some status
  | HandlerCall.releaseEntity _ status _ => some status
  | HandlerCall.aem _ status => some status
  | _ => none

/-- The ACMP control status a handler is called with, for the handlers of the ACMP operations. -/
def HandlerCall.controlStatus : HandlerCall → Option ControlStatus
  | HandlerCall.connectStream _ _ _ _ status => some status
  | HandlerCall.disconnectStream _ _ status => some status
  | HandlerCall.disconnectTalkerStream status => some status
  | HandlerCall.getListenerStreamState _ _ _ _ _ _ status => some status
  | _ => none

/-- The owning entity a handler is called with, for the acquire and release handlers. -/
def HandlerCall.owningEntity : HandlerCall → Option UniqueIdentifier
  | HandlerCall.acquireEntity _ _ owningEntity => some owningEntity
  | HandlerCall.releaseEntity _ _ owningEntity => some owningEntity
  | _ => none

/-- The handler is told that the entity is unknown. -/
def HandlerCall.isUnknownEntity (call : HandlerCall) : Bool :=
  call.aemStatus = some AemCommandStatus.UnknownEntity ||
    call.controlStatus = some ControlStatus.UnknownEntity

/-! ## Sample states -/

/-- An entity with an empty dynamic model, for concrete evaluations. -/
def sampleEntity (entityID : UniqueIdentifier) (advertised : Bool) (state : AcquireState) :
    ControlledEntity :=
  { entityID := entityID, advertised := advertised, acquireState := state,
    owningController := getNullUniqueIdentifier, currentConfiguration := 0,
    entityName := "", entityGroupName := "", names := [], streamInputFormats := [],
    streamOutputFormats := [], streamInputRunning := [], streamOutputRunning := [],
    streamPortInputMappings := [], streamPortOutputMappings := [], samplingRates := [],
    clockSources := [], memoryObjectLengths := [], connections := [] }

/-- A controller with entity ID 0xC0 whose cache holds the single advertised entity 0x11 in
the given acquire state. -/
def sampleController (state : AcquireState) : ControllerImpl :=
  { controllerEID := 0xC0, controlledEntities := [sampleEntity 0x11 true state] }

/-- A controller with entity ID 0xC0 and an empty cache. -/
def emptyController : ControllerImpl :=
  { controllerEID := 0xC0, controlledEntities := [] }

/-! ## Shutdown and construction of the controller -/

/-- One step of the destructor of ControllerImpl, in order of execution. -/
inductive ShutdownEffect
  | setDelegateNull
  | onEntityOffline (entity : ControlledEntity)
  | removeAllObservers
  | releaseEntity (entityID : UniqueIdentifier) (descriptorType : DescriptorType)
      (descriptorIndex : DescriptorIndex)
  deriving DecidableEq, Repr

/-- ControllerImpl::~ControllerImpl: the delegate is removed, the cached entities are moved out
of the controller (the cache is empty from then on), the observers are told onEntityOffline for
every entity that was advertised, all observers are removed, and a RELEASE command without
result handler is sent for every entity acquired by this controller. -/
def ControllerImpl.destructor (c : ControllerImpl) : ControllerImpl × List ShutdownEffect :=
  let controlledEntities := c.controlledEntities
  ({ c with controlledEntities := [] },
   [ShutdownEffect.setDelegateNull] ++
     ((controlledEntities.filter (fun entity => entity.wasAdvertised)).map
       (fun entity => ShutdownEffect.onEntityOffline entity)) ++
     [ShutdownEffect.removeAllObservers] ++
     ((controlledEntities.filter (fun controlledEntity => controlledEntity.isAcquired)).map
       (fun controlledEntity =>
         ShutdownEffect.releaseEntity controlledEntity.entityID DescriptorType.Entity 0)))

/-- The entities the observers are told to be offline, in order. -/
def offlineNotifications : List ShutdownEffect → List ControlledEntity
  | [] => []
  | ShutdownEffect.onEntityOffline entity :: rest => entity :: offlineNotifications rest
  | _ :: rest => offlineNotifications rest

/-- Modelled from the spec: the enumeration EndStation::Error is declared in a header that is
not among the sources.  The constructor names four of its values, the ones the specification
lists for opening the protocol interface; `other` stands for every other value. -/
inductive EndStationError
  | InvalidProtocolInterfaceType | InterfaceOpenError | InterfaceNotFound | InterfaceInvalid
  | other (code : Nat)
  deriving DecidableEq, Repr

/-- Modelled from the spec: the enumeration Controller::Error is declared in a header that is
not among the sources; the values are the construction errors listed in the error taxonomy of
the specification. -/
inductive ControllerError
  | InvalidProtocolInterfaceType | InterfaceOpenError | InterfaceNotFound | InterfaceInvalid
  | DuplicateProgID | InternalError
  deriving DecidableEq, Repr

/-- What the body of the `try` block of the constructor can throw that one of the two handlers
catches: an EndStation::Exception with its error, or a controller Exception with its error. -/
inductive ConstructionFailure
  | endStation (err : EndStationError)
  | controller (err : ControllerError)
  deriving DecidableEq, Repr

/-- ControllerImpl::ControllerImpl: `attempt` is the outcome of the `try` block (creating the
end station and adding the controller entity to it), the entity ID of the controller entity
when it succeeds.  A failure is thrown again as a controller Exception with the error computed
here; a new controller has an empty cache.  The assertions of the two fallback branches are
left out. -/
def ControllerImpl.create (attempt : Except ConstructionFailure UniqueIdentifier) :
    Except ControllerError ControllerImpl :=
  match attempt with
  | Except.ok controllerEID =>
    Except.ok { controllerEID := controllerEID, controlledEntities := [] }
  | Except.error (ConstructionFailure.endStation err) =>
    match err with
    | EndStationError.InvalidProtocolInterfaceType =>
      Except.error ControllerError.InvalidProtocolInterfaceType
    | EndStationError.InterfaceOpenError => Except.error ControllerError.InterfaceOpenError
    | EndStationError.InterfaceNotFound => Except.error ControllerError.InterfaceNotFound
    | EndStationError.InterfaceInvalid => Except.error ControllerError.InterfaceInvalid
    | _ => Except.error ControllerError.InternalError
  | Except.error (ConstructionFailure.controller _) =>
    Except.error ControllerError.InternalError

/-! ## The logger (logger.cpp) -/

/-- Modelled from the spec: the enumeration Logger::Level is declared in a header that is not
among the sources; the levels are the ones of the specification and of levelToString, in
increasing order. -/
inductive Level
  | Trace | Debug | Info | Warn | Error | None
  deriving DecidableEq, Repr

/-- The numeric value of a level, which orders the levels. -/
def Level.toNat : Level → Nat
  | Level.Trace => 0
  | Level.Debug => 1
  | Level.Info => 2
  | Level.Warn => 3
  | Level.Error => 4
  | Level.None => 5

/-- The state of LoggerImpl: the registered observers (pointers, as numbers) and the level. -/
structure LoggerImpl where
  observers : List Nat
  level : Level
  deriving DecidableEq, Repr

/-- A logger as constructed: no observer, level None. -/
def LoggerImpl.new : LoggerImpl :=
  { observers := [], level := Level.None }

/-- LoggerImpl::setLevel.  `debugBuild` says whether DEBUG is defined; when it is not, Trace and
Debug are replaced by Info. -/
def LoggerImpl.setLevel (debugBuild : Bool) (logger : LoggerImpl) (level : Level) : LoggerImpl :=
  let stored := { logger with level := level }
  if !debugBuild then
    if stored.level = Level.Trace ∨ stored.level = Level.Debug then
      { stored with level := Level.Info }
    else stored
  else stored

/-- LoggerImpl::getLevel. -/
def LoggerImpl.getLevel (logger : LoggerImpl) : Level := logger.level

/-- The listener stream a response delivered to an ACMP lambda is about. -/
def AcmpDelivery.listenerStream : AcmpDelivery → StreamIdentification
  | AcmpDelivery.connectStream _ listenerStream _ _ _ => listenerStream
  | AcmpDelivery.disconnectStream _ listenerStream _ _ _ => listenerStream
  | AcmpDelivery.disconnectStreamGetListenerStreamState _ _ listenerStream _ _ _ =>
    listenerStream
  | AcmpDelivery.disconnectTalkerStream _ listenerStream _ _ _ => listenerStream
  | AcmpDelivery.getListenerStreamState _ listenerStream _ _ _ => listenerStream

/-- A controller with entity ID 0xC0 whose cache holds the advertised and acquired entity 0x11,
the entity 0x12 that was not advertised, and the advertised entity 0x13. -/
def shutdownSample : ControllerImpl :=
  { controllerEID := 0xC0,
    controlledEntities :=
      [sampleEntity 0x11 true AcquireState.Acquired,
       sampleEntity 0x12 false AcquireState.NotAcquired,
       sampleEntity 0x13 true AcquireState.NotAcquired] }

/-! ## The logger: observers and messages -/

/-- A call `o->onLog(layer, level, message)` of a registered observer. -/
structure OnLog where
  observer : Nat
  layer : Nat
  level : Level
  message : String
  deriving DecidableEq, Repr

/-- LoggerImpl::registerObserver: the observer is pushed at the back of the vector. -/
def LoggerImpl.registerObserver (logger : LoggerImpl) (observer : Nat) : LoggerImpl :=
  { logger with observers := logger.observers ++ [observer] }

/-- The loop of std::remove_if on a vector of pointers: `unvisited` is the part of the vector
not visited yet and `first` the position the next kept element is written to.  An element for
which the predicate holds is skipped, any other is assigned to position `first`.  The length
of the vector never changes. -/
def removeIfLoop {α : Type} (pred : α → Bool) : List α → Nat → List α → List α
  | v, _, [] => v
  | v, first, x :: unvisited =>
    if pred x then removeIfLoop pred v first unvisited
    else removeIfLoop pred (v.set first x) (first + 1) unvisited

/-- The effect of `std::remove_if(begin, end, pred)` on the vector; the returned iterator, the
new logical end, is not part of the vector. -/
def std_remove_if {α : Type} (pred : α → Bool) (v : List α) : List α :=
  removeIfLoop pred v 0 v

/-- LoggerImpl::unregisterObserver: std::remove_if over the observers, with the returned
iterator dropped (the source does not erase). -/
def LoggerImpl.unregisterObserver (logger : LoggerImpl) (observer : Nat) : LoggerImpl :=
  { logger with observers := std_remove_if (fun o => decide (o = observer)) logger.observers }

/-- LoggerImpl::log: nothing when the level of the message is below the level of the logger,
else onLog on every element of the observers, in order. -/
def LoggerImpl.log (logger : LoggerImpl) (layer : Nat) (level : Level) (message : String) :
    List OnLog :=
  if level.toNat < logger.level.toNat then []
  else
    logger.observers.map
      (fun o => { observer := o, layer := layer, level := level, message := message })

/-- Modelled from the spec: the enumeration Logger::Layer is declared in a header that is not
among the sources.  The record holds the numeric values of its enumerators named in
layerToString: the four reserved layers and FirstUserLayer. -/
structure LayerValues where
  Protocol : Nat
  Controller : Nat
  Talker : Nat
  Listener : Nat
  FirstUserLayer : Nat
  deriving DecidableEq, Repr

/-- The character of a decimal digit. -/
def decimalDigitChar : Nat → Char
  | 0 => '0'
  | 1 => '1'
  | 2 => '2'
  | 3 => '3'
  | 4 => '4'
  | 5 => '5'
  | 6 => '6'
  | 7 => '7'
  | 8 => '8'
  | _ => '9'

/-- The characters of std::to_string of a non-negative integer: the decimal digits, the most
significant first, and "0" for zero. -/
def to_string (n : Nat) : String :=
  if n = 0 then "0" else String.mk ((Nat.digits 10 n).reverse.map decimalDigitChar)

/-- LoggerImpl::layerToString, for a layer given by its numeric value.  A value below
FirstUserLayer that is none of the four reserved layers falls out of the switch (its assertion
is left out) and is named like a user layer. -/
def layerToString (values : LayerValues) (layer : Nat) : String :=
  let named : Option String :=
    if layer < values.FirstUserLayer then
      if layer = values.Protocol then some "Protocol"
      else if layer = values.Controller then some "Controller"
      else if layer = values.Talker then some "Talker"
      else if layer = values.Listener then some "Listener"
      else none
    else none
  match named with
  | some name => name
  | none => "Layer" ++ to_string layer

/-- Sample values of the layers: the reserved layers 0 to 3 and the first user layer 100. -/
def sampleLayerValues : LayerValues :=
  { Protocol := 0, Controller := 1, Talker := 2, Listener := 3, FirstUserLayer := 100 }

/-! ## Interface version (avdecc.cpp) -/

/-- The function isCompatibleWithInterfaceVersion.  The constant InterfaceVersion is declared
in a header that is not among the sources and is a parameter here. -/
def isCompatibleWithInterfaceVersion (InterfaceVersion : Nat) (interfaceVersion : Nat) : Bool :=
  decide (InterfaceVersion = interfaceVersion)

/-- The function getInterfaceVersion. -/
def getInterfaceVersion (InterfaceVersion : Nat) : Nat := InterfaceVersion

/-! ## Errors of the JSON serializer (jsonSerialization.hpp) -/

/-- The enumeration jsonSerializer::SerializationError. -/
inductive SerializationError
  | NoError | AccessDenied | UnknownEntity | InvalidDescriptorIndex | Incomplete
  | NotSupported | InternalError
  deriving DecidableEq, Repr

/-- The numeric code of a SerializationError. -/
def SerializationError.toNat : SerializationError → Nat
  | SerializationError.NoError => 0
  | SerializationError.AccessDenied => 1
  | SerializationError.UnknownEntity => 2
  | SerializationError.InvalidDescriptorIndex => 3
  | SerializationError.Incomplete => 4
  | SerializationError.NotSupported => 98
  | SerializationError.InternalError => 99

/-- The enumeration jsonSerializer::DeserializationError. -/
inductive DeserializationError
  | NoError | AccessDenied | UnsupportedDumpVersion | ParseError | MissingKey | InvalidKey
  | InvalidValue | OtherError | DuplicateEntityID | NotCompliant | NotSupported | InternalError
  deriving DecidableEq, Repr

/-- The numeric code of a DeserializationError. -/
def DeserializationError.toNat : DeserializationError → Nat
  | DeserializationError.NoError => 0
  | DeserializationError.AccessDenied => 1
  | DeserializationError.UnsupportedDumpVersion => 2
  | DeserializationError.ParseError => 3
  | DeserializationError.MissingKey => 4
  | DeserializationError.InvalidKey => 5
  | DeserializationError.InvalidValue => 6
  | DeserializationError.OtherError => 7
  | DeserializationError.DuplicateEntityID => 8
  | DeserializationError.NotCompliant => 9
  | DeserializationError.NotSupported => 98
  | DeserializationError.InternalError => 99

/-- The overload `operator!(SerializationError)`, which compares the numeric codes. -/
def SerializationError.operatorNot (error : SerializationError) : Bool :=
  decide (error.toNat = SerializationError.NoError.toNat)

/-- The overload `operator!(DeserializationError)`, which compares the numeric codes. -/
def DeserializationError.operatorNot (error : DeserializationError) : Bool :=
  decide (error.toNat = DeserializationError.NoError.toNat)

/-- The eleven errors the deserializer can report. -/
def deserializerReports : List DeserializationError :=
  [DeserializationError.AccessDenied, DeserializationError.UnsupportedDumpVersion,
   DeserializationError.ParseError, DeserializationError.MissingKey,
   DeserializationError.InvalidKey, DeserializationError.InvalidValue,
   DeserializationError.OtherError, DeserializationError.DuplicateEntityID,
   DeserializationError.NotCompliant, DeserializationError.NotSupported,
   DeserializationError.InternalError]

/-! ## Dynamic linking of pcap (pcapDynamicLinking.cpp) -/

/-- What the dynamic loader answers during the construction of PcapInterface: the name of the
library (the macro PCAP_LIBRARY), the handle DL_OPEN returns (0 is the null handle), the
address DL_SYM finds for each symbol of the library (a symbol that is not listed, or listed
with 0, is not found), the string pcap_lib_version returns and the text of DL_ERROR. -/
structure DynamicLoader where
  library : String
  handle : Nat
  symbols : List (String × Nat)
  version : String
  error : String
  deriving DecidableEq, Repr

/-- The macro DL_SYM on the opened library: the address of the symbol, 0 when not found. -/
def DL_SYM (env : DynamicLoader) (name : String) : Nat :=
  (assocGet name env.symbols).getD 0

/-- The record PcapInterface::pImpl: the library handle and the ten function pointers, 0 for
nullptr. -/
structure pImpl where
  libraryHandle : Nat
  open_live_ptr : Nat
  fileno_ptr : Nat
  close_ptr : Nat
  compile_ptr : Nat
  setfilter_ptr : Nat
  freecode_ptr : Nat
  next_ex_ptr : Nat
  loop_ptr : Nat
  breakloop_ptr : Nat
  sendpacket_ptr : Nat
  deriving DecidableEq, Repr

/-- One step of the constructor or of the destructor of PcapInterface that is seen from
outside: an item handed to the logger, or DL_CLOSE of a handle. -/
inductive PcapEffect
  | logItem (level : Level) (message : String)
  | dlClose (handle : Nat)
  deriving DecidableEq, Repr

/-- The names of the ten pcap functions the constructor looks up. -/
def pcapFunctions : List String :=
  ["pcap_open_live", "pcap_fileno", "pcap_close", "pcap_compile", "pcap_setfilter",
   "pcap_freecode", "pcap_next_ex", "pcap_loop", "pcap_breakloop", "pcap_sendpacket"]

/-- PcapInterface::PcapInterface: the record after construction and the steps seen from
outside.  The first step computes the record with the function pointers and
`foundAllFunctions`. -/
def PcapInterface (env : DynamicLoader) : pImpl × List PcapEffect :=
  let fresh : pImpl :=
    { libraryHandle := 0, open_live_ptr := 0, fileno_ptr := 0, close_ptr := 0,
      compile_ptr := 0, setfilter_ptr := 0, freecode_ptr := 0, next_ex_ptr := 0,
      loop_ptr := 0, breakloop_ptr := 0, sendpacket_ptr := 0 }
  let handle := env.handle
  if handle ≠ 0 then
    let r : pImpl × Bool :=
      if DL_SYM env "pcap_lib_version" ≠ 0 then
        let p : pImpl :=
          { fresh with
            open_live_ptr := DL_SYM env "pcap_open_live",
            fileno_ptr := DL_SYM env "pcap_fileno",
            close_ptr := DL_SYM env "pcap_close",
            compile_ptr := DL_SYM env "pcap_compile",
            setfilter_ptr := DL_SYM env "pcap_setfilter",
            freecode_ptr := DL_SYM env "pcap_freecode",
            next_ex_ptr := DL_SYM env "pcap_next_ex",
            loop_ptr := DL_SYM env "pcap_loop",
            breakloop_ptr := DL_SYM env "pcap_breakloop",
            sendpacket_ptr := DL_SYM env "pcap_sendpacket" }
        (p,
         decide (p.open_live_ptr ≠ 0) && decide (p.fileno_ptr ≠ 0) && decide (p.close_ptr ≠ 0) &&
           decide (p.compile_ptr ≠ 0) && decide (p.setfilter_ptr ≠ 0) &&
           decide (p.freecode_ptr ≠ 0) && decide (p.next_ex_ptr ≠ 0) &&
           decide (p.loop_ptr ≠ 0) && decide (p.breakloop_ptr ≠ 0) &&
           decide (p.sendpacket_ptr ≠ 0))
      else (fresh, false)
    let foundAllFunctions := r.2
    if foundAllFunctions then
      ({ r.1 with libraryHandle := handle },
       [PcapEffect.logItem Level.Info ("Using " ++ env.library ++ ": " ++ env.version)])
    else
      (r.1,
       [PcapEffect.logItem Level.Error
          ("Cannot find all the required functions in " ++ env.library),
        PcapEffect.dlClose handle])
  else
    (fresh,
     [PcapEffect.logItem Level.Error ("Cannot load " ++ env.library ++ ": " ++ env.error)])

/-- PcapInterface::~PcapInterface: the library is closed when its handle was stored. -/
def PcapInterface.destructor (p : pImpl) : List PcapEffect :=
  if p.libraryHandle ≠ 0 then [PcapEffect.dlClose p.libraryHandle] else []

/-- PcapInterface::is_available. -/
def is_available (p : pImpl) : Bool :=
  decide (p.libraryHandle ≠ 0)

/-- The handles closed among the steps, in order. -/
def closedHandles : List PcapEffect → List Nat
  | [] => []
  | PcapEffect.dlClose handle :: rest => handle :: closedHandles rest
  | _ :: rest => closedHandles rest

/-- A loader that opens libpcap.so with handle 7 and finds the given symbols. -/
def sampleLoader (symbols : List (String × Nat)) : DynamicLoader :=
  { library := "libpcap.so", handle := 7, symbols := symbols, version := "libpcap 1.9",
    error := "" }

/-- The symbol pcap_lib_version and the ten pcap functions, each with an address. -/
def allPcapSymbols : List (String × Nat) :=
  [("pcap_lib_version", 100), ("pcap_open_live", 101), ("pcap_fileno", 102),
   ("pcap_close", 103), ("pcap_compile", 104), ("pcap_setfilter", 105),
   ("pcap_freecode", 106), ("pcap_next_ex", 107), ("pcap_loop", 108),
   ("pcap_breakloop", 109), ("pcap_sendpacket", 110)]

/-! ## More readers of calls and responses -/

/-- The owning entity of the response, for the lambdas of acquireEntity and releaseEntity. -/
def AemDelivery.owningEntity : AemDelivery → Option UniqueIdentifier
  | AemDelivery.acquireEntity _ _ owningEntity _ _ => some owningEntity
  | AemDelivery.releaseEntity _ _ owningEntity _ _ => some owningEntity
  | _ => none

/-! ## The update a lambda makes on Success -/

/-- The call of an update helper that the lambda a response is delivered to makes when the
status of the response is Success, for the cached entity `entity`: the helper and the
arguments are the ones of the source of each lambda. -/
def AemDelivery.updateOnSuccess (c : ControllerImpl) (entity : ControlledEntity) :
    AemDelivery → Updated
  | AemDelivery.acquireEntity _ _ owningEntity descriptorType descriptorIndex =>
    updateAcquiredState c entity owningEntity descriptorType descriptorIndex false
  | AemDelivery.releaseEntity _ _ owningEntity descriptorType descriptorIndex =>
    updateAcquiredState c entity owningEntity descriptorType descriptorIndex false
  | AemDelivery.setConfiguration _ _ configurationIndex =>
    updateConfiguration c entity configurationIndex
  | AemDelivery.setStreamInputFormat _ _ streamIndex streamFormat =>
    updateStreamInputFormat c entity streamIndex streamFormat
  | AemDelivery.setStreamOutputFormat _ _ streamIndex streamFormat =>
    updateStreamOutputFormat c entity streamIndex streamFormat
  | AemDelivery.setEntityName name _ _ =>
    updateEntityName c entity name
  | AemDelivery.setEntityGroupName name _ _ =>
    updateEntityGroupName c entity name
  | AemDelivery.setConfigurationName name _ _ configurationIndex =>
    updateConfigurationName c entity configurationIndex name
  | AemDelivery.setAudioUnitName name _ _ configurationIndex audioUnitIndex =>
    updateAudioUnitName c entity configurationIndex audioUnitIndex name
  | AemDelivery.setStreamInputName name _ _ configurationIndex streamIndex =>
    updateStreamInputName c entity configurationIndex streamIndex name
  | AemDelivery.setStreamOutputName name _ _ configurationIndex streamIndex =>
    updateStreamOutputName c entity configurationIndex streamIndex name
  | AemDelivery.setAvbInterfaceName name _ _ configurationIndex avbInterfaceIndex =>
    updateAvbInterfaceName c entity configurationIndex avbInterfaceIndex name
  | AemDelivery.setClockSourceName name _ _ configurationIndex clockSourceIndex =>
    updateClockSourceName c entity configurationIndex clockSourceIndex name
  | AemDelivery.setMemoryObjectName name _ _ configurationIndex memoryObjectIndex =>
    updateMemoryObjectName c entity configurationIndex memoryObjectIndex name
  | AemDelivery.setAudioClusterName name _ _ configurationIndex audioClusterIndex =>
    updateAudioClusterName c entity configurationIndex audioClusterIndex name
  | AemDelivery.setClockDomainName name _ _ configurationIndex clockDomainIndex =>
    updateClockDomainName c entity configurationIndex clockDomainIndex name
  | AemDelivery.setAudioUnitSamplingRate _ _ audioUnitIndex samplingRate =>
    updateAudioUnitSamplingRate c entity audioUnitIndex samplingRate
  | AemDelivery.setClockSource _ _ clockDomainIndex clockSourceIndex =>
    updateClockSource c entity clockDomainIndex clockSourceIndex
  | AemDelivery.startStreamInput _ _ streamIndex =>
    updateStreamInputRunningStatus c entity streamIndex true
  | AemDelivery.stopStreamInput _ _ streamIndex =>
    updateStreamInputRunningStatus c entity streamIndex false
  | AemDelivery.startStreamOutput _ _ streamIndex =>
    updateStreamOutputRunningStatus c entity streamIndex true
  | AemDelivery.stopStreamOutput _ _ streamIndex =>
    updateStreamOutputRunningStatus c entity streamIndex false
  | AemDelivery.addStreamPortInputAudioMappings _ _ streamPortIndex mappings =>
    updateStreamPortInputAudioMappingsAdded c entity streamPortIndex mappings
  | AemDelivery.addStreamPortOutputAudioMappings _ _ streamPortIndex mappings =>
    updateStreamPortOutputAudioMappingsAdded c entity streamPortIndex mappings
  | AemDelivery.removeStreamPortInputAudioMappings _ _ streamPortIndex mappings =>
    updateStreamPortInputAudioMappingsRemoved c entity streamPortIndex mappings
  | AemDelivery.removeStreamPortOutputAudioMappings _ _ streamPortIndex mappings =>
    updateStreamPortOutputAudioMappingsRemoved c entity streamPortIndex mappings
  | AemDelivery.setMemoryObjectLength _ _ configurationIndex memoryObjectIndex length =>
    updateMemoryObjectLength c entity configurationIndex memoryObjectIndex length

/-- The cached entity shows the change the observers are told. -/
def Change.holdsIn (entity : ControlledEntity) : Change → Prop
  | Change.acquireState state owningController =>
    entity.acquireState = state ∧ entity.owningController = owningController
  | Change.configuration configurationIndex => entity.currentConfiguration = configurationIndex
  | Change.streamInputFormat streamIndex streamFormat =>
    assocGet streamIndex entity.streamInputFormats = some streamFormat
  | Change.streamOutputFormat streamIndex streamFormat =>
    assocGet streamIndex entity.streamOutputFormats = some streamFormat
  | Change.entityName text => entity.entityName = text
  | Change.entityGroupName text => entity.entityGroupName = text
  | Change.name key text => assocGet key entity.names = some text
  | Change.samplingRate audioUnitIndex rate =>
    assocGet audioUnitIndex entity.samplingRates = some rate
  | Change.clockSource clockDomainIndex clockSourceIndex =>
    assocGet clockDomainIndex entity.clockSources = some clockSourceIndex
  | Change.streamInputRunning streamIndex isRunning =>
    assocGet streamIndex entity.streamInputRunning = some isRunning
  | Change.streamOutputRunning streamIndex isRunning =>
    assocGet streamIndex entity.streamOutputRunning = some isRunning
  | Change.streamPortInputAudioMappings streamPortIndex =>
    (assocGet streamPortIndex entity.streamPortInputMappings).isSome = true
  | Change.streamPortOutputAudioMappings streamPortIndex =>
    (assocGet streamPortIndex entity.streamPortOutputMappings).isSome = true
  | Change.memoryObjectLength configurationIndex memoryObjectIndex length =>
    assocGet (configurationIndex, memoryObjectIndex) entity.memoryObjectLengths = some length
  | Change.streamConnection listenerIndex record =>
    assocGet listenerIndex entity.connections = some record

/-- The entity with the connection record of one of its listener streams written. -/
def ControlledEntity.withConnection (entity : ControlledEntity) (streamIndex : StreamIndex)
    (record : ConnectionRecord) : ControlledEntity :=
  { entity with connections := assocSet streamIndex record entity.connections }

/-- The talker stream a response delivered to an ACMP lambda carries. -/
def AcmpDelivery.talkerStream : AcmpDelivery → StreamIdentification
  | AcmpDelivery.connectStream talkerStream _ _ _ _ => talkerStream
  | AcmpDelivery.disconnectStream talkerStream _ _ _ _ => talkerStream
  | AcmpDelivery.disconnectStreamGetListenerStreamState _ talkerStream _ _ _ _ => talkerStream
  | AcmpDelivery.disconnectTalkerStream talkerStream _ _ _ _ => talkerStream
  | AcmpDelivery.getListenerStreamState talkerStream _ _ _ _ => talkerStream

/-- The connection flags a response delivered to an ACMP lambda carries. -/
def AcmpDelivery.flags : AcmpDelivery → ConnectionFlags
  | AcmpDelivery.connectStream _ _ _ flags _ => flags
  | AcmpDelivery.disconnectStream _ _ _ flags _ => flags
  | AcmpDelivery.disconnectStreamGetListenerStreamState _ _ _ _ flags _ => flags
  | AcmpDelivery.disconnectTalkerStream _ _ _ flags _ => flags
  | AcmpDelivery.getListenerStreamState _ _ _ flags _ => flags

/-- The connection state the lambda passes to the stream state notification when the status of
the response is Success: connected for CONNECT_RX, not connected for DISCONNECT_RX and
DISCONNECT_TX, and `connectionCount != 0` for the two lambdas of GET_RX_STATE. -/
def AcmpDelivery.connectedOnSuccess : AcmpDelivery → Bool
  | AcmpDelivery.connectStream _ _ _ _ _ => true
  | AcmpDelivery.disconnectStream _ _ _ _ _ => false
  | AcmpDelivery.disconnectStreamGetListenerStreamState _ _ _ connectionCount _ _ =>
    decide (connectionCount ≠ 0)
  | AcmpDelivery.disconnectTalkerStream _ _ _ _ _ => false
  | AcmpDelivery.getListenerStreamState _ _ connectionCount _ _ => decide (connectionCount ≠ 0)

/-! ## Cache lemmas -/

theorem findEntity_entityID {entityID : UniqueIdentifier} {l : List ControlledEntity}
    {e : ControlledEntity} (h : findEntity entityID l = some e) : e.entityID = entityID := by
  induction l with
  | nil => simp [findEntity] at h
  | cons x rest ih =>
    unfold findEntity at h
    split at h
    · rename_i hx
      cases h
      exact hx
    · exact ih h

theorem findEntity_storeEntity {l : List ControlledEntity} {e e2 : ControlledEntity}
    (h : findEntity e2.entityID l = some e) :
    findEntity e2.entityID (storeEntity e2 l) = some e2 := by
  induction l with
  | nil => simp [findEntity] at h
  | cons x rest ih =>
    unfold findEntity at h
    unfold storeEntity
    split at h
    · rename_i hx
      simp [hx, findEntity]
    · rename_i hx
      simp [hx, findEntity, ih h]

theorem getControlledEntityImpl_mutated {c : ControllerImpl} {e : ControlledEntity}
    {entityID : UniqueIdentifier} (e2 : ControlledEntity) (change : Change)
    (h : getControlledEntityImpl c entityID = some e) (hid : e2.entityID = e.entityID) :
    getControlledEntityImpl (c.mutated e2 change).controller entityID = some e2 := by
  have h1 : e.entityID = entityID := findEntity_entityID h
  have h2 : e2.entityID = entityID := hid.trans h1
  subst h2
  exact findEntity_storeEntity h

/-- The handler call of an effect list that consists of exactly one handler call. -/
theorem handlerCalls_append_handler (effects : List Effect) (call : HandlerCall) :
    handlerCalls (effects ++ [Effect.invokeProtectedHandler call]) =
      handlerCalls effects ++ [call] := by
  induction effects with
  | nil => rfl
  | cons x rest ih => cases x <;> simp [handlerCalls, ih]

/-- The notification of a listener stream state calls no user handler. -/
theorem handlerCalls_handleListenerStreamStateNotification (c : ControllerImpl)
    (talkerStream listenerStream : StreamIdentification) (isConnected : Bool)
    (flags : ConnectionFlags) (isSniffed : Bool) :
    handlerCalls
        (handleListenerStreamStateNotification c talkerStream listenerStream isConnected flags
          isSniffed).2 = [] := by
  unfold handleListenerStreamStateNotification
  split <;> simp [ControllerImpl.mutated, handlerCalls]

/-! ## disconnectStream -/

/-- C1 (the code at the failing input): when the DISCONNECT_RX response carries NotConnected,
the outer lambda of disconnectStream issues no command, leaves the cache as it is and calls
the handler once with the status NotConnected itself: the status is not turned into Success,
as it is in disconnectTalkerStream. -/
theorem disconnectStream_notConnected_is_passed_through (c : ControllerImpl)
    (talkerStream listenerStream : StreamIdentification) (connectionCount : Nat)
    (flags : ConnectionFlags) :
    disconnectStreamResult c talkerStream listenerStream connectionCount flags
        ControlStatus.NotConnected =
      (c, [Effect.invokeProtectedHandler
             (HandlerCall.disconnectStream (getControlledEntityImpl c listenerStream.entityID)
                listenerStream.streamIndex ControlStatus.NotConnected)]) := by
  simp [disconnectStreamResult, ControlStatus.operatorNot]

/-- C2: when the DISCONNECT_RX response carries an error other than NotConnected, the outer
lambda of disconnectStream does not call the handler: its only effect is the GET_RX_STATE query
for the listener stream, whose lambda captures the error.  That lambda calls the handler once,
with Success when the query succeeds with connectionCount = 0 and with the disconnect error in
every other case. -/
theorem disconnectStream_error_recovers_through_getListenerStreamState (c : ControllerImpl)
    (talkerStream listenerStream : StreamIdentification) (connectionCount : Nat)
    (flags : ConnectionFlags) (status : ControlStatus)
    (hError : status ≠ ControlStatus.Success) (hNot : status ≠ ControlStatus.NotConnected) :
    disconnectStreamResult c talkerStream listenerStream connectionCount flags status =
        (c, [Effect.command (Command.getListenerStreamState listenerStream)
               (Continuation.disconnectStreamGetListenerStreamState status)]) ∧
      ∀ (c2 : ControllerImpl) (talker2 listener2 : StreamIdentification) (count2 : Nat)
        (flags2 : ConnectionFlags) (status2 : ControlStatus),
        handlerCalls
            (disconnectStreamGetListenerStreamStateResult c2 status talker2 listener2 count2
              flags2 status2).2 =
          [HandlerCall.disconnectStream
             (getControlledEntityImpl
                (disconnectStreamGetListenerStreamStateResult c2 status talker2 listener2 count2
                  flags2 status2).1 listener2.entityID)
             listener2.streamIndex
             (if status2 = ControlStatus.Success ∧ count2 = 0 then ControlStatus.Success
              else status)] := by
  constructor
  · simp [disconnectStreamResult, ControlStatus.operatorNot, hError, hNot]
  · intro c2 talker2 listener2 count2 flags2 status2
    by_cases h2 : status2 = ControlStatus.Success
    · subst h2
      by_cases hc : count2 = 0
      · subst hc
        simp [disconnectStreamGetListenerStreamStateResult, handlerCalls_append_handler,
          ControlStatus.operatorNot, handlerCalls_handleListenerStreamStateNotification]
      · simp [disconnectStreamGetListenerStreamStateResult, handlerCalls_append_handler,
          ControlStatus.operatorNot, handlerCalls_handleListenerStreamStateNotification, hc]
    · simp [disconnectStreamGetListenerStreamStateResult, ControlStatus.operatorNot, h2,
        handlerCalls]

/-- Witness of C2 (scenario "disconnect-recovery"): the listener 0x11 answers
CouldNotSendMessage, then GET_RX_STATE succeeds with connectionCount = 0; the handler is called
with Success. -/
theorem disconnectStream_error_recovers_witness :
    (disconnectStreamResult (sampleController AcquireState.NotAcquired)
          { entityID := 0x22, streamIndex := 0 } { entityID := 0x11, streamIndex := 0 } 1 0
          ControlStatus.CouldNotSendMessage =
        (sampleController AcquireState.NotAcquired,
         [Effect.command (Command.getListenerStreamState { entityID := 0x11, streamIndex := 0 })
            (Continuation.disconnectStreamGetListenerStreamState
               ControlStatus.CouldNotSendMessage)])) ∧
      (handlerCalls
            (disconnectStreamGetListenerStreamStateResult
              (sampleController AcquireState.NotAcquired) ControlStatus.CouldNotSendMessage
              { entityID := 0x22, streamIndex := 0 } { entityID := 0x11, streamIndex := 0 } 0 0
              ControlStatus.Success).2 =
          [HandlerCall.disconnectStream
             (some
               { sampleEntity 0x11 true AcquireState.NotAcquired with
                 connections :=
                   [(0, connectionRecord { entityID := 0x22, streamIndex := 0 } false 0)] })
             0 ControlStatus.Success]) :=
  ⟨(disconnectStream_error_recovers_through_getListenerStreamState
      (sampleController AcquireState.NotAcquired) { entityID := 0x22, streamIndex := 0 }
      { entityID := 0x11, streamIndex := 0 } 1 0 ControlStatus.CouldNotSendMessage
      (by decide) (by decide)).1,
   ((disconnectStream_error_recovers_through_getListenerStreamState
      (sampleController AcquireState.NotAcquired) { entityID := 0x22, streamIndex := 0 }
      { entityID := 0x11, streamIndex := 0 } 1 0 ControlStatus.CouldNotSendMessage
      (by decide) (by decide)).2 (sampleController AcquireState.NotAcquired)
      { entityID := 0x22, streamIndex := 0 } { entityID := 0x11, streamIndex := 0 } 0 0
      ControlStatus.Success).trans rfl⟩

/-! ## Fast reject -/

/-- C3: a control operation whose target is not in the cache calls the handler once, with the
status UnknownEntity and null for every entity pointer; it issues no command and leaves the
cache unchanged. -/
theorem unknown_entity_is_rejected (c : ControllerImpl) (op : ControlOp)
    (hUnknown : getControlledEntityImpl c op.target = none) :
    ∃ call : HandlerCall,
      op.run c = (c, [Effect.invokeProtectedHandler call]) ∧
        call.isUnknownEntity = true ∧ ∀ e ∈ call.entities, e = none := by
  cases op <;>
    simp only [ControlOp.target] at hUnknown <;>
    simp [ControlOp.run, acquireEntity, releaseEntity, setConfiguration, setStreamInputFormat,
      setStreamOutputFormat, setEntityName, setEntityGroupName, setConfigurationName,
      setAudioUnitName, setStreamInputName, setStreamOutputName, setAvbInterfaceName,
      setClockSourceName, setMemoryObjectName, setAudioClusterName, setClockDomainName,
      setAudioUnitSamplingRate, setClockSource, startStreamInput, stopStreamInput,
      startStreamOutput, stopStreamOutput, addStreamPortInputAudioMappings,
      addStreamPortOutputAudioMappings, removeStreamPortInputAudioMappings,
      removeStreamPortOutputAudioMappings, setMemoryObjectLength, connectStream,
      disconnectStream, disconnectTalkerStream, getListenerStreamState, hUnknown,
      HandlerCall.isUnknownEntity, HandlerCall.aemStatus, HandlerCall.controlStatus,
      HandlerCall.entities]

/-- Witness of C3 (scenario "departure-purge"): setEntityName on an empty cache. -/
theorem unknown_entity_is_rejected_witness :
    ∃ call : HandlerCall,
      (ControlOp.setEntityName 0x11 "Foo").run emptyController =
          (emptyController, [Effect.invokeProtectedHandler call]) ∧
        call.isUnknownEntity = true ∧ ∀ e ∈ call.entities, e = none :=
  unknown_entity_is_rejected emptyController (ControlOp.setEntityName 0x11 "Foo") rfl

/-! ## Responses of the AECP operations -/

/-- C4: for releaseEntity and every AECP set operation (every AECP lambda but the one of
acquireEntity), a response whose status is not Success leaves the controller, and so the cache,
exactly as it was, and the handler is called once with that status. -/
theorem failed_response_leaves_cache_unchanged (c : ControllerImpl) (d : AemDelivery)
    (hOp : d.continuation ≠ Continuation.acquireEntity)
    (hStatus : d.status ≠ AemCommandStatus.Success) :
    (d.run c).1 = c ∧
      ∃ call : HandlerCall,
        (d.run c).2 = [Effect.invokeProtectedHandler call] ∧
          call.aemStatus = some d.status := by
  cases d
  case acquireEntity => exact absurd rfl hOp
  all_goals
    simp only [AemDelivery.status] at hStatus
    simp only [AemDelivery.run, AemDelivery.status, releaseEntityResult, setConfigurationResult,
      setStreamInputFormatResult, setStreamOutputFormatResult, setEntityNameResult,
      setEntityGroupNameResult, setConfigurationNameResult, setAudioUnitNameResult,
      setStreamInputNameResult, setStreamOutputNameResult, setAvbInterfaceNameResult,
      setClockSourceNameResult, setMemoryObjectNameResult, setAudioClusterNameResult,
      setClockDomainNameResult, setAudioUnitSamplingRateResult, setClockSourceResult,
      startStreamInputResult, stopStreamInputResult, startStreamOutputResult,
      stopStreamOutputResult, addStreamPortInputAudioMappingsResult,
      addStreamPortOutputAudioMappingsResult, removeStreamPortInputAudioMappingsResult,
      removeStreamPortOutputAudioMappingsResult, setMemoryObjectLengthResult]
    split <;>
      simp [AemCommandStatus.operatorNot, hStatus, ControllerImpl.unchanged,
        HandlerCall.aemStatus]

/-- Witness of C4: setEntityName answered with TimedOut for a cached entity. -/
theorem failed_response_leaves_cache_unchanged_witness :
    ((AemDelivery.setEntityName "Foo" 0x11 AemCommandStatus.TimedOut).run
          (sampleController AcquireState.NotAcquired)).1 =
        sampleController AcquireState.NotAcquired ∧
      ∃ call : HandlerCall,
        ((AemDelivery.setEntityName "Foo" 0x11 AemCommandStatus.TimedOut).run
            (sampleController AcquireState.NotAcquired)).2 =
          [Effect.invokeProtectedHandler call] ∧
          call.aemStatus = some (AemDelivery.setEntityName "Foo" 0x11
            AemCommandStatus.TimedOut).status :=
  failed_response_leaves_cache_unchanged (sampleController AcquireState.NotAcquired)
    (AemDelivery.setEntityName "Foo" 0x11 AemCommandStatus.TimedOut) (by decide) (by decide)

/-- C5: setEntityName on a cached entity hands the name to the underlying controller entity
and to its lambda; when the response carries Success for an entity that is (still) cached, the
cached entity is the old one with exactly that name as entity name, the handler is called once
with Success after the update, and a read of the cache afterwards (the guard of
getControlledEntity for an advertised entity) returns that name. -/
theorem setEntityName_success_writes_the_name (c c2 : ControllerImpl)
    (targetEntityID : UniqueIdentifier) (name : AvdeccFixedString)
    (entity entity2 : ControlledEntity)
    (hCached : getControlledEntityImpl c targetEntityID = some entity)
    (hStill : getControlledEntityImpl c2 targetEntityID = some entity2) :
    setEntityName c targetEntityID name =
        (c, [Effect.command (Command.setEntityName targetEntityID name)
               (Continuation.setEntityName name)]) ∧
      getControlledEntityImpl
          (setEntityNameResult c2 name targetEntityID AemCommandStatus.Success).1
          targetEntityID = some { entity2 with entityName := name } ∧
      handlerCalls (setEntityNameResult c2 name targetEntityID AemCommandStatus.Success).2 =
        [HandlerCall.aem (advertisedOrNull { entity2 with entityName := name })
           AemCommandStatus.Success] ∧
      (entity2.wasAdvertised = true →
        (getControlledEntity
            (setEntityNameResult c2 name targetEntityID AemCommandStatus.Success).1
            targetEntityID).map (fun e => e.entityName) = some name) := by
  have hStore :
      getControlledEntityImpl
          (setEntityNameResult c2 name targetEntityID AemCommandStatus.Success).1
          targetEntityID = some { entity2 with entityName := name } := by
    simp only [setEntityNameResult, hStill, AemCommandStatus.operatorNot, updateEntityName]
    exact getControlledEntityImpl_mutated { entity2 with entityName := name }
      (Change.entityName name) hStill rfl
  refine ⟨?_, hStore, ?_, ?_⟩
  · simp [setEntityName, hCached]
  · simp [setEntityNameResult, hStill, AemCommandStatus.operatorNot, updateEntityName,
      ControllerImpl.mutated, handlerCalls]
  · intro hAdv
    have hAdv2 : ({ entity2 with entityName := name } : ControlledEntity).wasAdvertised = true :=
      hAdv
    simp [getControlledEntity, hStore, hAdv2]

/-- Witness of C5 (scenario "timeout-retry"): the name "Foo" for the cached entity 0x11. -/
theorem setEntityName_success_witness :
    (getControlledEntity
        (setEntityNameResult (sampleController AcquireState.NotAcquired) "Foo" 0x11
          AemCommandStatus.Success).1 0x11).map (fun e => e.entityName) = some "Foo" :=
  (setEntityName_success_writes_the_name (sampleController AcquireState.NotAcquired)
    (sampleController AcquireState.NotAcquired) 0x11 "Foo"
    (sampleEntity 0x11 true AcquireState.NotAcquired)
    (sampleEntity 0x11 true AcquireState.NotAcquired) rfl rfl).2.2.2 rfl

/-! ## acquireEntity -/

/-- The entity written by updateAcquiredState is the one read back from the cache. -/
theorem getControlledEntityImpl_updateAcquiredState {c : ControllerImpl}
    {entity : ControlledEntity} {entityID : UniqueIdentifier}
    (hCached : getControlledEntityImpl c entityID = some entity)
    (owningEntity : UniqueIdentifier) (descriptorType : DescriptorType)
    (descriptorIndex : DescriptorIndex) (undefined : Bool) :
    getControlledEntityImpl
        (updateAcquiredState c entity owningEntity descriptorType descriptorIndex
          undefined).controller entityID =
      some
        (updateAcquiredState c entity owningEntity descriptorType descriptorIndex
          undefined).entity :=
  getControlledEntityImpl_mutated _ _ hCached rfl

/-- The lambda of acquireEntity calls the handler once, with the status and the owning entity
of the response, whatever the response and the cache are, and it issues no command. -/
theorem acquireEntityResult_calls_handler_once (c : ControllerImpl)
    (entityID : UniqueIdentifier) (status : AemCommandStatus) (owningEntity : UniqueIdentifier)
    (descriptorType : DescriptorType) (descriptorIndex : DescriptorIndex) :
    (∃ entity : Option ControlledEntity,
        handlerCalls
            (acquireEntityResult c entityID status owningEntity descriptorType
              descriptorIndex).2 =
          [HandlerCall.acquireEntity entity status owningEntity]) ∧
      commandsIssued
          (acquireEntityResult c entityID status owningEntity descriptorType descriptorIndex).2 =
        [] := by
  unfold acquireEntityResult
  split
  · cases status <;>
      simp [updateAcquiredState, ControllerImpl.mutated, handlerCalls, commandsIssued]
  · simp [handlerCalls, commandsIssued]

/-- C6 (counterexample): for an entity cached as Acquired, and likewise for one cached as
TryAcquire, acquireEntity has no effect at all: the handler is not called and no ACQUIRE
command is issued whose completion could call it. -/
theorem acquireEntity_acquired_or_acquiring_never_completes :
    (handlerCalls (acquireEntity (sampleController AcquireState.Acquired) 0x11 true).2 = [] ∧
        commandsIssued (acquireEntity (sampleController AcquireState.Acquired) 0x11 true).2 =
          []) ∧
      (handlerCalls (acquireEntity (sampleController AcquireState.TryAcquire) 0x11 true).2 = [] ∧
        commandsIssued (acquireEntity (sampleController AcquireState.TryAcquire) 0x11 true).2 =
          []) := by
  refine ⟨⟨rfl, rfl⟩, ⟨rfl, rfl⟩⟩

/-- C6 (amended): an acquireEntity call whose target is unknown, or cached in a state other
than Acquired and TryAcquire, completes through the handler exactly once: either the call
itself calls the handler once and issues no command (unknown target), or it calls no handler
and issues exactly one ACQUIRE command (Entity descriptor, index 0), and every response
delivered to the lambda of that command calls the handler exactly once and issues nothing. -/
theorem acquireEntity_completes_through_handler_once (c : ControllerImpl)
    (targetEntityID : UniqueIdentifier) (isPersistent : Bool)
    (hState : ∀ e : ControlledEntity, getControlledEntityImpl c targetEntityID = some e →
      e.acquireState ≠ AcquireState.Acquired ∧ e.acquireState ≠ AcquireState.TryAcquire) :
    ((handlerCalls (acquireEntity c targetEntityID isPersistent).2).length = 1 ∧
        commandsIssued (acquireEntity c targetEntityID isPersistent).2 = []) ∨
      (handlerCalls (acquireEntity c targetEntityID isPersistent).2 = [] ∧
        commandsIssued (acquireEntity c targetEntityID isPersistent).2 =
          [(Command.acquireEntity targetEntityID isPersistent DescriptorType.Entity 0,
            Continuation.acquireEntity)] ∧
        ∀ (c2 : ControllerImpl) (d : AemDelivery),
          d.continuation = Continuation.acquireEntity →
            (handlerCalls (d.run c2).2).length = 1 ∧ commandsIssued (d.run c2).2 = []) := by
  cases hLookup : getControlledEntityImpl c targetEntityID with
  | none =>
    left
    simp [acquireEntity, hLookup, handlerCalls, commandsIssued]
  | some e =>
    right
    have hs := hState e hLookup
    refine ⟨?_, ?_, ?_⟩
    · simp [acquireEntity, hLookup, ControlledEntity.isAcquired, ControlledEntity.isAcquiring,
        hs.1, hs.2, handlerCalls]
    · simp [acquireEntity, hLookup, ControlledEntity.isAcquired, ControlledEntity.isAcquiring,
        hs.1, hs.2, commandsIssued]
    · intro c2 d hd
      cases d
      case acquireEntity entityID status owningEntity descriptorType descriptorIndex =>
        have h := acquireEntityResult_calls_handler_once c2 entityID status owningEntity
          descriptorType descriptorIndex
        obtain ⟨⟨entity, h1⟩, h2⟩ := h
        simp [AemDelivery.run, h1, h2]
      all_goals simp [AemDelivery.continuation] at hd

/-- Witness of C6 (amended): the target 0x11 is cached as NotAcquired. -/
theorem acquireEntity_completes_through_handler_once_witness :
    ((handlerCalls (acquireEntity (sampleController AcquireState.NotAcquired) 0x11 true).2).length
          = 1 ∧
        commandsIssued (acquireEntity (sampleController AcquireState.NotAcquired) 0x11 true).2 =
          []) ∨
      (handlerCalls (acquireEntity (sampleController AcquireState.NotAcquired) 0x11 true).2 = [] ∧
        commandsIssued (acquireEntity (sampleController AcquireState.NotAcquired) 0x11 true).2 =
          [(Command.acquireEntity 0x11 true DescriptorType.Entity 0,
            Continuation.acquireEntity)] ∧
        ∀ (c2 : ControllerImpl) (d : AemDelivery),
          d.continuation = Continuation.acquireEntity →
            (handlerCalls (d.run c2).2).length = 1 ∧ commandsIssued (d.run c2).2 = []) :=
  acquireEntity_completes_through_handler_once (sampleController AcquireState.NotAcquired) 0x11
    true (by
      intro e he
      have h : e = sampleEntity 0x11 true AcquireState.NotAcquired :=
        (Option.some.inj he).symm
      subst h
      exact ⟨by decide, by decide⟩)

/-- C7 (counterexample): an ACQUIRE response with status AcquiredByOther whose owning entity
is the null identifier leaves the cached entity NotAcquired, not AcquiredByOther: the state is
derived from the owning entity, and the call made for it is the one made for NotImplemented. -/
theorem acquiredByOther_with_null_owner_is_notAcquired :
    (getControlledEntityImpl
          (acquireEntityResult (sampleController AcquireState.TryAcquire) 0x11
            AemCommandStatus.AcquiredByOther getNullUniqueIdentifier DescriptorType.Entity 0).1
          0x11).map (fun e => e.acquireState) = some AcquireState.NotAcquired ∧
      acquireEntityResult (sampleController AcquireState.TryAcquire) 0x11
          AemCommandStatus.AcquiredByOther getNullUniqueIdentifier DescriptorType.Entity 0 =
        ((acquireEntityResult (sampleController AcquireState.TryAcquire) 0x11
            AemCommandStatus.NotImplemented getNullUniqueIdentifier DescriptorType.Entity 0).1,
          [Effect.notifyObservers 0x11
             (Change.acquireState AcquireState.NotAcquired getNullUniqueIdentifier),
           Effect.invokeProtectedHandler
             (HandlerCall.acquireEntity
                (some (sampleEntity 0x11 true AcquireState.NotAcquired))
                AemCommandStatus.AcquiredByOther getNullUniqueIdentifier)]) := by
  refine ⟨rfl, rfl⟩

/-- C7 (amended): an ACQUIRE response with status AcquiredByOther whose owning entity O is
neither null nor this controller, for an entity still in the cache, makes the cached state
AcquiredByOther with owning controller O, and the handler is called once with
AcquiredByOther and O. -/
theorem acquiredByOther_response_sets_acquiredByOther (c : ControllerImpl)
    (entityID : UniqueIdentifier) (entity : ControlledEntity) (owningEntity : UniqueIdentifier)
    (descriptorType : DescriptorType) (descriptorIndex : DescriptorIndex)
    (hCached : getControlledEntityImpl c entityID = some entity)
    (hNonNull : owningEntity ≠ getNullUniqueIdentifier)
    (hOther : owningEntity ≠ c.controllerEID) :
    getControlledEntityImpl
        (acquireEntityResult c entityID AemCommandStatus.AcquiredByOther owningEntity
          descriptorType descriptorIndex).1 entityID =
      some
        ((entity.setAcquireState AcquireState.AcquiredByOther).setOwningController
          owningEntity) ∧
      handlerCalls
          (acquireEntityResult c entityID AemCommandStatus.AcquiredByOther owningEntity
            descriptorType descriptorIndex).2 =
        [HandlerCall.acquireEntity
           (advertisedOrNull
             ((entity.setAcquireState AcquireState.AcquiredByOther).setOwningController
               owningEntity))
           AemCommandStatus.AcquiredByOther owningEntity] := by
  have hRead := getControlledEntityImpl_updateAcquiredState hCached owningEntity descriptorType
    descriptorIndex false
  have hEntity :
      (updateAcquiredState c entity owningEntity descriptorType descriptorIndex false).entity =
        (entity.setAcquireState AcquireState.AcquiredByOther).setOwningController
          owningEntity := by
    simp [updateAcquiredState, ControllerImpl.mutated, hNonNull, hOther]
  rw [hEntity] at hRead
  constructor
  · simpa [acquireEntityResult, hCached] using hRead
  · simp [acquireEntityResult, hCached, handlerCalls_append_handler, hEntity]
    simp [updateAcquiredState, ControllerImpl.mutated, handlerCalls]

/-- Witness of C7 (amended), scenario "acquire-already-owned": the owner is
0xAAAAAAAAAAAAAAAA. -/
theorem acquiredByOther_response_witness :
    getControlledEntityImpl
        (acquireEntityResult (sampleController AcquireState.TryAcquire) 0x11
          AemCommandStatus.AcquiredByOther 0xAAAAAAAAAAAAAAAA DescriptorType.Entity 0).1 0x11 =
      some
        (((sampleEntity 0x11 true AcquireState.TryAcquire).setAcquireState
          AcquireState.AcquiredByOther).setOwningController 0xAAAAAAAAAAAAAAAA) ∧
      handlerCalls
          (acquireEntityResult (sampleController AcquireState.TryAcquire) 0x11
            AemCommandStatus.AcquiredByOther 0xAAAAAAAAAAAAAAAA DescriptorType.Entity 0).2 =
        [HandlerCall.acquireEntity
           (advertisedOrNull
             (((sampleEntity 0x11 true AcquireState.TryAcquire).setAcquireState
               AcquireState.AcquiredByOther).setOwningController 0xAAAAAAAAAAAAAAAA))
           AemCommandStatus.AcquiredByOther 0xAAAAAAAAAAAAAAAA] :=
  acquiredByOther_response_sets_acquiredByOther (sampleController AcquireState.TryAcquire) 0x11
    (sampleEntity 0x11 true AcquireState.TryAcquire) 0xAAAAAAAAAAAAAAAA DescriptorType.Entity 0
    rfl (by decide) (by decide)

/-- C8 (counterexample): an ACQUIRE response with status Success whose owning entity is
another controller (0xAA, the controller being 0xC0) makes the cached state AcquiredByOther,
not Acquired; with the null owning entity it makes it NotAcquired. -/
theorem success_with_foreign_owner_is_not_acquired :
    (getControlledEntityImpl
          (acquireEntityResult (sampleController AcquireState.TryAcquire) 0x11
            AemCommandStatus.Success 0xAA DescriptorType.Entity 0).1
          0x11).map (fun e => e.acquireState) = some AcquireState.AcquiredByOther ∧
      (getControlledEntityImpl
          (acquireEntityResult (sampleController AcquireState.TryAcquire) 0x11
            AemCommandStatus.Success getNullUniqueIdentifier DescriptorType.Entity 0).1
          0x11).map (fun e => e.acquireState) = some AcquireState.NotAcquired := by
  refine ⟨rfl, rfl⟩

/-- C8 (amended): an ACQUIRE response with status Success whose owning entity is this
controller (a non-null identifier), for an entity still in the cache, makes the cached state
Acquired with this controller as owner. -/
theorem success_response_with_own_id_sets_acquired (c : ControllerImpl)
    (entityID : UniqueIdentifier) (entity : ControlledEntity) (owningEntity : UniqueIdentifier)
    (descriptorType : DescriptorType) (descriptorIndex : DescriptorIndex)
    (hCached : getControlledEntityImpl c entityID = some entity)
    (hOwn : owningEntity = c.controllerEID)
    (hNonNull : c.controllerEID ≠ getNullUniqueIdentifier) :
    getControlledEntityImpl
        (acquireEntityResult c entityID AemCommandStatus.Success owningEntity descriptorType
          descriptorIndex).1 entityID =
      some
        ((entity.setAcquireState AcquireState.Acquired).setOwningController
          c.controllerEID) := by
  subst hOwn
  have hRead := getControlledEntityImpl_updateAcquiredState hCached c.controllerEID
    descriptorType descriptorIndex false
  have hEntity :
      (updateAcquiredState c entity c.controllerEID descriptorType descriptorIndex false).entity =
        (entity.setAcquireState AcquireState.Acquired).setOwningController
          c.controllerEID := by
    simp [updateAcquiredState, ControllerImpl.mutated, hNonNull]
  rw [hEntity] at hRead
  simpa [acquireEntityResult, hCached] using hRead

/-- Witness of C8 (amended): the response names the controller 0xC0 itself as owner. -/
theorem success_response_with_own_id_witness :
    getControlledEntityImpl
        (acquireEntityResult (sampleController AcquireState.TryAcquire) 0x11
          AemCommandStatus.Success 0xC0 DescriptorType.Entity 0).1 0x11 =
      some
        (((sampleEntity 0x11 true AcquireState.TryAcquire).setAcquireState
          AcquireState.Acquired).setOwningController
            (sampleController AcquireState.TryAcquire).controllerEID) :=
  success_response_with_own_id_sets_acquired (sampleController AcquireState.TryAcquire) 0x11
    (sampleEntity 0x11 true AcquireState.TryAcquire) 0xC0 DescriptorType.Entity 0 rfl rfl
    (by decide)

/-- C9: an ACQUIRE response whose status is none of Success, AcquiredByOther, NotImplemented
and NotSupported, for an entity still in the cache, updates the acquire state with the null
owning controller and the undefined flag, so the cached state becomes Undefined (owner null);
the handler is called once with the status and the owning entity of the response. -/
theorem failed_acquire_sets_undefined (c : ControllerImpl) (entityID : UniqueIdentifier)
    (entity : ControlledEntity) (status : AemCommandStatus) (owningEntity : UniqueIdentifier)
    (descriptorType : DescriptorType) (descriptorIndex : DescriptorIndex)
    (hCached : getControlledEntityImpl c entityID = some entity)
    (h1 : status ≠ AemCommandStatus.Success) (h2 : status ≠ AemCommandStatus.AcquiredByOther)
    (h3 : status ≠ AemCommandStatus.NotImplemented)
    (h4 : status ≠ AemCommandStatus.NotSupported) :
    (acquireEntityResult c entityID status owningEntity descriptorType descriptorIndex).1 =
        (updateAcquiredState c entity getNullUniqueIdentifier descriptorType descriptorIndex
          true).controller ∧
      getControlledEntityImpl
          (acquireEntityResult c entityID status owningEntity descriptorType descriptorIndex).1
          entityID =
        some
          ((entity.setAcquireState AcquireState.Undefined).setOwningController
            getNullUniqueIdentifier) ∧
      handlerCalls
          (acquireEntityResult c entityID status owningEntity descriptorType descriptorIndex).2 =
        [HandlerCall.acquireEntity
           (advertisedOrNull
             ((entity.setAcquireState AcquireState.Undefined).setOwningController
               getNullUniqueIdentifier))
           status owningEntity] := by
  have hRead := getControlledEntityImpl_updateAcquiredState hCached getNullUniqueIdentifier
    descriptorType descriptorIndex true
  have hEntity :
      (updateAcquiredState c entity getNullUniqueIdentifier descriptorType descriptorIndex
          true).entity =
        (entity.setAcquireState AcquireState.Undefined).setOwningController
          getNullUniqueIdentifier := by
    simp [updateAcquiredState, ControllerImpl.mutated]
  rw [hEntity] at hRead
  have hRun :
      acquireEntityResult c entityID status owningEntity descriptorType descriptorIndex =
        ((updateAcquiredState c entity getNullUniqueIdentifier descriptorType descriptorIndex
            true).controller,
          (updateAcquiredState c entity getNullUniqueIdentifier descriptorType descriptorIndex
            true).effects ++
            [Effect.invokeProtectedHandler
               (HandlerCall.acquireEntity
                 (advertisedOrNull
                   (updateAcquiredState c entity getNullUniqueIdentifier descriptorType
                     descriptorIndex true).entity)
                 status owningEntity)]) := by
    cases status <;> simp_all [acquireEntityResult]
  rw [hRun]
  refine ⟨rfl, hRead, ?_⟩
  simp only [handlerCalls_append_handler, hEntity]
  simp [updateAcquiredState, ControllerImpl.mutated, handlerCalls]

/-- Witness of C9: the ACQUIRE command of the entity 0x11 timed out. -/
theorem failed_acquire_sets_undefined_witness :
    (getControlledEntityImpl
        (acquireEntityResult (sampleController AcquireState.TryAcquire) 0x11
          AemCommandStatus.TimedOut 0xAA DescriptorType.Entity 0).1 0x11).map
        (fun e => e.acquireState) = some AcquireState.Undefined :=
  congrArg (Option.map (fun e => e.acquireState))
    (failed_acquire_sets_undefined (sampleController AcquireState.TryAcquire) 0x11
      (sampleEntity 0x11 true AcquireState.TryAcquire) AemCommandStatus.TimedOut 0xAA
      DescriptorType.Entity 0 rfl (by decide) (by decide) (by decide) (by decide)).2.1

/-- C10: an ACQUIRE response with status NotImplemented or NotSupported, for an entity still in
the cache, updates the acquire state with the null owning controller, whatever owning entity
the response carries, and without the undefined flag, so the cached state becomes NotAcquired
(owner null); the handler is called once with the status and the owning entity of the
response. -/
theorem unsupported_acquire_sets_notAcquired (c : ControllerImpl) (entityID : UniqueIdentifier)
    (entity : ControlledEntity) (status : AemCommandStatus) (owningEntity : UniqueIdentifier)
    (descriptorType : DescriptorType) (descriptorIndex : DescriptorIndex)
    (hCached : getControlledEntityImpl c entityID = some entity)
    (hStatus : status = AemCommandStatus.NotImplemented ∨
      status = AemCommandStatus.NotSupported) :
    (acquireEntityResult c entityID status owningEntity descriptorType descriptorIndex).1 =
        (updateAcquiredState c entity getNullUniqueIdentifier descriptorType descriptorIndex
          false).controller ∧
      getControlledEntityImpl
          (acquireEntityResult c entityID status owningEntity descriptorType descriptorIndex).1
          entityID =
        some
          ((entity.setAcquireState AcquireState.NotAcquired).setOwningController
            getNullUniqueIdentifier) ∧
      handlerCalls
          (acquireEntityResult c entityID status owningEntity descriptorType descriptorIndex).2 =
        [HandlerCall.acquireEntity
           (advertisedOrNull
             ((entity.setAcquireState AcquireState.NotAcquired).setOwningController
               getNullUniqueIdentifier))
           status owningEntity] := by
  have hRead := getControlledEntityImpl_updateAcquiredState hCached getNullUniqueIdentifier
    descriptorType descriptorIndex false
  have hEntity :
      (updateAcquiredState c entity getNullUniqueIdentifier descriptorType descriptorIndex
          false).entity =
        (entity.setAcquireState AcquireState.NotAcquired).setOwningController
          getNullUniqueIdentifier := by
    simp [updateAcquiredState, ControllerImpl.mutated]
  rw [hEntity] at hRead
  have hRun :
      acquireEntityResult c entityID status owningEntity descriptorType descriptorIndex =
        ((updateAcquiredState c entity getNullUniqueIdentifier descriptorType descriptorIndex
            false).controller,
          (updateAcquiredState c entity getNullUniqueIdentifier descriptorType descriptorIndex
            false).effects ++
            [Effect.invokeProtectedHandler
               (HandlerCall.acquireEntity
                 (advertisedOrNull
                   (updateAcquiredState c entity getNullUniqueIdentifier descriptorType
                     descriptorIndex false).entity)
                 status owningEntity)]) := by
    rcases hStatus with h | h <;> subst h <;> simp [acquireEntityResult, hCached]
  rw [hRun]
  refine ⟨rfl, hRead, ?_⟩
  simp only [handlerCalls_append_handler, hEntity]
  simp [updateAcquiredState, ControllerImpl.mutated, handlerCalls]

/-- Witness of C10: the entity 0x11 answers NotSupported and names 0xAA as owner. -/
theorem unsupported_acquire_sets_notAcquired_witness :
    (getControlledEntityImpl
        (acquireEntityResult (sampleController AcquireState.TryAcquire) 0x11
          AemCommandStatus.NotSupported 0xAA DescriptorType.Entity 0).1 0x11).map
        (fun e => e.acquireState) = some AcquireState.NotAcquired :=
  congrArg (Option.map (fun e => e.acquireState))
    (unsupported_acquire_sets_notAcquired (sampleController AcquireState.TryAcquire) 0x11
      (sampleEntity 0x11 true AcquireState.TryAcquire) AemCommandStatus.NotSupported 0xAA
      DescriptorType.Entity 0 rfl (Or.inr rfl)).2.1

/-- C11: acquireEntity on a cached entity that is neither Acquired nor TryAcquire sets the
cached state to TryAcquire, calls no handler and issues exactly one ACQUIRE command, for the
Entity descriptor of index 0 and with the isPersistent of the caller; on an entity that is
Acquired or TryAcquire it has no effect: no command is issued and the controller, and so the
acquire state, is unchanged. -/
theorem acquireEntity_sets_tryAcquire_and_sends_one_command (c : ControllerImpl)
    (targetEntityID : UniqueIdentifier) (isPersistent : Bool) (entity : ControlledEntity)
    (hCached : getControlledEntityImpl c targetEntityID = some entity) :
    ((entity.acquireState ≠ AcquireState.Acquired ∧
          entity.acquireState ≠ AcquireState.TryAcquire) →
        getControlledEntityImpl (acquireEntity c targetEntityID isPersistent).1 targetEntityID =
            some (entity.setAcquireState AcquireState.TryAcquire) ∧
          (acquireEntity c targetEntityID isPersistent).2 =
            [Effect.command
               (Command.acquireEntity targetEntityID isPersistent DescriptorType.Entity 0)
               Continuation.acquireEntity]) ∧
      ((entity.acquireState = AcquireState.Acquired ∨
          entity.acquireState = AcquireState.TryAcquire) →
        acquireEntity c targetEntityID isPersistent = (c, [])) := by
  constructor
  · intro hs
    have hid : entity.entityID = targetEntityID := findEntity_entityID hCached
    have hStore :
        findEntity (entity.setAcquireState AcquireState.TryAcquire).entityID
            (storeEntity (entity.setAcquireState AcquireState.TryAcquire)
              c.controlledEntities) =
          some (entity.setAcquireState AcquireState.TryAcquire) := by
      apply findEntity_storeEntity
      show findEntity entity.entityID c.controlledEntities = some entity
      rw [hid]
      exact hCached
    have hid2 : (entity.setAcquireState AcquireState.TryAcquire).entityID = targetEntityID :=
      hid
    rw [hid2] at hStore
    have hRun :
        acquireEntity c targetEntityID isPersistent =
          ({ c with
             controlledEntities :=
               storeEntity (entity.setAcquireState AcquireState.TryAcquire)
                 c.controlledEntities },
           [Effect.command
              (Command.acquireEntity targetEntityID isPersistent DescriptorType.Entity 0)
              Continuation.acquireEntity]) := by
      simp [acquireEntity, hCached, ControlledEntity.isAcquired, ControlledEntity.isAcquiring,
        hs.1, hs.2]
    rw [hRun]
    exact ⟨hStore, rfl⟩
  · intro hs
    rcases hs with h | h <;>
      simp [acquireEntity, hCached, ControlledEntity.isAcquired, ControlledEntity.isAcquiring, h]

/-- Witness of C11: the entity 0x11 is cached as NotAcquired; the call sets TryAcquire and
issues the ACQUIRE command. -/
theorem acquireEntity_sets_tryAcquire_witness :
    getControlledEntityImpl (acquireEntity (sampleController AcquireState.NotAcquired) 0x11 true).1
          0x11 =
        some ((sampleEntity 0x11 true AcquireState.NotAcquired).setAcquireState
          AcquireState.TryAcquire) ∧
      (acquireEntity (sampleController AcquireState.NotAcquired) 0x11 true).2 =
        [Effect.command (Command.acquireEntity 0x11 true DescriptorType.Entity 0)
           Continuation.acquireEntity] :=
  (acquireEntity_sets_tryAcquire_and_sends_one_command
    (sampleController AcquireState.NotAcquired) 0x11 true
    (sampleEntity 0x11 true AcquireState.NotAcquired) rfl).1 ⟨by decide, by decide⟩

/-! ## releaseEntity -/

/-- C13: the lambdas of connectStream, disconnectStream (the DISCONNECT_RX response) and
disconnectTalkerStream do not read connectionCount: two responses that differ in nothing but
connectionCount give the same controller state and the same effects, the arguments of the
handler included. -/
theorem connectionCount_is_ignored (c : ControllerImpl)
    (talkerStream listenerStream : StreamIdentification) (count1 count2 : Nat)
    (flags : ConnectionFlags) (status : ControlStatus) :
    connectStreamResult c talkerStream listenerStream count1 flags status =
        connectStreamResult c talkerStream listenerStream count2 flags status ∧
      disconnectStreamResult c talkerStream listenerStream count1 flags status =
        disconnectStreamResult c talkerStream listenerStream count2 flags status ∧
      disconnectTalkerStreamResult c talkerStream listenerStream count1 flags status =
        disconnectTalkerStreamResult c talkerStream listenerStream count2 flags status :=
  ⟨rfl, rfl, rfl⟩

/-- C16: disconnectTalkerStream on a cached talker hands the DISCONNECT_TX command to the
underlying controller entity and calls no handler; the lambda of that command calls the handler
once, with Success when the response carries Success or NotConnected and with the status of
the response in every other case. -/
theorem disconnectTalkerStream_normalises_notConnected (c : ControllerImpl)
    (talkerStream listenerStream : StreamIdentification) (talker : ControlledEntity)
    (hKnown : getControlledEntityImpl c talkerStream.entityID = some talker) :
    disconnectTalkerStream c talkerStream listenerStream =
        (c, [Effect.command (Command.disconnectTalkerStream talkerStream listenerStream)
               Continuation.disconnectTalkerStream]) ∧
      ∀ (c2 : ControllerImpl) (talker2 listener2 : StreamIdentification) (count2 : Nat)
        (flags2 : ConnectionFlags) (status : ControlStatus),
        handlerCalls
            (disconnectTalkerStreamResult c2 talker2 listener2 count2 flags2 status).2 =
          [HandlerCall.disconnectTalkerStream
             (if status = ControlStatus.Success ∨ status = ControlStatus.NotConnected then
                ControlStatus.Success
              else status)] := by
  constructor
  · simp [disconnectTalkerStream, hKnown]
  · intro c2 talker2 listener2 count2 flags2 status
    simp only [disconnectTalkerStreamResult, handlerCalls_append_handler]
    have hPre :
        handlerCalls
            (if (!status.operatorNot) = true then
              handleTalkerStreamStateNotification c2 talker2 listener2 false flags2 true
            else (c2, [])).2 = [] := by
      split
      · exact handlerCalls_handleListenerStreamStateNotification c2 talker2 listener2 false
          flags2 true
      · rfl
    rw [hPre]
    cases status <;> simp

/-- Witness of C16: the talker 0x11 is cached and the response carries NotConnected. -/
theorem disconnectTalkerStream_normalises_witness :
    handlerCalls
        (disconnectTalkerStreamResult (sampleController AcquireState.NotAcquired)
          { entityID := 0x11, streamIndex := 0 } { entityID := 0x22, streamIndex := 0 } 0 0
          ControlStatus.NotConnected).2 =
      [HandlerCall.disconnectTalkerStream ControlStatus.Success] :=
  ((disconnectTalkerStream_normalises_notConnected (sampleController AcquireState.NotAcquired)
    { entityID := 0x11, streamIndex := 0 } { entityID := 0x22, streamIndex := 0 }
    (sampleEntity 0x11 true AcquireState.NotAcquired) rfl).2
    (sampleController AcquireState.NotAcquired) { entityID := 0x11, streamIndex := 0 }
    { entityID := 0x22, streamIndex := 0 } 0 0 ControlStatus.NotConnected).trans rfl

/-- Reading back the key that was just written. -/
theorem assocGet_assocSet {κ : Type} {ν : Type} [DecidableEq κ] (k : κ) (v : ν)
    (l : List (κ × ν)) : assocGet k (assocSet k v l) = some v := by
  induction l with
  | nil => simp [assocSet, assocGet]
  | cons x rest ih =>
    obtain ⟨k0, v0⟩ := x
    by_cases h : k0 = k
    · simp [assocSet, assocGet, h]
    · simp [assocSet, assocGet, h, ih]

/-- The notification of a listener stream state for a cached listener: the record of the
stream is written, the observers are told, and the listener read back from the cache is the
old one with the new record. -/
theorem handleListenerStreamStateNotification_cached {c : ControllerImpl}
    {listener : ControlledEntity} (talkerStream listenerStream : StreamIdentification)
    (isConnected : Bool) (flags : ConnectionFlags) (isSniffed : Bool)
    (hCached : getControlledEntityImpl c listenerStream.entityID = some listener) :
    (handleListenerStreamStateNotification c talkerStream listenerStream isConnected flags
          isSniffed).2 =
        [Effect.notifyObservers listener.entityID
           (Change.streamConnection listenerStream.streamIndex
             (connectionRecord talkerStream isConnected flags))] ∧
      getControlledEntityImpl
          (handleListenerStreamStateNotification c talkerStream listenerStream isConnected flags
            isSniffed).1 listenerStream.entityID =
        some
          { listener with
            connections :=
              assocSet listenerStream.streamIndex
                (connectionRecord talkerStream isConnected flags) listener.connections } := by
  constructor
  · simp [handleListenerStreamStateNotification, hCached, ControllerImpl.mutated]
  · simp only [handleListenerStreamStateNotification, hCached]
    exact getControlledEntityImpl_mutated _ _ hCached rfl

/-- C14: the lambda of getListenerStreamState, for a listener that is in the cache: with
status Success the connection record of the listener stream is written as connected exactly
when connectionCount is not 0 (with the talker of the response when connected); with any other
status the controller, and so every record, is unchanged; in both cases the handler is called
once with the connectionCount, the flags and the status of the response. -/
theorem getListenerStreamState_records_connection (c : ControllerImpl)
    (talkerStream listenerStream : StreamIdentification) (connectionCount : Nat)
    (flags : ConnectionFlags) (status : ControlStatus) (listener : ControlledEntity)
    (hCached : getControlledEntityImpl c listenerStream.entityID = some listener) :
    (status = ControlStatus.Success →
        ∃ listener2 : ControlledEntity, ∃ record : ConnectionRecord,
          getControlledEntityImpl
              (getListenerStreamStateResult c talkerStream listenerStream connectionCount flags
                status).1 listenerStream.entityID = some listener2 ∧
            assocGet listenerStream.streamIndex listener2.connections = some record ∧
            (record.isConnected = true ↔ connectionCount ≠ 0) ∧
            (connectionCount ≠ 0 → record.talkerStream = talkerStream) ∧
            record.flags = flags) ∧
      (status ≠ ControlStatus.Success →
        (getListenerStreamStateResult c talkerStream listenerStream connectionCount flags
          status).1 = c) ∧
      handlerCalls
          (getListenerStreamStateResult c talkerStream listenerStream connectionCount flags
            status).2 =
        [HandlerCall.getListenerStreamState
           (getControlledEntityImpl
             (getListenerStreamStateResult c talkerStream listenerStream connectionCount flags
               status).1 talkerStream.entityID)
           (getControlledEntityImpl
             (getListenerStreamStateResult c talkerStream listenerStream connectionCount flags
               status).1 listenerStream.entityID)
           talkerStream.streamIndex listenerStream.streamIndex connectionCount flags status] := by
  refine ⟨?_, ?_, ?_⟩
  · intro hs
    subst hs
    have h := (handleListenerStreamStateNotification_cached talkerStream listenerStream
      (decide (connectionCount ≠ 0)) flags false hCached).2
    refine ⟨{ listener with
               connections :=
                 assocSet listenerStream.streamIndex
                   (connectionRecord talkerStream (decide (connectionCount ≠ 0)) flags)
                   listener.connections },
      connectionRecord talkerStream (decide (connectionCount ≠ 0)) flags, ?_, ?_, ?_, ?_, ?_⟩
    · simpa [getListenerStreamStateResult, ControlStatus.operatorNot] using h
    · exact assocGet_assocSet _ _ _
    · simp [connectionRecord]
    · intro hc
      simp [connectionRecord, hc]
    · rfl
  · intro hs
    simp [getListenerStreamStateResult, ControlStatus.operatorNot, hs]
  · simp only [getListenerStreamStateResult, handlerCalls_append_handler]
    have hPre :
        handlerCalls
            (if (!status.operatorNot) = true then
              handleListenerStreamStateNotification c talkerStream listenerStream
                (decide (connectionCount ≠ 0)) flags false
            else (c, [])).2 = [] := by
      split
      · exact handlerCalls_handleListenerStreamStateNotification _ _ _ _ _ _
      · rfl
    rw [hPre]
    rfl

/-- Witness of C14: GET_RX_STATE of the stream 0 of the listener 0x11 succeeds with
connectionCount 1 and the talker stream (0x22, 3). -/
theorem getListenerStreamState_records_connection_witness :
    ∃ listener2 : ControlledEntity, ∃ record : ConnectionRecord,
      getControlledEntityImpl
          (getListenerStreamStateResult (sampleController AcquireState.NotAcquired)
            { entityID := 0x22, streamIndex := 3 } { entityID := 0x11, streamIndex := 0 } 1 0
            ControlStatus.Success).1 0x11 = some listener2 ∧
        assocGet 0 listener2.connections = some record ∧
        (record.isConnected = true ↔ 1 ≠ 0) ∧
        (1 ≠ 0 → record.talkerStream = { entityID := 0x22, streamIndex := 3 }) ∧
        record.flags = 0 :=
  (getListenerStreamState_records_connection (sampleController AcquireState.NotAcquired)
    { entityID := 0x22, streamIndex := 3 } { entityID := 0x11, streamIndex := 0 } 1 0
    ControlStatus.Success (sampleEntity 0x11 true AcquireState.NotAcquired) rfl).1 rfl

/-- C15: connectStream on a cached listener hands the CONNECT_RX command to the underlying
controller entity.  Its lambda, for a listener that is in the cache: with status Success the
connection record of the listener stream is written as connected with the talker stream of the
response; with any other status the controller, and so every record, is unchanged; in both
cases the handler is called once with the status of the response. -/
theorem connectStream_records_connection (c c2 : ControllerImpl)
    (talkerStream listenerStream : StreamIdentification) (connectionCount : Nat)
    (flags : ConnectionFlags) (status : ControlStatus) (known listener : ControlledEntity)
    (hKnown : getControlledEntityImpl c listenerStream.entityID = some known)
    (hCached : getControlledEntityImpl c2 listenerStream.entityID = some listener) :
    connectStream c talkerStream listenerStream =
        (c, [Effect.command (Command.connectStream talkerStream listenerStream)
               Continuation.connectStream]) ∧
      (status = ControlStatus.Success →
        getControlledEntityImpl
            (connectStreamResult c2 talkerStream listenerStream connectionCount flags status).1
            listenerStream.entityID =
          some
            { listener with
              connections :=
                assocSet listenerStream.streamIndex
                  { talkerStream := talkerStream, isConnected := true, flags := flags }
                  listener.connections } ∧
          assocGet listenerStream.streamIndex
              (assocSet listenerStream.streamIndex
                ({ talkerStream := talkerStream, isConnected := true, flags := flags } :
                  ConnectionRecord)
                listener.connections) =
            some { talkerStream := talkerStream, isConnected := true, flags := flags }) ∧
      (status ≠ ControlStatus.Success →
        (connectStreamResult c2 talkerStream listenerStream connectionCount flags status).1 =
          c2) ∧
      handlerCalls
          (connectStreamResult c2 talkerStream listenerStream connectionCount flags status).2 =
        [HandlerCall.connectStream
           (getControlledEntityImpl
             (connectStreamResult c2 talkerStream listenerStream connectionCount flags status).1
             talkerStream.entityID)
           (getControlledEntityImpl
             (connectStreamResult c2 talkerStream listenerStream connectionCount flags status).1
             listenerStream.entityID)
           talkerStream.streamIndex listenerStream.streamIndex status] := by
  refine ⟨?_, ?_, ?_, ?_⟩
  · simp [connectStream, hKnown]
  · intro hs
    subst hs
    have h := (handleListenerStreamStateNotification_cached talkerStream listenerStream true
      flags false hCached).2
    refine ⟨?_, assocGet_assocSet _ _ _⟩
    simpa [connectStreamResult, ControlStatus.operatorNot, connectionRecord] using h
  · intro hs
    simp [connectStreamResult, ControlStatus.operatorNot, hs]
  · simp only [connectStreamResult, handlerCalls_append_handler]
    have hPre :
        handlerCalls
            (if (!status.operatorNot) = true then
              handleListenerStreamStateNotification c2 talkerStream listenerStream true flags
                false
            else (c2, [])).2 = [] := by
      split
      · exact handlerCalls_handleListenerStreamStateNotification _ _ _ _ _ _
      · rfl
    rw [hPre]
    rfl

/-- Witness of C15: the listener 0x11 accepts the connection of its stream 0 to the talker
stream (0x22, 3). -/
theorem connectStream_records_connection_witness :
    getControlledEntityImpl
        (connectStreamResult (sampleController AcquireState.NotAcquired)
          { entityID := 0x22, streamIndex := 3 } { entityID := 0x11, streamIndex := 0 } 0 0
          ControlStatus.Success).1 0x11 =
      some
        { sampleEntity 0x11 true AcquireState.NotAcquired with
          connections :=
            assocSet 0
              { talkerStream := { entityID := 0x22, streamIndex := 3 }, isConnected := true,
                flags := 0 }
              (sampleEntity 0x11 true AcquireState.NotAcquired).connections } :=
  ((connectStream_records_connection (sampleController AcquireState.NotAcquired)
    (sampleController AcquireState.NotAcquired) { entityID := 0x22, streamIndex := 3 }
    { entityID := 0x11, streamIndex := 0 } 0 0 ControlStatus.Success
    (sampleEntity 0x11 true AcquireState.NotAcquired)
    (sampleEntity 0x11 true AcquireState.NotAcquired) rfl rfl).2.1 rfl).1

/-! ## Order of the update and of the handler -/

/-- The notification of a listener stream state for a cached listener, as a whole: the
listener with the new record is stored and the observers are told the record. -/
theorem handleListenerStreamStateNotification_eq {c : ControllerImpl}
    {listener : ControlledEntity} (talkerStream listenerStream : StreamIdentification)
    (isConnected : Bool) (flags : ConnectionFlags) (isSniffed : Bool)
    (hCached : getControlledEntityImpl c listenerStream.entityID = some listener) :
    handleListenerStreamStateNotification c talkerStream listenerStream isConnected flags
        isSniffed =
      ({ c with
         controlledEntities :=
           storeEntity
             (listener.withConnection listenerStream.streamIndex
               (connectionRecord talkerStream isConnected flags))
             c.controlledEntities },
       [Effect.notifyObservers listener.entityID
          (Change.streamConnection listenerStream.streamIndex
            (connectionRecord talkerStream isConnected flags))]) := by
  simp only [handleListenerStreamStateNotification, hCached]
  rfl

/-- C17: a response with status Success for an entity that is in the cache.  For every AECP
lambda the result is the controller in which the entity written by the update helper of the
lambda is stored, and exactly two effects in this order: the notification of the observers
made by that update, then the call of the handler.  The update helper does nothing but store
the entity and notify the change, the stored entity shows the change the observers are told,
the entity read from the returned controller is the updated one, and it is the entity handed
to the handler (null when not advertised), together with Success: nothing changes the cache
after the handler.  For every ACMP lambda, with the listener in the cache, the result is the
controller in which the listener with the new connection record is stored, and exactly two
effects in this order: the notification of that record, then the call of the handler; the
listener read from the returned controller holds the record, and every entity handed to the
handler is read from the returned controller. -/
theorem update_precedes_handler :
    (∀ (c : ControllerImpl) (d : AemDelivery) (entity : ControlledEntity),
        d.status = AemCommandStatus.Success →
        getControlledEntityImpl c d.entityID = some entity →
        ∃ (change : Change) (call : HandlerCall),
          d.run c =
              ({ c with
                 controlledEntities :=
                   storeEntity (d.updateOnSuccess c entity).entity c.controlledEntities },
               [Effect.notifyObservers entity.entityID change,
                Effect.invokeProtectedHandler call]) ∧
            d.updateOnSuccess c entity =
              c.mutated (d.updateOnSuccess c entity).entity change ∧
            Change.holdsIn (d.updateOnSuccess c entity).entity change ∧
            getControlledEntityImpl (d.run c).1 d.entityID =
              some (d.updateOnSuccess c entity).entity ∧
            call.entities = [advertisedOrNull (d.updateOnSuccess c entity).entity] ∧
            call.aemStatus = some AemCommandStatus.Success) ∧
      (∀ (c : ControllerImpl) (d : AcmpDelivery) (listener : ControlledEntity),
        d.status = ControlStatus.Success →
        getControlledEntityImpl c d.listenerStream.entityID = some listener →
        ∃ call : HandlerCall,
          d.run c =
              ({ c with
                 controlledEntities :=
                   storeEntity
                     (listener.withConnection d.listenerStream.streamIndex
                       (connectionRecord d.talkerStream d.connectedOnSuccess d.flags))
                     c.controlledEntities },
               [Effect.notifyObservers listener.entityID
                  (Change.streamConnection d.listenerStream.streamIndex
                    (connectionRecord d.talkerStream d.connectedOnSuccess d.flags)),
                Effect.invokeProtectedHandler call]) ∧
            getControlledEntityImpl (d.run c).1 d.listenerStream.entityID =
              some
                (listener.withConnection d.listenerStream.streamIndex
                  (connectionRecord d.talkerStream d.connectedOnSuccess d.flags)) ∧
            Change.holdsIn
              (listener.withConnection d.listenerStream.streamIndex
                (connectionRecord d.talkerStream d.connectedOnSuccess d.flags))
              (Change.streamConnection d.listenerStream.streamIndex
                (connectionRecord d.talkerStream d.connectedOnSuccess d.flags)) ∧
            ∀ e ∈ call.entities, ∃ entityID : UniqueIdentifier,
              e = getControlledEntityImpl (d.run c).1 entityID) := by
  constructor
  · intro c d entity hs hCached
    cases d <;>
      simp only [AemDelivery.status] at hs <;>
      subst hs <;>
      simp only [AemDelivery.entityID] at hCached ⊢ <;>
      simp only [AemDelivery.run, acquireEntityResult, releaseEntityResult,
        setConfigurationResult,
        setStreamInputFormatResult, setStreamOutputFormatResult, setEntityNameResult,
        setEntityGroupNameResult, setConfigurationNameResult, setAudioUnitNameResult,
        setStreamInputNameResult, setStreamOutputNameResult, setAvbInterfaceNameResult,
        setClockSourceNameResult, setMemoryObjectNameResult, setAudioClusterNameResult,
        setClockDomainNameResult, setAudioUnitSamplingRateResult, setClockSourceResult,
        startStreamInputResult, stopStreamInputResult, startStreamOutputResult,
        stopStreamOutputResult, addStreamPortInputAudioMappingsResult,
        addStreamPortOutputAudioMappingsResult, removeStreamPortInputAudioMappingsResult,
        removeStreamPortOutputAudioMappingsResult, setMemoryObjectLengthResult, hCached] <;>
      exact ⟨_, _, rfl, rfl,
        by
          simp [Change.holdsIn, AemDelivery.updateOnSuccess, updateAcquiredState, updateConfiguration,
            updateStreamInputFormat, updateStreamOutputFormat, updateEntityName,
            updateEntityGroupName, updateDescriptorName, updateConfigurationName,
            updateAudioUnitName, updateStreamInputName, updateStreamOutputName,
            updateAvbInterfaceName, updateClockSourceName, updateMemoryObjectName,
            updateAudioClusterName, updateClockDomainName, updateAudioUnitSamplingRate,
            updateClockSource, updateStreamInputRunningStatus,
            updateStreamOutputRunningStatus, updateStreamPortInputAudioMappingsAdded,
            updateStreamPortOutputAudioMappingsAdded,
            updateStreamPortInputAudioMappingsRemoved,
            updateStreamPortOutputAudioMappingsRemoved, updateMemoryObjectLength, ControllerImpl.mutated,
            assocGet_assocSet, ControlledEntity.setAcquireState,
            ControlledEntity.setOwningController],
        getControlledEntityImpl_mutated _ _ hCached rfl, rfl, rfl⟩
  · intro c d listener hs hCached
    cases d
    case connectStream talkerStream listenerStream connectionCount flags status =>
      simp only [AcmpDelivery.status] at hs
      subst hs
      simp only [AcmpDelivery.listenerStream, AcmpDelivery.talkerStream, AcmpDelivery.flags,
        AcmpDelivery.connectedOnSuccess] at hCached ⊢
      have hEq := handleListenerStreamStateNotification_eq talkerStream listenerStream
        true flags false hCached
      have hRun :
          AcmpDelivery.run c
              (AcmpDelivery.connectStream talkerStream listenerStream connectionCount flags
                ControlStatus.Success) =
            ((handleListenerStreamStateNotification c talkerStream listenerStream
              true flags false).1,
             (handleListenerStreamStateNotification c talkerStream listenerStream
              true flags false).2 ++
               [Effect.invokeProtectedHandler
                  (HandlerCall.connectStream (getControlledEntityImpl 
                   (handleListenerStreamStateNotification c talkerStream listenerStream
              true flags false).1 talkerStream.entityID)
                    (getControlledEntityImpl 
                   (handleListenerStreamStateNotification c talkerStream listenerStream
              true flags false).1 listenerStream.entityID)
                    talkerStream.streamIndex listenerStream.streamIndex ControlStatus.Success)]) := rfl
      rw [hRun, hEq]
      refine ⟨_, rfl,
        getControlledEntityImpl_mutated _ (Change.configuration 0) hCached rfl,
        assocGet_assocSet _ _ _, ?_⟩
      · intro e he
        simp only [HandlerCall.entities, List.mem_cons, List.mem_singleton,
          List.not_mem_nil, or_false] at he
        rcases he with he | he
        · exact ⟨talkerStream.entityID, he⟩
        · exact ⟨listenerStream.entityID, he⟩
    case disconnectStream talkerStream listenerStream connectionCount flags status =>
      simp only [AcmpDelivery.status] at hs
      subst hs
      simp only [AcmpDelivery.listenerStream, AcmpDelivery.talkerStream, AcmpDelivery.flags,
        AcmpDelivery.connectedOnSuccess] at hCached ⊢
      have hEq := handleListenerStreamStateNotification_eq talkerStream listenerStream
        false flags false hCached
      have hRun :
          AcmpDelivery.run c
              (AcmpDelivery.disconnectStream talkerStream listenerStream connectionCount flags
                ControlStatus.Success) =
            ((handleListenerStreamStateNotification c talkerStream listenerStream
              false flags false).1,
             (handleListenerStreamStateNotification c talkerStream listenerStream
              false flags false).2 ++
               [Effect.invokeProtectedHandler
                  (HandlerCall.disconnectStream (getControlledEntityImpl 
                   (handleListenerStreamStateNotification c talkerStream listenerStream
              false flags false).1 listenerStream.entityID)
                    listenerStream.streamIndex ControlStatus.Success)]) := rfl
      rw [hRun, hEq]
      refine ⟨_, rfl,
        getControlledEntityImpl_mutated _ (Change.configuration 0) hCached rfl,
        assocGet_assocSet _ _ _, ?_⟩
      · intro e he
        simp only [HandlerCall.entities, List.mem_singleton] at he
        exact ⟨listenerStream.entityID, he⟩
    case disconnectStreamGetListenerStreamState disconnectStatus talkerStream listenerStream connectionCount flags status =>
      simp only [AcmpDelivery.status] at hs
      subst hs
      simp only [AcmpDelivery.listenerStream, AcmpDelivery.talkerStream, AcmpDelivery.flags,
        AcmpDelivery.connectedOnSuccess] at hCached ⊢
      have hEq := handleListenerStreamStateNotification_eq talkerStream listenerStream
        (decide (connectionCount ≠ 0)) flags false hCached
      have hRun :
          AcmpDelivery.run c
              (AcmpDelivery.disconnectStreamGetListenerStreamState disconnectStatus talkerStream listenerStream connectionCount flags
                ControlStatus.Success) =
            ((handleListenerStreamStateNotification c talkerStream listenerStream
              (decide (connectionCount ≠ 0)) flags false).1,
             (handleListenerStreamStateNotification c talkerStream listenerStream
              (decide (connectionCount ≠ 0)) flags false).2 ++
               [Effect.invokeProtectedHandler
                  (HandlerCall.disconnectStream (getControlledEntityImpl 
                   (handleListenerStreamStateNotification c talkerStream listenerStream
              (decide (connectionCount ≠ 0)) flags false).1 listenerStream.entityID)
                    listenerStream.streamIndex
                    (if decide (connectionCount ≠ 0) = true then disconnectStatus
                     else ControlStatus.Success))]) := rfl
      rw [hRun, hEq]
      refine ⟨_, rfl,
        getControlledEntityImpl_mutated _ (Change.configuration 0) hCached rfl,
        assocGet_assocSet _ _ _, ?_⟩
      · intro e he
        simp only [HandlerCall.entities, List.mem_singleton] at he
        exact ⟨listenerStream.entityID, he⟩
    case disconnectTalkerStream talkerStream listenerStream connectionCount flags status =>
      simp only [AcmpDelivery.status] at hs
      subst hs
      simp only [AcmpDelivery.listenerStream, AcmpDelivery.talkerStream, AcmpDelivery.flags,
        AcmpDelivery.connectedOnSuccess] at hCached ⊢
      have hEq := handleListenerStreamStateNotification_eq talkerStream listenerStream
        false flags true hCached
      have hRun :
          AcmpDelivery.run c
              (AcmpDelivery.disconnectTalkerStream talkerStream listenerStream connectionCount flags
                ControlStatus.Success) =
            ((handleListenerStreamStateNotification c talkerStream listenerStream
              false flags true).1,
             (handleListenerStreamStateNotification c talkerStream listenerStream
              false flags true).2 ++
               [Effect.invokeProtectedHandler
                  (HandlerCall.disconnectTalkerStream ControlStatus.Success)]) := rfl
      rw [hRun, hEq]
      refine ⟨_, rfl,
        getControlledEntityImpl_mutated _ (Change.configuration 0) hCached rfl,
        assocGet_assocSet _ _ _, ?_⟩
      · intro e he
        simp [HandlerCall.entities] at he
    case getListenerStreamState talkerStream listenerStream connectionCount flags status =>
      simp only [AcmpDelivery.status] at hs
      subst hs
      simp only [AcmpDelivery.listenerStream, AcmpDelivery.talkerStream, AcmpDelivery.flags,
        AcmpDelivery.connectedOnSuccess] at hCached ⊢
      have hEq := handleListenerStreamStateNotification_eq talkerStream listenerStream
        (decide (connectionCount ≠ 0)) flags false hCached
      have hRun :
          AcmpDelivery.run c
              (AcmpDelivery.getListenerStreamState talkerStream listenerStream connectionCount flags
                ControlStatus.Success) =
            ((handleListenerStreamStateNotification c talkerStream listenerStream
              (decide (connectionCount ≠ 0)) flags false).1,
             (handleListenerStreamStateNotification c talkerStream listenerStream
              (decide (connectionCount ≠ 0)) flags false).2 ++
               [Effect.invokeProtectedHandler
                  (HandlerCall.getListenerStreamState (getControlledEntityImpl 
                   (handleListenerStreamStateNotification c talkerStream listenerStream
              (decide (connectionCount ≠ 0)) flags false).1 talkerStream.entityID)
                    (getControlledEntityImpl 
                   (handleListenerStreamStateNotification c talkerStream listenerStream
              (decide (connectionCount ≠ 0)) flags false).1 listenerStream.entityID)
                    talkerStream.streamIndex listenerStream.streamIndex connectionCount flags
                    ControlStatus.Success)]) := rfl
      rw [hRun, hEq]
      refine ⟨_, rfl,
        getControlledEntityImpl_mutated _ (Change.configuration 0) hCached rfl,
        assocGet_assocSet _ _ _, ?_⟩
      · intro e he
        simp only [HandlerCall.entities, List.mem_cons, List.mem_singleton,
          List.not_mem_nil, or_false] at he
        rcases he with he | he
        · exact ⟨talkerStream.entityID, he⟩
        · exact ⟨listenerStream.entityID, he⟩

/-- Witness of C17: setEntityName answered with Success for the cached entity 0x11, whose name
was empty and is "Foo" in the returned controller, and connectStream answered with Success for
the cached listener 0x11. -/
theorem update_precedes_handler_witness :
    (∃ (change : Change) (call : HandlerCall),
        (AemDelivery.setEntityName "Foo" 0x11 AemCommandStatus.Success).run
              (sampleController AcquireState.NotAcquired) =
            ({ sampleController AcquireState.NotAcquired with
               controlledEntities :=
                 storeEntity
                   ((AemDelivery.setEntityName "Foo" 0x11
                       AemCommandStatus.Success).updateOnSuccess
                     (sampleController AcquireState.NotAcquired)
                     (sampleEntity 0x11 true AcquireState.NotAcquired)).entity
                   (sampleController AcquireState.NotAcquired).controlledEntities },
             [Effect.notifyObservers 0x11 change, Effect.invokeProtectedHandler call]) ∧
          (AemDelivery.setEntityName "Foo" 0x11 AemCommandStatus.Success).updateOnSuccess
              (sampleController AcquireState.NotAcquired)
              (sampleEntity 0x11 true AcquireState.NotAcquired) =
            (sampleController AcquireState.NotAcquired).mutated
              ((AemDelivery.setEntityName "Foo" 0x11
                  AemCommandStatus.Success).updateOnSuccess
                (sampleController AcquireState.NotAcquired)
                (sampleEntity 0x11 true AcquireState.NotAcquired)).entity change ∧
          Change.holdsIn
            ((AemDelivery.setEntityName "Foo" 0x11 AemCommandStatus.Success).updateOnSuccess
              (sampleController AcquireState.NotAcquired)
              (sampleEntity 0x11 true AcquireState.NotAcquired)).entity change ∧
          getControlledEntityImpl
              ((AemDelivery.setEntityName "Foo" 0x11 AemCommandStatus.Success).run
                (sampleController AcquireState.NotAcquired)).1 0x11 =
            some
              ((AemDelivery.setEntityName "Foo" 0x11
                  AemCommandStatus.Success).updateOnSuccess
                (sampleController AcquireState.NotAcquired)
                (sampleEntity 0x11 true AcquireState.NotAcquired)).entity ∧
          call.entities =
            [advertisedOrNull
              ((AemDelivery.setEntityName "Foo" 0x11
                  AemCommandStatus.Success).updateOnSuccess
                (sampleController AcquireState.NotAcquired)
                (sampleEntity 0x11 true AcquireState.NotAcquired)).entity] ∧
          call.aemStatus = some AemCommandStatus.Success) ∧
      ((getControlledEntityImpl
            ((AemDelivery.setEntityName "Foo" 0x11 AemCommandStatus.Success).run
              (sampleController AcquireState.NotAcquired)).1 0x11).map
          (fun e => e.entityName) = some "Foo") ∧
      (∃ call : HandlerCall,
        (AcmpDelivery.connectStream { entityID := 0x22, streamIndex := 3 }
              { entityID := 0x11, streamIndex := 0 } 1 0 ControlStatus.Success).run
            (sampleController AcquireState.NotAcquired) =
            ({ sampleController AcquireState.NotAcquired with
               controlledEntities :=
                 storeEntity
                   ((sampleEntity 0x11 true AcquireState.NotAcquired).withConnection 0
                     (connectionRecord { entityID := 0x22, streamIndex := 3 } true 0))
                   (sampleController AcquireState.NotAcquired).controlledEntities },
             [Effect.notifyObservers 0x11
                (Change.streamConnection 0
                  (connectionRecord { entityID := 0x22, streamIndex := 3 } true 0)),
              Effect.invokeProtectedHandler call]) ∧
          getControlledEntityImpl
              ((AcmpDelivery.connectStream { entityID := 0x22, streamIndex := 3 }
                  { entityID := 0x11, streamIndex := 0 } 1 0 ControlStatus.Success).run
                (sampleController AcquireState.NotAcquired)).1 0x11 =
            some
              ((sampleEntity 0x11 true AcquireState.NotAcquired).withConnection 0
                (connectionRecord { entityID := 0x22, streamIndex := 3 } true 0)) ∧
          Change.holdsIn
            ((sampleEntity 0x11 true AcquireState.NotAcquired).withConnection 0
              (connectionRecord { entityID := 0x22, streamIndex := 3 } true 0))
            (Change.streamConnection 0
              (connectionRecord { entityID := 0x22, streamIndex := 3 } true 0)) ∧
          ∀ e ∈ call.entities, ∃ entityID : UniqueIdentifier,
            e = getControlledEntityImpl
              ((AcmpDelivery.connectStream { entityID := 0x22, streamIndex := 3 }
                  { entityID := 0x11, streamIndex := 0 } 1 0 ControlStatus.Success).run
                (sampleController AcquireState.NotAcquired)).1 entityID) :=
  ⟨update_precedes_handler.1 (sampleController AcquireState.NotAcquired)
      (AemDelivery.setEntityName "Foo" 0x11 AemCommandStatus.Success)
      (sampleEntity 0x11 true AcquireState.NotAcquired) rfl rfl,
   rfl,
   update_precedes_handler.2 (sampleController AcquireState.NotAcquired)
      (AcmpDelivery.connectStream { entityID := 0x22, streamIndex := 3 }
        { entityID := 0x11, streamIndex := 0 } 1 0 ControlStatus.Success)
      (sampleEntity 0x11 true AcquireState.NotAcquired) rfl rfl⟩

/-! ## Shutdown and construction -/

/-- The offline notifications of two runs of steps, one after the other. -/
theorem offlineNotifications_append (a b : List ShutdownEffect) :
    offlineNotifications (a ++ b) = offlineNotifications a ++ offlineNotifications b := by
  induction a with
  | nil => rfl
  | cons x rest ih => cases x <;> simp [offlineNotifications, ih]

/-- The offline notifications of a run of offline notifications. -/
theorem offlineNotifications_map_onEntityOffline (l : List ControlledEntity) :
    offlineNotifications (l.map (fun entity => ShutdownEffect.onEntityOffline entity)) = l := by
  induction l with
  | nil => rfl
  | cons x rest ih => simp [offlineNotifications, ih]

/-- A run of RELEASE commands holds no offline notification. -/
theorem offlineNotifications_map_releaseEntity (l : List ControlledEntity) :
    offlineNotifications
        (l.map (fun controlledEntity =>
          ShutdownEffect.releaseEntity controlledEntity.entityID DescriptorType.Entity 0)) =
      [] := by
  induction l with
  | nil => rfl
  | cons x rest ih => simp [offlineNotifications, ih]

/-- C18: the destructor of a controller whose cache holds one entity per identifier leaves the
cache empty, and the offline notifications it makes are the cached entities that were
advertised, in order: an advertised entity is notified exactly once and an entity that was not
advertised is never notified. -/
theorem destructor_notifies_advertised_entities_once (c : ControllerImpl)
    (hMap : (c.controlledEntities.map (fun entity => entity.entityID)).Nodup) :
    c.destructor.1.controlledEntities = [] ∧
      offlineNotifications c.destructor.2 =
        c.controlledEntities.filter (fun entity => entity.wasAdvertised) ∧
      (∀ entity ∈ c.controlledEntities,
        (offlineNotifications c.destructor.2).count entity =
          if entity.wasAdvertised then 1 else 0) ∧
      ∀ entity : ControlledEntity, entity.wasAdvertised = false →
        entity ∉ offlineNotifications c.destructor.2 := by
  have hList :
      offlineNotifications c.destructor.2 =
        c.controlledEntities.filter (fun entity => entity.wasAdvertised) := by
    simp [ControllerImpl.destructor, offlineNotifications_append,
      offlineNotifications_map_onEntityOffline, offlineNotifications_map_releaseEntity,
      offlineNotifications]
  have hNodup : c.controlledEntities.Nodup := List.Nodup.of_map _ hMap
  refine ⟨rfl, hList, ?_, ?_⟩
  · intro entity hMem
    rw [hList]
    by_cases hAdv : entity.wasAdvertised = true
    · have hIn : entity ∈ c.controlledEntities.filter (fun entity => entity.wasAdvertised) :=
        List.mem_filter.mpr ⟨hMem, hAdv⟩
      rw [if_pos hAdv]
      exact List.count_eq_one_of_mem (hNodup.filter _) hIn
    · rw [if_neg hAdv]
      apply List.count_eq_zero_of_not_mem
      intro hIn
      exact hAdv (List.mem_filter.mp hIn).2
  · intro entity hAdv hIn
    rw [hList] at hIn
    have h := (List.mem_filter.mp hIn).2
    rw [hAdv] at h
    exact Bool.false_ne_true h

/-- Witness of C18: the cache holds the advertised entities 0x11 and 0x13 and the entity 0x12
that was not advertised. -/
theorem destructor_notifies_advertised_entities_once_witness :
    shutdownSample.destructor.1.controlledEntities = [] ∧
      offlineNotifications shutdownSample.destructor.2 =
        [sampleEntity 0x11 true AcquireState.Acquired,
         sampleEntity 0x13 true AcquireState.NotAcquired] :=
  ⟨(destructor_notifies_advertised_entities_once shutdownSample (by decide)).1,
   (destructor_notifies_advertised_entities_once shutdownSample (by decide)).2.1.trans rfl⟩

/-- C19: the constructor surfaces the end-station errors InvalidProtocolInterfaceType,
InterfaceOpenError, InterfaceNotFound and InterfaceInvalid under the same name, and every other
end-station error and every controller exception as InternalError; whatever the `try` block
did, a failed construction carries one of these five errors, and a successful one gives a
controller with an empty cache. -/
theorem constructor_maps_errors :
    ControllerImpl.create
          (Except.error
            (ConstructionFailure.endStation EndStationError.InvalidProtocolInterfaceType)) =
        Except.error ControllerError.InvalidProtocolInterfaceType ∧
      ControllerImpl.create
          (Except.error (ConstructionFailure.endStation EndStationError.InterfaceOpenError)) =
        Except.error ControllerError.InterfaceOpenError ∧
      ControllerImpl.create
          (Except.error (ConstructionFailure.endStation EndStationError.InterfaceNotFound)) =
        Except.error ControllerError.InterfaceNotFound ∧
      ControllerImpl.create
          (Except.error (ConstructionFailure.endStation EndStationError.InterfaceInvalid)) =
        Except.error ControllerError.InterfaceInvalid ∧
      (∀ code : Nat,
        ControllerImpl.create
            (Except.error (ConstructionFailure.endStation (EndStationError.other code))) =
          Except.error ControllerError.InternalError) ∧
      (∀ err : ControllerError,
        ControllerImpl.create (Except.error (ConstructionFailure.controller err)) =
          Except.error ControllerError.InternalError) ∧
      ∀ attempt : Except ConstructionFailure UniqueIdentifier,
        (∃ controllerEID : UniqueIdentifier,
            attempt = Except.ok controllerEID ∧
              ControllerImpl.create attempt =
                Except.ok { controllerEID := controllerEID, controlledEntities := [] }) ∨
          (∃ err : ControllerError,
            ControllerImpl.create attempt = Except.error err ∧
              err ∈ [ControllerError.InvalidProtocolInterfaceType,
                ControllerError.InterfaceOpenError, ControllerError.InterfaceNotFound,
                ControllerError.InterfaceInvalid, ControllerError.InternalError]) := by
  refine ⟨rfl, rfl, rfl, rfl, fun _ => rfl, fun _ => rfl, ?_⟩
  intro attempt
  cases attempt with
  | ok controllerEID => exact Or.inl ⟨controllerEID, rfl, rfl⟩
  | error failure =>
    right
    cases failure with
    | endStation err => cases err <;> simp [ControllerImpl.create]
    | controller err => simp [ControllerImpl.create]

/-! ## The logger -/

/-- C20: in a release build (DEBUG not defined), getLevel after setLevel(l) is Info when l is
Trace or Debug and is l itself when l is Info, Warn, Error or None, so that the stored level is
neither Trace nor Debug after a setLevel, whatever the logger was before; the observers are
untouched. -/
theorem setLevel_release_promotes_trace_and_debug (logger : LoggerImpl) (level : Level) :
    (LoggerImpl.setLevel false logger level).getLevel =
        (if level = Level.Trace ∨ level = Level.Debug then Level.Info else level) ∧
      (LoggerImpl.setLevel false logger level).getLevel ≠ Level.Trace ∧
      (LoggerImpl.setLevel false logger level).getLevel ≠ Level.Debug ∧
      (LoggerImpl.setLevel false logger level).observers = logger.observers := by
  cases level <;> simp [LoggerImpl.setLevel, LoggerImpl.getLevel]

/-- The vector keeps its length through the loop of std::remove_if. -/
theorem length_removeIfLoop {α : Type} (pred : α → Bool) (unvisited : List α) :
    ∀ (v : List α) (first : Nat), (removeIfLoop pred v first unvisited).length = v.length := by
  induction unvisited with
  | nil => intro v first; rfl
  | cons x rest ih =>
    intro v first
    unfold removeIfLoop
    split
    · exact ih v first
    · rw [ih (v.set first x) (first + 1), List.length_set]

/-- C23 (the code at the failing input): unregisterObserver never shortens the vector of
observers, since the result of std::remove_if is dropped.  After register(1); unregister(1)
the observer 1 is still in the vector and a message logged at the active level None is
delivered to it; after register(1), register(2), register(3); unregister(2) the vector is
1, 3, 3 and the observer 3 is called twice. -/
theorem unregisterObserver_does_not_erase :
    (∀ (logger : LoggerImpl) (observer : Nat),
        (logger.unregisterObserver observer).observers.length = logger.observers.length) ∧
      ((LoggerImpl.new.registerObserver 1).unregisterObserver 1).observers = [1] ∧
      ((LoggerImpl.new.registerObserver 1).unregisterObserver 1).log 0 Level.None "message" =
        [{ observer := 1, layer := 0, level := Level.None, message := "message" }] ∧
      ((((LoggerImpl.new.registerObserver 1).registerObserver 2).registerObserver
          3).unregisterObserver 2).observers = [1, 3, 3] ∧
      (((((LoggerImpl.new.registerObserver 1).registerObserver 2).registerObserver
          3).unregisterObserver 2).log 0 Level.None "message").map (fun call => call.observer) =
        [1, 3, 3] := by
  refine ⟨?_, rfl, rfl, rfl, rfl⟩
  intro logger observer
  exact length_removeIfLoop _ _ _ _

/-- C27: log calls onLog on every element of the observers, once per registration, in
registration order and with the layer, the level and the message of the call, when the level of
the message is at least the level of the logger, and calls nothing when it is below.  A logger
as constructed has the level None, which registering observers does not change, and a logger
of level None delivers a message exactly when it is logged at level None. -/
theorem log_filters_by_level (logger : LoggerImpl) (layer : Nat) (level : Level)
    (message : String) :
    (logger.getLevel.toNat ≤ level.toNat →
        logger.log layer level message =
          logger.observers.map
            (fun o => { observer := o, layer := layer, level := level, message := message })) ∧
      (level.toNat < logger.getLevel.toNat → logger.log layer level message = []) ∧
      LoggerImpl.new.getLevel = Level.None ∧
      (∀ observer : Nat, (logger.registerObserver observer).getLevel = logger.getLevel) ∧
      (logger.getLevel = Level.None → level ≠ Level.None →
        logger.log layer level message = []) ∧
      (logger.getLevel = Level.None → level = Level.None →
        logger.log layer level message =
          logger.observers.map
            (fun o => { observer := o, layer := layer, level := level, message := message })) := by
  refine ⟨?_, ?_, rfl, fun _ => rfl, ?_, ?_⟩
  · intro h
    simp [LoggerImpl.log, LoggerImpl.getLevel] at h ⊢
    intro h2
    omega
  · intro h
    simp [LoggerImpl.log, LoggerImpl.getLevel] at h ⊢
    intro h2
    omega
  · intro h hl
    simp only [LoggerImpl.getLevel] at h
    cases level <;> simp_all [LoggerImpl.log, Level.toNat]
  · intro h hl
    simp only [LoggerImpl.getLevel] at h
    subst hl
    simp [LoggerImpl.log, h, Level.toNat]

/-- Witness of C27: the observers 1 and 2 are registered with a logger as constructed; a
message at level None reaches both, in order, and a message at level Error reaches none. -/
theorem log_filters_by_level_witness :
    ((LoggerImpl.new.registerObserver 1).registerObserver 2).log 7 Level.None "message" =
        [{ observer := 1, layer := 7, level := Level.None, message := "message" },
         { observer := 2, layer := 7, level := Level.None, message := "message" }] ∧
      ((LoggerImpl.new.registerObserver 1).registerObserver 2).log 7 Level.Error "message" =
        [] :=
  ⟨((log_filters_by_level ((LoggerImpl.new.registerObserver 1).registerObserver 2) 7
      Level.None "message").1 (by decide)).trans rfl,
   (log_filters_by_level ((LoggerImpl.new.registerObserver 1).registerObserver 2) 7
      Level.Error "message").2.1 (by decide)⟩

/-! ## Interface version and JSON errors -/

/-- C22: isCompatibleWithInterfaceVersion(v) is true exactly when v is the InterfaceVersion of
the library, whatever that constant is, and so it is true of getInterfaceVersion(). -/
theorem interface_version_is_strict (InterfaceVersion v : Nat) :
    (isCompatibleWithInterfaceVersion InterfaceVersion v = true ↔ v = InterfaceVersion) ∧
      isCompatibleWithInterfaceVersion InterfaceVersion
        (getInterfaceVersion InterfaceVersion) = true := by
  constructor
  · simp [isCompatibleWithInterfaceVersion, eq_comm]
  · simp [isCompatibleWithInterfaceVersion, getInterfaceVersion]

/-- C30: operator! of a DeserializationError, and of a SerializationError, is true exactly for
NoError; the numeric codes of the errors are pairwise distinct, so that each of the eleven
errors the deserializer reports has a code other than the one of NoError; and `!!e` holds
exactly for those eleven errors. -/
theorem json_error_operatorNot :
    (∀ e : DeserializationError, e.operatorNot = true ↔ e = DeserializationError.NoError) ∧
      (∀ e : SerializationError, e.operatorNot = true ↔ e = SerializationError.NoError) ∧
      (∀ a b : DeserializationError, a.toNat = b.toNat ↔ a = b) ∧
      (∀ a b : SerializationError, a.toNat = b.toNat ↔ a = b) ∧
      (∀ e ∈ deserializerReports, e.toNat ≠ DeserializationError.NoError.toNat) ∧
      deserializerReports.length = 11 ∧ deserializerReports.Nodup ∧
      (∀ e : DeserializationError, (!e.operatorNot) = true ↔ e ∈ deserializerReports) := by
  refine ⟨?_, ?_, ?_, ?_, ?_, rfl, by decide, ?_⟩
  · intro e
    cases e <;> simp [DeserializationError.operatorNot, DeserializationError.toNat]
  · intro e
    cases e <;> simp [SerializationError.operatorNot, SerializationError.toNat]
  · intro a b
    cases a <;> cases b <;> simp [DeserializationError.toNat]
  · intro a b
    cases a <;> cases b <;> simp [SerializationError.toNat]
  · intro e he
    cases e <;> simp [deserializerReports, DeserializationError.toNat] at he ⊢
  · intro e
    cases e <;>
      simp [DeserializationError.operatorNot, DeserializationError.toNat, deserializerReports]

/-! ## Exposure of entities and completion of the handlers -/

/-- C24 (the code at the failing input): the cache holds the entity 0x12, which was not
advertised.  The lambdas of connectStream, of disconnectStream and of getListenerStreamState,
run on a failed response for the listener 0x12, hand that entity to the user handler, while
getControlledEntity gives no guard for it and the lambda of setEntityName hands over null. -/
theorem acmp_handlers_receive_unadvertised_entity :
    handlerCalls
          (connectStreamResult shutdownSample { entityID := 0x22, streamIndex := 0 }
            { entityID := 0x12, streamIndex := 0 } 0 0 ControlStatus.ListenerMisbehaving).2 =
        [HandlerCall.connectStream none
           (some (sampleEntity 0x12 false AcquireState.NotAcquired)) 0 0
           ControlStatus.ListenerMisbehaving] ∧
      handlerCalls
          (disconnectStreamResult shutdownSample { entityID := 0x22, streamIndex := 0 }
            { entityID := 0x12, streamIndex := 0 } 0 0 ControlStatus.NotConnected).2 =
        [HandlerCall.disconnectStream
           (some (sampleEntity 0x12 false AcquireState.NotAcquired)) 0
           ControlStatus.NotConnected] ∧
      handlerCalls
          (getListenerStreamStateResult shutdownSample { entityID := 0x22, streamIndex := 0 }
            { entityID := 0x12, streamIndex := 0 } 0 0 ControlStatus.TimedOut).2 =
        [HandlerCall.getListenerStreamState none
           (some (sampleEntity 0x12 false AcquireState.NotAcquired)) 0 0 0 0
           ControlStatus.TimedOut] ∧
      (sampleEntity 0x12 false AcquireState.NotAcquired).wasAdvertised = false ∧
      getControlledEntity shutdownSample 0x12 = none ∧
      handlerCalls (setEntityNameResult shutdownSample "Foo" 0x12 AemCommandStatus.TimedOut).2 =
        [HandlerCall.aem none AemCommandStatus.TimedOut] := by
  refine ⟨rfl, rfl, rfl, rfl, rfl, rfl⟩

/-- The outer lambda of disconnectStream on Success: no command, one call of the handler. -/
theorem disconnectStreamResult_success (c : ControllerImpl)
    (talkerStream listenerStream : StreamIdentification) (connectionCount : Nat)
    (flags : ConnectionFlags) :
    (handlerCalls
          (disconnectStreamResult c talkerStream listenerStream connectionCount flags
            ControlStatus.Success).2).length = 1 ∧
      commandsIssued
          (disconnectStreamResult c talkerStream listenerStream connectionCount flags
            ControlStatus.Success).2 = [] := by
  have hShape :
      disconnectStreamResult c talkerStream listenerStream connectionCount flags
          ControlStatus.Success =
        ((handleListenerStreamStateNotification c talkerStream listenerStream false flags
            false).1,
          (handleListenerStreamStateNotification c talkerStream listenerStream false flags
            false).2 ++
            [Effect.invokeProtectedHandler
               (HandlerCall.disconnectStream
                 (getControlledEntityImpl
                   (handleListenerStreamStateNotification c talkerStream listenerStream false
                     flags false).1 listenerStream.entityID)
                 listenerStream.streamIndex ControlStatus.Success)]) := rfl
  rw [hShape]
  simp only [handlerCalls_append_handler,
    handlerCalls_handleListenerStreamStateNotification]
  refine ⟨rfl, ?_⟩
  unfold handleListenerStreamStateNotification
  split <;> simp [ControllerImpl.mutated, commandsIssued]

/-- The inner lambda of disconnectStream: no command, one call of the handler, whatever the
response of the GET_RX_STATE query is. -/
theorem disconnectStreamGetListenerStreamStateResult_once (c : ControllerImpl)
    (disconnectStatus : ControlStatus) (talkerStream listenerStream : StreamIdentification)
    (connectionCount : Nat) (flags : ConnectionFlags) (status : ControlStatus) :
    (handlerCalls
          (disconnectStreamGetListenerStreamStateResult c disconnectStatus talkerStream
            listenerStream connectionCount flags status).2).length = 1 ∧
      commandsIssued
          (disconnectStreamGetListenerStreamStateResult c disconnectStatus talkerStream
            listenerStream connectionCount flags status).2 = [] := by
  by_cases hs : status = ControlStatus.Success
  · subst hs
    have hShape :
        disconnectStreamGetListenerStreamStateResult c disconnectStatus talkerStream
            listenerStream connectionCount flags ControlStatus.Success =
          ((handleListenerStreamStateNotification c talkerStream listenerStream
              (decide (connectionCount ≠ 0)) flags false).1,
            (handleListenerStreamStateNotification c talkerStream listenerStream
              (decide (connectionCount ≠ 0)) flags false).2 ++
              [Effect.invokeProtectedHandler
                 (HandlerCall.disconnectStream
                   (getControlledEntityImpl
                     (handleListenerStreamStateNotification c talkerStream listenerStream
                       (decide (connectionCount ≠ 0)) flags false).1 listenerStream.entityID)
                   listenerStream.streamIndex
                   (if decide (connectionCount ≠ 0) = true then disconnectStatus
                    else ControlStatus.Success))]) := rfl
    rw [hShape]
    simp only [handlerCalls_append_handler,
      handlerCalls_handleListenerStreamStateNotification]
    refine ⟨rfl, ?_⟩
    unfold handleListenerStreamStateNotification
    split <;> simp [ControllerImpl.mutated, commandsIssued]
  · simp [disconnectStreamGetListenerStreamStateResult, ControlStatus.operatorNot, hs,
      handlerCalls, commandsIssued]

/-- C25: the handler of disconnectStream is called exactly once on every path.  With a
listener that is not in the cache the call itself calls it once and issues no command.  With
a cached listener the call calls no handler and issues the DISCONNECT_RX command with the
outer lambda.  The outer lambda, on Success or NotConnected, calls the handler once and
issues nothing; on any other status it calls no handler and issues exactly the GET_RX_STATE
query with the inner lambda, and the inner lambda calls the handler once and issues nothing,
whatever the status of the query. -/
theorem disconnectStream_calls_handler_once (c : ControllerImpl)
    (talkerStream listenerStream : StreamIdentification) :
    (getControlledEntityImpl c listenerStream.entityID = none →
        (handlerCalls (disconnectStream c talkerStream listenerStream).2).length = 1 ∧
          commandsIssued (disconnectStream c talkerStream listenerStream).2 = []) ∧
      ((getControlledEntityImpl c listenerStream.entityID).isSome = true →
        handlerCalls (disconnectStream c talkerStream listenerStream).2 = [] ∧
          commandsIssued (disconnectStream c talkerStream listenerStream).2 =
            [(Command.disconnectStream talkerStream listenerStream,
              Continuation.disconnectStream)]) ∧
      (∀ (c2 : ControllerImpl) (d : AcmpDelivery),
        d.continuation = Continuation.disconnectStream →
          ((d.status = ControlStatus.Success ∨ d.status = ControlStatus.NotConnected) →
            (handlerCalls (d.run c2).2).length = 1 ∧ commandsIssued (d.run c2).2 = []) ∧
          ((d.status ≠ ControlStatus.Success ∧ d.status ≠ ControlStatus.NotConnected) →
            handlerCalls (d.run c2).2 = [] ∧
              commandsIssued (d.run c2).2 =
                [(Command.getListenerStreamState d.listenerStream,
                  Continuation.disconnectStreamGetListenerStreamState d.status)])) ∧
      ∀ (c3 : ControllerImpl) (d : AcmpDelivery) (disconnectStatus : ControlStatus),
        d.continuation = Continuation.disconnectStreamGetListenerStreamState disconnectStatus →
          (handlerCalls (d.run c3).2).length = 1 ∧ commandsIssued (d.run c3).2 = [] := by
  refine ⟨?_, ?_, ?_, ?_⟩
  · intro h
    simp [disconnectStream, h, handlerCalls, commandsIssued]
  · intro h
    obtain ⟨e, he⟩ := Option.isSome_iff_exists.mp h
    simp [disconnectStream, he, handlerCalls, commandsIssued]
  · intro c2 d hd
    cases d
    case disconnectStream talkerStream2 listenerStream2 connectionCount flags status =>
      constructor
      · intro hs
        simp only [AcmpDelivery.status] at hs
        rcases hs with hs | hs
        · subst hs
          exact disconnectStreamResult_success c2 talkerStream2 listenerStream2 connectionCount
            flags
        · subst hs
          simp [AcmpDelivery.run, disconnectStreamResult, ControlStatus.operatorNot,
            handlerCalls, commandsIssued]
      · intro hs
        simp only [AcmpDelivery.status] at hs
        simp [AcmpDelivery.run, AcmpDelivery.status, AcmpDelivery.listenerStream,
          disconnectStreamResult, ControlStatus.operatorNot, hs.1, hs.2, handlerCalls,
          commandsIssued]
    all_goals simp [AcmpDelivery.continuation] at hd
  · intro c3 d disconnectStatus hd
    cases d
    case disconnectStreamGetListenerStreamState disconnectStatus2 talkerStream2 listenerStream2
        connectionCount flags status =>
      exact disconnectStreamGetListenerStreamStateResult_once c3 disconnectStatus2
        talkerStream2 listenerStream2 connectionCount flags status
    all_goals simp [AcmpDelivery.continuation] at hd

/-- Witness of C25 (scenario "disconnect-recovery"): the listener 0x11 is cached; the call
issues DISCONNECT_RX, the response CouldNotSendMessage leads to the GET_RX_STATE query, and
its response leads to one call of the handler. -/
theorem disconnectStream_calls_handler_once_witness :
    (handlerCalls
          (disconnectStream (sampleController AcquireState.NotAcquired)
            { entityID := 0x22, streamIndex := 0 } { entityID := 0x11, streamIndex := 0 }).2 =
          [] ∧
        commandsIssued
            (disconnectStream (sampleController AcquireState.NotAcquired)
              { entityID := 0x22, streamIndex := 0 } { entityID := 0x11, streamIndex := 0 }).2 =
          [(Command.disconnectStream { entityID := 0x22, streamIndex := 0 }
              { entityID := 0x11, streamIndex := 0 },
            Continuation.disconnectStream)]) ∧
      (handlerCalls
            ((AcmpDelivery.disconnectStream { entityID := 0x22, streamIndex := 0 }
                { entityID := 0x11, streamIndex := 0 } 1 0
                ControlStatus.CouldNotSendMessage).run
              (sampleController AcquireState.NotAcquired)).2 = [] ∧
        commandsIssued
            ((AcmpDelivery.disconnectStream { entityID := 0x22, streamIndex := 0 }
                { entityID := 0x11, streamIndex := 0 } 1 0
                ControlStatus.CouldNotSendMessage).run
              (sampleController AcquireState.NotAcquired)).2 =
          [(Command.getListenerStreamState { entityID := 0x11, streamIndex := 0 },
            Continuation.disconnectStreamGetListenerStreamState
              ControlStatus.CouldNotSendMessage)]) ∧
      ((handlerCalls
            ((AcmpDelivery.disconnectStreamGetListenerStreamState
                ControlStatus.CouldNotSendMessage { entityID := 0x22, streamIndex := 0 }
                { entityID := 0x11, streamIndex := 0 } 0 0 ControlStatus.Success).run
              (sampleController AcquireState.NotAcquired)).2).length = 1 ∧
        commandsIssued
            ((AcmpDelivery.disconnectStreamGetListenerStreamState
                ControlStatus.CouldNotSendMessage { entityID := 0x22, streamIndex := 0 }
                { entityID := 0x11, streamIndex := 0 } 0 0 ControlStatus.Success).run
              (sampleController AcquireState.NotAcquired)).2 = []) :=
  ⟨(disconnectStream_calls_handler_once (sampleController AcquireState.NotAcquired)
      { entityID := 0x22, streamIndex := 0 } { entityID := 0x11, streamIndex := 0 }).2.1 rfl,
   ((disconnectStream_calls_handler_once (sampleController AcquireState.NotAcquired)
      { entityID := 0x22, streamIndex := 0 } { entityID := 0x11, streamIndex := 0 }).2.2.1
      (sampleController AcquireState.NotAcquired)
      (AcmpDelivery.disconnectStream { entityID := 0x22, streamIndex := 0 }
        { entityID := 0x11, streamIndex := 0 } 1 0 ControlStatus.CouldNotSendMessage) rfl).2
      ⟨by decide, by decide⟩,
   (disconnectStream_calls_handler_once (sampleController AcquireState.NotAcquired)
      { entityID := 0x22, streamIndex := 0 } { entityID := 0x11, streamIndex := 0 }).2.2.2
      (sampleController AcquireState.NotAcquired)
      (AcmpDelivery.disconnectStreamGetListenerStreamState ControlStatus.CouldNotSendMessage
        { entityID := 0x22, streamIndex := 0 } { entityID := 0x11, streamIndex := 0 } 0 0
        ControlStatus.Success) ControlStatus.CouldNotSendMessage rfl⟩

/-- C26: a response delivered to an AECP lambda (acquire, release or a set operation) about an
entity that is not in the cache leaves the controller, and so the cache, as it was, and the
handler is called exactly once, with null for the entity, with the status of the response and,
for acquire and release, with the owning entity of the response. -/
theorem response_for_departed_entity_is_passed_through (c : ControllerImpl) (d : AemDelivery)
    (hGone : getControlledEntityImpl c d.entityID = none) :
    ∃ call : HandlerCall,
      d.run c = (c, [Effect.invokeProtectedHandler call]) ∧
        call.entities = [none] ∧ call.aemStatus = some d.status ∧
        call.owningEntity = d.owningEntity := by
  cases d <;>
    simp only [AemDelivery.entityID] at hGone <;>
    simp [AemDelivery.run, AemDelivery.status, AemDelivery.owningEntity, acquireEntityResult,
      releaseEntityResult, setConfigurationResult,
      setStreamInputFormatResult, setStreamOutputFormatResult, setEntityNameResult,
      setEntityGroupNameResult, setConfigurationNameResult, setAudioUnitNameResult,
      setStreamInputNameResult, setStreamOutputNameResult, setAvbInterfaceNameResult,
      setClockSourceNameResult, setMemoryObjectNameResult, setAudioClusterNameResult,
      setClockDomainNameResult, setAudioUnitSamplingRateResult, setClockSourceResult,
      startStreamInputResult, stopStreamInputResult, startStreamOutputResult,
      stopStreamOutputResult, addStreamPortInputAudioMappingsResult,
      addStreamPortOutputAudioMappingsResult, removeStreamPortInputAudioMappingsResult,
      removeStreamPortOutputAudioMappingsResult, setMemoryObjectLengthResult, hGone,
      HandlerCall.entities, HandlerCall.aemStatus, HandlerCall.owningEntity]

/-- Witness of C26: the ACQUIRE response for the entity 0x11 arrives after the entity left the
cache. -/
theorem response_for_departed_entity_witness :
    ∃ call : HandlerCall,
      (AemDelivery.acquireEntity 0x11 AemCommandStatus.Success 0xC0 DescriptorType.Entity
            0).run emptyController =
          (emptyController, [Effect.invokeProtectedHandler call]) ∧
        call.entities = [none] ∧
        call.aemStatus =
          some (AemDelivery.acquireEntity 0x11 AemCommandStatus.Success 0xC0
            DescriptorType.Entity 0).status ∧
        call.owningEntity =
          (AemDelivery.acquireEntity 0x11 AemCommandStatus.Success 0xC0 DescriptorType.Entity
            0).owningEntity :=
  response_for_departed_entity_is_passed_through emptyController
    (AemDelivery.acquireEntity 0x11 AemCommandStatus.Success 0xC0 DescriptorType.Entity 0) rfl

/-! ## Availability of the pcap backend -/

/-- The record is available after construction exactly when the library was opened, the symbol
pcap_lib_version was found and the ten pcap functions were found. -/
theorem is_available_PcapInterface (env : DynamicLoader) :
    is_available (PcapInterface env).1 = true ↔
      env.handle ≠ 0 ∧ DL_SYM env "pcap_lib_version" ≠ 0 ∧
        ∀ name ∈ pcapFunctions, DL_SYM env name ≠ 0 := by
  by_cases hHandle : env.handle = 0
  · simp [PcapInterface, is_available, hHandle]
  · by_cases hVersion : DL_SYM env "pcap_lib_version" = 0
    · simp [PcapInterface, is_available, hHandle, hVersion]
    · simp only [PcapInterface, is_available, ne_eq, hHandle, not_false_eq_true, if_true,
        hVersion, true_and, pcapFunctions, List.mem_cons, List.mem_singleton, forall_eq_or_imp,
        forall_eq, List.not_mem_nil, false_implies, implies_true, and_true]
      split
      · rename_i hAll
        simp only [Bool.and_eq_true, decide_eq_true_eq] at hAll
        simp [hHandle]
        tauto
      · rename_i hAll
        simp only [Bool.and_eq_true, decide_eq_true_eq] at hAll
        simp
        tauto

/-- C21: when the library cannot be opened, or when it is opened and one of the ten pcap
functions is not found, is_available() is false after construction. -/
theorem missing_function_makes_pcap_unavailable (env : DynamicLoader)
    (hMissing : env.handle = 0 ∨ ∃ name ∈ pcapFunctions, DL_SYM env name = 0) :
    is_available (PcapInterface env).1 = false := by
  rw [Bool.eq_false_iff]
  intro hAvailable
  obtain ⟨hHandle, _, hAll⟩ := (is_available_PcapInterface env).mp hAvailable
  rcases hMissing with h | ⟨name, hName, h⟩
  · exact hHandle h
  · exact hAll name hName h

/-- Witness of C21: the library is opened and every symbol but pcap_sendpacket is found. -/
theorem missing_function_makes_pcap_unavailable_witness :
    is_available (PcapInterface (sampleLoader allPcapSymbols.dropLast)).1 = false :=
  missing_function_makes_pcap_unavailable (sampleLoader allPcapSymbols.dropLast)
    (Or.inr ⟨"pcap_sendpacket", by decide, by decide⟩)

/-- The two outcomes of the construction for a library that was opened: the handle is stored
and nothing is closed, or the handle stays null and the library is closed once. -/
theorem PcapInterface_outcome (env : DynamicLoader) (hHandle : env.handle ≠ 0) :
    (is_available (PcapInterface env).1 = true ∧
        (PcapInterface env).1.libraryHandle = env.handle ∧
        closedHandles (PcapInterface env).2 = []) ∨
      (is_available (PcapInterface env).1 = false ∧
        (PcapInterface env).1.libraryHandle = 0 ∧
        closedHandles (PcapInterface env).2 = [env.handle]) := by
  by_cases hVersion : DL_SYM env "pcap_lib_version" = 0
  · right
    simp [PcapInterface, is_available, hHandle, hVersion, closedHandles]
  · by_cases hAll :
        (decide (DL_SYM env "pcap_open_live" ≠ 0) && decide (DL_SYM env "pcap_fileno" ≠ 0) &&
          decide (DL_SYM env "pcap_close" ≠ 0) && decide (DL_SYM env "pcap_compile" ≠ 0) &&
          decide (DL_SYM env "pcap_setfilter" ≠ 0) && decide (DL_SYM env "pcap_freecode" ≠ 0) &&
          decide (DL_SYM env "pcap_next_ex" ≠ 0) && decide (DL_SYM env "pcap_loop" ≠ 0) &&
          decide (DL_SYM env "pcap_breakloop" ≠ 0) &&
          decide (DL_SYM env "pcap_sendpacket" ≠ 0)) = true
    · left
      simp only [PcapInterface, ne_eq, hHandle, not_false_eq_true, if_true, hVersion, hAll,
        is_available, closedHandles, decide_True, and_self]
    · right
      simp only [PcapInterface, ne_eq, hHandle, not_false_eq_true, if_true, hVersion, hAll,
        is_available, closedHandles, not_true_eq_false, decide_False, and_self, if_false,
        Bool.false_eq_true]

/-- C28: is_available() is true after construction exactly when the library was opened, the
symbol pcap_lib_version was found and the ten pcap functions were found; when it is false the
stored library handle is null; a library that was opened and rejected is closed exactly once
by the constructor and the destructor closes nothing; a library that could not be opened is
never closed; a library that was accepted is closed by the destructor only. -/
theorem pcap_availability_and_close (env : DynamicLoader) :
    (is_available (PcapInterface env).1 = true ↔
        env.handle ≠ 0 ∧ DL_SYM env "pcap_lib_version" ≠ 0 ∧
          ∀ name ∈ pcapFunctions, DL_SYM env name ≠ 0) ∧
      (is_available (PcapInterface env).1 = false → (PcapInterface env).1.libraryHandle = 0) ∧
      (env.handle ≠ 0 → is_available (PcapInterface env).1 = false →
        closedHandles (PcapInterface env).2 = [env.handle] ∧
          closedHandles (PcapInterface.destructor (PcapInterface env).1) = []) ∧
      (env.handle = 0 →
        closedHandles (PcapInterface env).2 = [] ∧
          closedHandles (PcapInterface.destructor (PcapInterface env).1) = []) ∧
      (is_available (PcapInterface env).1 = true →
        closedHandles (PcapInterface env).2 = [] ∧
          closedHandles (PcapInterface.destructor (PcapInterface env).1) = [env.handle]) := by
  refine ⟨is_available_PcapInterface env, ?_, ?_, ?_, ?_⟩
  · intro h
    simpa [is_available] using h
  · intro hHandle hUnavailable
    rcases PcapInterface_outcome env hHandle with h | h
    · rw [h.1] at hUnavailable
      exact absurd hUnavailable (by decide)
    · exact ⟨h.2.2, by simp [PcapInterface.destructor, h.2.1, closedHandles]⟩
  · intro hHandle
    simp [PcapInterface, PcapInterface.destructor, hHandle, closedHandles]
  · intro hAvailable
    have hHandle : env.handle ≠ 0 := ((is_available_PcapInterface env).mp hAvailable).1
    rcases PcapInterface_outcome env hHandle with h | h
    · exact ⟨h.2.2, by simp [PcapInterface.destructor, h.2.1, hHandle, closedHandles]⟩
    · rw [h.1] at hAvailable
      exact absurd hAvailable (by decide)

/-- Witness of C28: with all the symbols found the backend is available and the destructor
closes the library; without pcap_lib_version the library is closed once by the constructor and
not by the destructor. -/
theorem pcap_availability_and_close_witness :
    (closedHandles (PcapInterface (sampleLoader allPcapSymbols)).2 = [] ∧
        closedHandles
            (PcapInterface.destructor (PcapInterface (sampleLoader allPcapSymbols)).1) =
          [(sampleLoader allPcapSymbols).handle]) ∧
      (closedHandles (PcapInterface (sampleLoader allPcapSymbols.tail)).2 =
          [(sampleLoader allPcapSymbols.tail).handle] ∧
        closedHandles
            (PcapInterface.destructor (PcapInterface (sampleLoader allPcapSymbols.tail)).1) =
          []) :=
  ⟨(pcap_availability_and_close (sampleLoader allPcapSymbols)).2.2.2.2 (by decide),
   (pcap_availability_and_close (sampleLoader allPcapSymbols.tail)).2.2.1 (by decide)
     (by decide)⟩

/-! ## Names of the layers -/

/-- Two decimal digits with the same character are equal. -/
theorem decimalDigitChar_inj {a b : Nat} (ha : a < 10) (hb : b < 10)
    (h : decimalDigitChar a = decimalDigitChar b) : a = b := by
  interval_cases a <;> interval_cases b <;>
    first
      | rfl
      | exact absurd h (by decide)

/-- Two lists of decimal digits with the same characters are equal. -/
theorem map_decimalDigitChar_inj :
    ∀ (l1 l2 : List Nat), (∀ d ∈ l1, d < 10) → (∀ d ∈ l2, d < 10) →
      l1.map decimalDigitChar = l2.map decimalDigitChar → l1 = l2
  | [], [], _, _, _ => rfl
  | [], _ :: _, _, _, h => by simp at h
  | _ :: _, [], _, _, h => by simp at h
  | a :: l1, b :: l2, h1, h2, h => by
    simp only [List.map_cons, List.cons.injEq] at h
    have hab : a = b :=
      decimalDigitChar_inj (h1 a (List.mem_cons_self _ _)) (h2 b (List.mem_cons_self _ _)) h.1
    have hl : l1 = l2 :=
      map_decimalDigitChar_inj l1 l2 (fun d hd => h1 d (List.mem_cons_of_mem _ hd))
        (fun d hd => h2 d (List.mem_cons_of_mem _ hd)) h.2
    rw [hab, hl]

/-- The decimal digits of a number, the most significant first, are digits. -/
theorem reverse_digits_lt (n : Nat) : ∀ d ∈ (Nat.digits 10 n).reverse, d < 10 := by
  intro d hd
  exact Nat.digits_lt_base (by decide) (List.mem_reverse.mp hd)

/-- Distinct numbers have distinct decimal representations. -/
theorem to_string_injective {n m : Nat} (h : to_string n = to_string m) : n = m := by
  have hZero : ∀ k : Nat, k ≠ 0 →
      (String.mk ((Nat.digits 10 k).reverse.map decimalDigitChar) : String) ≠ "0" := by
    intro k hk hEq
    have hData : (Nat.digits 10 k).reverse.map decimalDigitChar = [0].map decimalDigitChar :=
      congrArg String.data hEq
    have hDigits := map_decimalDigitChar_inj _ _ (reverse_digits_lt k)
      (by intro d hd; simp at hd; omega) hData
    have hLast := Nat.getLast_digit_ne_zero 10 hk
    have hList : Nat.digits 10 k = [0] := by
      have := congrArg List.reverse hDigits
      simpa using this
    simp [hList] at hLast
  by_cases hn : n = 0
  · by_cases hm : m = 0
    · rw [hn, hm]
    · simp only [to_string, hn, hm, if_true, if_false] at h
      exact absurd h.symm (hZero m hm)
  · by_cases hm : m = 0
    · simp only [to_string, hn, hm, if_true, if_false] at h
      exact absurd h (hZero n hn)
    · simp only [to_string, hn, hm, if_false] at h
      have hData : (Nat.digits 10 n).reverse.map decimalDigitChar =
          (Nat.digits 10 m).reverse.map decimalDigitChar := congrArg String.data h
      have hDigits := map_decimalDigitChar_inj _ _ (reverse_digits_lt n) (reverse_digits_lt m)
        hData
      have hList : Nat.digits 10 n = Nat.digits 10 m := by
        have := congrArg List.reverse hDigits
        simpa using this
      exact Nat.digits.injective 10 hList

/-- The characters of the name of a user layer. -/
theorem data_layer_append (text : String) :
    ("Layer" ++ text).data = 'L' :: 'a' :: 'y' :: 'e' :: 'r' :: text.data := rfl

/-- The name of a user layer is none of the four reserved names. -/
theorem layer_append_ne_reserved (text : String) :
    "Layer" ++ text ≠ "Protocol" ∧ "Layer" ++ text ≠ "Controller" ∧
      "Layer" ++ text ≠ "Talker" ∧ "Layer" ++ text ≠ "Listener" := by
  refine ⟨?_, ?_, ?_, ?_⟩ <;>
    · intro h
      have hData := congrArg String.data h
      rw [data_layer_append] at hData
      have hHead := (List.cons.inj hData).1
      first
        | exact absurd hHead (by decide)
        | exact absurd (List.cons.inj (List.cons.inj hData).2).1 (by decide)

/-- The names of user layers are equal only for equal layers. -/
theorem layer_append_to_string_injective {n m : Nat}
    (h : "Layer" ++ to_string n = "Layer" ++ to_string m) : n = m := by
  have hData := congrArg String.data h
  rw [data_layer_append, data_layer_append] at hData
  have hTail : (to_string n).data = (to_string m).data := by
    simpa using hData
  have hEq : to_string n = to_string m := by
    cases hn : to_string n
    cases hm : to_string m
    rw [hn, hm] at hTail
    simp only at hTail
    rw [hTail]
  exact to_string_injective hEq

/-- The name of a layer that is reserved or a user layer, when the four reserved layers have
distinct values below FirstUserLayer. -/
theorem layerToString_cases (values : LayerValues)
    (hDistinct :
      [values.Protocol, values.Controller, values.Talker, values.Listener].Nodup)
    (hReserved :
      ∀ r ∈ [values.Protocol, values.Controller, values.Talker, values.Listener],
        r < values.FirstUserLayer)
    (layer : Nat)
    (hLayer :
      layer ∈ [values.Protocol, values.Controller, values.Talker, values.Listener] ∨
        values.FirstUserLayer ≤ layer) :
    (layer = values.Protocol ∧ layerToString values layer = "Protocol") ∨
      (layer = values.Controller ∧ layerToString values layer = "Controller") ∨
      (layer = values.Talker ∧ layerToString values layer = "Talker") ∨
      (layer = values.Listener ∧ layerToString values layer = "Listener") ∨
      (layerToString values layer = "Layer" ++ to_string layer ∧
        values.FirstUserLayer ≤ layer) := by
  simp only [List.nodup_cons, List.mem_cons, List.mem_singleton, List.not_mem_nil, or_false,
    not_or, List.nodup_nil, and_true, not_false_eq_true] at hDistinct
  simp only [List.mem_cons, List.mem_singleton, List.not_mem_nil, or_false, forall_eq_or_imp,
    forall_eq] at hReserved
  obtain ⟨⟨hPC, hPT, hPL⟩, ⟨hCT, hCL⟩, hTL⟩ := hDistinct
  obtain ⟨hP, hC, hT, hL⟩ := hReserved
  simp only [List.mem_cons, List.mem_singleton, List.not_mem_nil, or_false] at hLayer
  rcases hLayer with (h | h | h | h) | h
  · left
    refine ⟨h, ?_⟩
    rw [h]
    simp [layerToString, hP]
  · right; left
    refine ⟨h, ?_⟩
    rw [h]
    simp [layerToString, hC, Ne.symm hPC]
  · right; right; left
    refine ⟨h, ?_⟩
    rw [h]
    simp [layerToString, hT, Ne.symm hPT, Ne.symm hCT]
  · right; right; right; left
    refine ⟨h, ?_⟩
    rw [h]
    simp [layerToString, hL, Ne.symm hPL, Ne.symm hCL, Ne.symm hTL]
  · right; right; right; right
    refine ⟨?_, h⟩
    simp [layerToString, Nat.not_lt.mpr h]

/-- C29: with the four reserved layers at distinct values below FirstUserLayer, layerToString
names them "Protocol", "Controller", "Talker" and "Listener"; it names every layer at or above
FirstUserLayer "Layer" followed by the decimal value of the layer; and two layers among the
reserved and the user layers that have the same name are the same layer. -/
theorem layerToString_names_layers (values : LayerValues)
    (hDistinct :
      [values.Protocol, values.Controller, values.Talker, values.Listener].Nodup)
    (hReserved :
      ∀ r ∈ [values.Protocol, values.Controller, values.Talker, values.Listener],
        r < values.FirstUserLayer) :
    layerToString values values.Protocol = "Protocol" ∧
      layerToString values values.Controller = "Controller" ∧
      layerToString values values.Talker = "Talker" ∧
      layerToString values values.Listener = "Listener" ∧
      (∀ layer : Nat, values.FirstUserLayer ≤ layer →
        layerToString values layer = "Layer" ++ to_string layer) ∧
      ∀ a b : Nat,
        (a ∈ [values.Protocol, values.Controller, values.Talker, values.Listener] ∨
          values.FirstUserLayer ≤ a) →
        (b ∈ [values.Protocol, values.Controller, values.Talker, values.Listener] ∨
          values.FirstUserLayer ≤ b) →
        layerToString values a = layerToString values b → a = b := by
  have hDistinct2 := hDistinct
  simp only [List.nodup_cons, List.mem_cons, List.mem_singleton, List.not_mem_nil, or_false,
    not_or, List.nodup_nil, and_true, not_false_eq_true] at hDistinct2
  have hReserved2 := hReserved
  simp only [List.mem_cons, List.mem_singleton, List.not_mem_nil, or_false, forall_eq_or_imp,
    forall_eq] at hReserved2
  obtain ⟨⟨hPC, hPT, hPL⟩, ⟨hCT, hCL⟩, hTL⟩ := hDistinct2
  obtain ⟨hP, hC, hT, hL⟩ := hReserved2
  refine ⟨?_, ?_, ?_, ?_, ?_, ?_⟩
  · simp [layerToString, hP]
  · simp [layerToString, hC, Ne.symm hPC]
  · simp [layerToString, hT, Ne.symm hPT, Ne.symm hCT]
  · simp [layerToString, hL, Ne.symm hPL, Ne.symm hCL, Ne.symm hTL]
  · intro layer h
    simp [layerToString, Nat.not_lt.mpr h]
  · intro a b ha hb h
    have hA := layerToString_cases values hDistinct hReserved a ha
    have hB := layerToString_cases values hDistinct hReserved b hb
    rcases hA with ⟨ea, sa⟩ | ⟨ea, sa⟩ | ⟨ea, sa⟩ | ⟨ea, sa⟩ | ⟨sa, ea⟩ <;>
      rcases hB with ⟨eb, sb⟩ | ⟨eb, sb⟩ | ⟨eb, sb⟩ | ⟨eb, sb⟩ | ⟨sb, eb⟩ <;>
      rw [sa, sb] at h <;>
      first
        | exact ea.trans eb.symm
        | exact absurd h (by decide)
        | exact absurd h (layer_append_ne_reserved _).1
        | exact absurd h (layer_append_ne_reserved _).2.1
        | exact absurd h (layer_append_ne_reserved _).2.2.1
        | exact absurd h (layer_append_ne_reserved _).2.2.2
        | exact absurd h.symm (layer_append_ne_reserved _).1
        | exact absurd h.symm (layer_append_ne_reserved _).2.1
        | exact absurd h.symm (layer_append_ne_reserved _).2.2.1
        | exact absurd h.symm (layer_append_ne_reserved _).2.2.2
        | exact layer_append_to_string_injective h

/-- Witness of C29: the reserved layers 0 to 3 and the first user layer 100; the talker layer
is named "Talker" and the user layer 100 is named "Layer" followed by its decimal value. -/
theorem layerToString_names_layers_witness :
    layerToString sampleLayerValues sampleLayerValues.Talker = "Talker" ∧
      layerToString sampleLayerValues 100 = "Layer" ++ to_string 100 :=
  ⟨(layerToString_names_layers sampleLayerValues (by decide) (by decide)).2.2.1,
   (layerToString_names_layers sampleLayerValues (by decide) (by decide)).2.2.2.2.1 100
     (by decide)⟩

end Avdecc
